import Mathlib

/-!
Shallow embedding of the OpenTitan entropy-complex driver
(`sw/device/lib/crypto/drivers/entropy.c`).

Hardware is modelled as:
* a register file (`mem`, last-write-wins association list) holding the
  configuration registers the driver writes and reads back;
* an `oracle` list supplying, in order, the values returned by reads of
  hardware-driven status registers (state-machine state, command-ready,
  interrupt-state, generated-bits registers) — these change on the
  hardware's own initiative, so their reads are inputs to the model;
* read and write logs recording every MMIO access in program order.

Driver routines are explicit state-passing functions returning
`Option (status_t × Hw)`; `none` means a polling loop consumed the whole
oracle without its predicate becoming true (the C code would still be
spinning).  All numeric values are `Nat` with 32-bit masking made explicit
where the C code relies on it.
-/

namespace EntropyDrv

/-- Modelled from the spec: result codes of the driver
(`OTCRYPTO_OK`, `OTCRYPTO_RECOV_ERR`, `OTCRYPTO_BAD_ARGS`, `OUT_OF_RANGE`
from the crypto status library, which is not part of the sources). -/
inductive status_t where
  | Ok
  | RecovErr
  | BadArgs
  | OutOfRange
deriving DecidableEq, Repr

/-- Modelled from the spec: bit-field descriptor `bitfield_field32_t`
from `sw/device/lib/base/bitfield.h` (not in the sources): a mask and a
bit index. -/
structure bitfield_field32_t where
  mask : Nat
  index : Nat
deriving DecidableEq, Repr

/-- Modelled from the spec: 32-bit bitwise complement (`~x` on `uint32_t`). -/
def comp32 (x : Nat) : Nat := 0xffffffff ^^^ x

/-- Modelled from the spec: `bitfield_field32_write` from
`sw/device/lib/base/bitfield.h`: clear the field's bits, then or-in the
masked value shifted into place. -/
def bitfield_field32_write (reg : Nat) (f : bitfield_field32_t) (v : Nat) : Nat :=
  (reg &&& comp32 (f.mask <<< f.index)) ||| ((v &&& f.mask) <<< f.index)

/-- Modelled from the spec: `bitfield_field32_read` from
`sw/device/lib/base/bitfield.h`. -/
def bitfield_field32_read (reg : Nat) (f : bitfield_field32_t) : Nat :=
  (reg >>> f.index) &&& f.mask

/-- Modelled from the spec: `bitfield_bit32_write` from
`sw/device/lib/base/bitfield.h`. -/
def bitfield_bit32_write (reg : Nat) (b : Nat) (v : Bool) : Nat :=
  bitfield_field32_write reg ⟨1, b⟩ (if v then 1 else 0)

/-- Modelled from the spec: `bitfield_bit32_read` from
`sw/device/lib/base/bitfield.h` (`(reg >> b) & 1`). -/
def bitfield_bit32_read (reg : Nat) (b : Nat) : Bool :=
  Nat.testBit reg b

/-- Modelled from the spec: `ceil_div` from `sw/device/lib/base/math.h`. -/
def ceil_div (a b : Nat) : Nat := (a + b - 1) / b

/-- Modelled from the spec: `misalignment32_of` from
`sw/device/lib/base/memory.h`: distance of a pointer from 32-bit
alignment. -/
def misalignment32_of (ptr : Nat) : Nat := ptr % 4

/-- Modelled from the spec: `launder32` from `sw/device/lib/base/hardened.h`
is an optimisation barrier; semantically the identity. -/
def launder32 (x : Nat) : Nat := x

/-- Modelled from the spec: hardened-true encoding `kHardenedBoolTrue`
from `sw/device/lib/base/hardened.h`. -/
def kHardenedBoolTrue : Nat := 0x739

/-- Modelled from the spec: hardened-false encoding `kHardenedBoolFalse`
from `sw/device/lib/base/hardened.h`. -/
def kHardenedBoolFalse : Nat := 0x1d4

/-- Modelled from the spec: 4-bit multi-bit-boolean true encoding
`kMultiBitBool4True` from `sw/device/lib/base/multibits.h`. -/
def kMultiBitBool4True : Nat := 0x6

/-- Modelled from the spec: 4-bit multi-bit-boolean false encoding
`kMultiBitBool4False` from `sw/device/lib/base/multibits.h`. -/
def kMultiBitBool4False : Nat := 0x9

/-- Base address of the CSRNG block (`TOP_EARLGREY_CSRNG_BASE_ADDR`). -/
def kBaseCsrng : Nat := 0x41150000

/-- Base address of the entropy source block. -/
def kBaseEntropySrc : Nat := 0x41160000

/-- Base address of EDN0. -/
def kBaseEdn0 : Nat := 0x41170000

/-- Base address of EDN1. -/
def kBaseEdn1 : Nat := 0x41180000

/-- Modelled from the spec: register offset from the generated
`csrng_regs.h` (not in the sources); the exact numeric layout is an
opaque external contract, only distinctness of addresses matters. -/
def CSRNG_INTR_STATE_REG_OFFSET : Nat := 0x0

/-- Modelled from the spec: register offset from `csrng_regs.h`. -/
def CSRNG_CTRL_REG_OFFSET : Nat := 0x14

/-- Modelled from the spec: register offset from `csrng_regs.h`. -/
def CSRNG_CMD_REQ_REG_OFFSET : Nat := 0x18

/-- Modelled from the spec: register offset from `csrng_regs.h`. -/
def CSRNG_SW_CMD_STS_REG_OFFSET : Nat := 0x1c

/-- Modelled from the spec: register offset from `csrng_regs.h`. -/
def CSRNG_GENBITS_VLD_REG_OFFSET : Nat := 0x20

/-- Modelled from the spec: register offset from `csrng_regs.h`. -/
def CSRNG_GENBITS_REG_OFFSET : Nat := 0x24

/-- Modelled from the spec: register offset from `csrng_regs.h`. -/
def CSRNG_MAIN_SM_STATE_REG_OFFSET : Nat := 0x30

/-- Modelled from the spec: interrupt-state bit from `csrng_regs.h`. -/
def CSRNG_INTR_STATE_CS_CMD_REQ_DONE_BIT : Nat := 0

/-- Modelled from the spec: command-ready bit from `csrng_regs.h`. -/
def CSRNG_SW_CMD_STS_CMD_RDY_BIT : Nat := 1

/-- Modelled from the spec: command-status bit from `csrng_regs.h`. -/
def CSRNG_SW_CMD_STS_CMD_STS_BIT : Nat := 2

/-- Modelled from the spec: generated-bits-valid bit from `csrng_regs.h`. -/
def CSRNG_GENBITS_VLD_GENBITS_VLD_BIT : Nat := 0

/-- Modelled from the spec: generated-bits-FIPS bit from `csrng_regs.h`. -/
def CSRNG_GENBITS_VLD_GENBITS_FIPS_BIT : Nat := 1

/-- Modelled from the spec: CSRNG control enable field from `csrng_regs.h`. -/
def CSRNG_CTRL_ENABLE_FIELD : bitfield_field32_t := ⟨0xf, 0⟩

/-- Modelled from the spec: CSRNG software-application enable field. -/
def CSRNG_CTRL_SW_APP_ENABLE_FIELD : bitfield_field32_t := ⟨0xf, 4⟩

/-- Modelled from the spec: CSRNG internal-state read enable field. -/
def CSRNG_CTRL_READ_INT_STATE_FIELD : bitfield_field32_t := ⟨0xf, 8⟩

/-- Modelled from the spec: CSRNG control register reset value. -/
def CSRNG_CTRL_REG_RESVAL : Nat := 0x999

/-- Modelled from the spec: register offset from the generated `edn_regs.h`
(not in the sources). -/
def EDN_CTRL_REG_OFFSET : Nat := 0x14

/-- Modelled from the spec: register offset from `edn_regs.h`. -/
def EDN_SW_CMD_REQ_REG_OFFSET : Nat := 0x20

/-- Modelled from the spec: register offset from `edn_regs.h`. -/
def EDN_SW_CMD_STS_REG_OFFSET : Nat := 0x24

/-- Modelled from the spec: register offset from `edn_regs.h`. -/
def EDN_RESEED_CMD_REG_OFFSET : Nat := 0x28

/-- Modelled from the spec: register offset from `edn_regs.h`. -/
def EDN_GENERATE_CMD_REG_OFFSET : Nat := 0x2c

/-- Modelled from the spec: register offset from `edn_regs.h`. -/
def EDN_MAX_NUM_REQS_BETWEEN_RESEEDS_REG_OFFSET : Nat := 0x30

/-- Modelled from the spec: EDN enable field from `edn_regs.h`. -/
def EDN_CTRL_EDN_ENABLE_FIELD : bitfield_field32_t := ⟨0xf, 0⟩

/-- Modelled from the spec: EDN boot-request-mode field from `edn_regs.h`. -/
def EDN_CTRL_BOOT_REQ_MODE_FIELD : bitfield_field32_t := ⟨0xf, 4⟩

/-- Modelled from the spec: EDN automatic-request-mode field. -/
def EDN_CTRL_AUTO_REQ_MODE_FIELD : bitfield_field32_t := ⟨0xf, 8⟩

/-- Modelled from the spec: EDN command-FIFO-reset field. -/
def EDN_CTRL_CMD_FIFO_RST_FIELD : bitfield_field32_t := ⟨0xf, 12⟩

/-- Modelled from the spec: EDN control register reset value (all four
multi-bit fields false). -/
def EDN_CTRL_REG_RESVAL : Nat := 0x9999

/-- Modelled from the spec: EDN command-ready bit from `edn_regs.h`. -/
def EDN_SW_CMD_STS_CMD_RDY_BIT : Nat := 0

/-- Modelled from the spec: EDN command-status bit from `edn_regs.h`. -/
def EDN_SW_CMD_STS_CMD_STS_BIT : Nat := 1

/-- Modelled from the spec: register offset from the generated
`entropy_src_regs.h` (not in the sources). -/
def ENTROPY_SRC_MODULE_ENABLE_REG_OFFSET : Nat := 0x20

/-- Modelled from the spec: register offset from `entropy_src_regs.h`. -/
def ENTROPY_SRC_CONF_REG_OFFSET : Nat := 0x24

/-- Modelled from the spec: register offset from `entropy_src_regs.h`. -/
def ENTROPY_SRC_ENTROPY_CONTROL_REG_OFFSET : Nat := 0x28

/-- Modelled from the spec: register offset from `entropy_src_regs.h`. -/
def ENTROPY_SRC_HEALTH_TEST_WINDOWS_REG_OFFSET : Nat := 0x30

/-- Modelled from the spec: register offset from `entropy_src_regs.h`. -/
def ENTROPY_SRC_REPCNT_THRESHOLDS_REG_OFFSET : Nat := 0x34

/-- Modelled from the spec: register offset from `entropy_src_regs.h`. -/
def ENTROPY_SRC_REPCNTS_THRESHOLDS_REG_OFFSET : Nat := 0x38

/-- Modelled from the spec: register offset from `entropy_src_regs.h`. -/
def ENTROPY_SRC_ADAPTP_HI_THRESHOLDS_REG_OFFSET : Nat := 0x3c

/-- Modelled from the spec: register offset from `entropy_src_regs.h`. -/
def ENTROPY_SRC_ADAPTP_LO_THRESHOLDS_REG_OFFSET : Nat := 0x40

/-- Modelled from the spec: register offset from `entropy_src_regs.h`. -/
def ENTROPY_SRC_BUCKET_THRESHOLDS_REG_OFFSET : Nat := 0x44

/-- Modelled from the spec: register offset from `entropy_src_regs.h`. -/
def ENTROPY_SRC_MARKOV_HI_THRESHOLDS_REG_OFFSET : Nat := 0x48

/-- Modelled from the spec: register offset from `entropy_src_regs.h`. -/
def ENTROPY_SRC_MARKOV_LO_THRESHOLDS_REG_OFFSET : Nat := 0x4c

/-- Modelled from the spec: register offset from `entropy_src_regs.h`. -/
def ENTROPY_SRC_EXTHT_HI_THRESHOLDS_REG_OFFSET : Nat := 0x50

/-- Modelled from the spec: register offset from `entropy_src_regs.h`. -/
def ENTROPY_SRC_EXTHT_LO_THRESHOLDS_REG_OFFSET : Nat := 0x54

/-- Modelled from the spec: register offset from `entropy_src_regs.h`. -/
def ENTROPY_SRC_ALERT_THRESHOLD_REG_OFFSET : Nat := 0x58

/-- Modelled from the spec: module-enable register reset value (multi-bit
false). -/
def ENTROPY_SRC_MODULE_ENABLE_REG_RESVAL : Nat := 0x9

/-- Modelled from the spec: entropy-control register reset value. -/
def ENTROPY_SRC_ENTROPY_CONTROL_REG_RESVAL : Nat := 0x99

/-- Modelled from the spec: configuration register reset value. -/
def ENTROPY_SRC_CONF_REG_RESVAL : Nat := 0x909099

/-- Modelled from the spec: health-test window register reset value. -/
def ENTROPY_SRC_HEALTH_TEST_WINDOWS_REG_RESVAL : Nat := 0x600200

/-- Modelled from the spec: alert-threshold register reset value. -/
def ENTROPY_SRC_ALERT_THRESHOLD_REG_RESVAL : Nat := 0xfffd0002

/-- Modelled from the spec: uniform reset value of the nine health-test
threshold registers (both subfields at maximum). -/
def ENTROPY_SRC_THRESHOLDS_REG_RESVAL : Nat := 0xffffffff

/-- Modelled from the spec: FIPS-enable field of the configuration
register. -/
def ENTROPY_SRC_CONF_FIPS_ENABLE_FIELD : bitfield_field32_t := ⟨0xf, 0⟩

/-- Modelled from the spec: entropy-data-register-enable field. -/
def ENTROPY_SRC_CONF_ENTROPY_DATA_REG_ENABLE_FIELD : bitfield_field32_t := ⟨0xf, 4⟩

/-- Modelled from the spec: threshold-scope field. -/
def ENTROPY_SRC_CONF_THRESHOLD_SCOPE_FIELD : bitfield_field32_t := ⟨0xf, 12⟩

/-- Modelled from the spec: RNG-bit-enable field. -/
def ENTROPY_SRC_CONF_RNG_BIT_ENABLE_FIELD : bitfield_field32_t := ⟨0xf, 20⟩

/-- Modelled from the spec: RNG-bit-select field. -/
def ENTROPY_SRC_CONF_RNG_BIT_SEL_FIELD : bitfield_field32_t := ⟨0x3, 24⟩

/-- Modelled from the spec: entropy-route control field. -/
def ENTROPY_SRC_ENTROPY_CONTROL_ES_ROUTE_FIELD : bitfield_field32_t := ⟨0xf, 0⟩

/-- Modelled from the spec: entropy-type control field. -/
def ENTROPY_SRC_ENTROPY_CONTROL_ES_TYPE_FIELD : bitfield_field32_t := ⟨0xf, 4⟩

/-- Modelled from the spec: FIPS health-test window field. -/
def ENTROPY_SRC_HEALTH_TEST_WINDOWS_FIPS_WINDOW_FIELD : bitfield_field32_t := ⟨0xffff, 0⟩

/-- Modelled from the spec: alert-threshold value field. -/
def ENTROPY_SRC_ALERT_THRESHOLD_ALERT_THRESHOLD_FIELD : bitfield_field32_t := ⟨0xffff, 0⟩

/-- Modelled from the spec: alert-threshold inverted-value field. -/
def ENTROPY_SRC_ALERT_THRESHOLD_ALERT_THRESHOLD_INV_FIELD : bitfield_field32_t := ⟨0xffff, 16⟩

/-- Modelled from the spec: FIPS threshold field, shared layout of all nine
health-test threshold registers. -/
def ENTROPY_SRC_THRESHOLDS_FIPS_THRESH_FIELD : bitfield_field32_t := ⟨0xffff, 0⟩

/-- Addresses of hardware-driven status registers: their reads are supplied
by the oracle rather than by the register file (the hardware changes them
on its own). -/
def statusAddrList : List Nat :=
  [kBaseCsrng + CSRNG_MAIN_SM_STATE_REG_OFFSET,
   kBaseCsrng + CSRNG_SW_CMD_STS_REG_OFFSET,
   kBaseCsrng + CSRNG_INTR_STATE_REG_OFFSET,
   kBaseCsrng + CSRNG_GENBITS_VLD_REG_OFFSET,
   kBaseCsrng + CSRNG_GENBITS_REG_OFFSET,
   kBaseEdn0 + EDN_SW_CMD_STS_REG_OFFSET,
   kBaseEdn1 + EDN_SW_CMD_STS_REG_OFFSET]

/-- Whether an address is a hardware-driven status register. -/
def isStatusAddr (addr : Nat) : Bool := statusAddrList.contains addr

/-- Reset value of a configuration register that has never been written. -/
def regResetVal (addr : Nat) : Nat :=
  if addr = kBaseCsrng + CSRNG_CTRL_REG_OFFSET then CSRNG_CTRL_REG_RESVAL
  else if addr = kBaseEdn0 + EDN_CTRL_REG_OFFSET then EDN_CTRL_REG_RESVAL
  else if addr = kBaseEdn1 + EDN_CTRL_REG_OFFSET then EDN_CTRL_REG_RESVAL
  else if addr = kBaseEntropySrc + ENTROPY_SRC_MODULE_ENABLE_REG_OFFSET then
    ENTROPY_SRC_MODULE_ENABLE_REG_RESVAL
  else if addr = kBaseEntropySrc + ENTROPY_SRC_CONF_REG_OFFSET then
    ENTROPY_SRC_CONF_REG_RESVAL
  else if addr = kBaseEntropySrc + ENTROPY_SRC_ENTROPY_CONTROL_REG_OFFSET then
    ENTROPY_SRC_ENTROPY_CONTROL_REG_RESVAL
  else if addr = kBaseEntropySrc + ENTROPY_SRC_HEALTH_TEST_WINDOWS_REG_OFFSET then
    ENTROPY_SRC_HEALTH_TEST_WINDOWS_REG_RESVAL
  else if addr = kBaseEntropySrc + ENTROPY_SRC_ALERT_THRESHOLD_REG_OFFSET then
    ENTROPY_SRC_ALERT_THRESHOLD_REG_RESVAL
  else 0

/-- Hardware model state: register file, status-read oracle, access logs. -/
structure Hw where
  mem : List (Nat × Nat)
  oracle : List Nat
  readLog : List (Nat × Nat)
  writeLog : List (Nat × Nat)
deriving DecidableEq, Repr

/-- Current value of a configuration register in the register file. -/
def memGet (mem : List (Nat × Nat)) (addr : Nat) : Nat :=
  match mem.find? (fun e => e.1 == addr) with
  | some e => e.2
  | none => regResetVal addr

/-- Modelled from the spec: `abs_mmio_read32` from
`sw/device/lib/base/abs_mmio.h` — an atomic 32-bit register read.  Status
registers consume the oracle (`none` when it is exhausted); configuration
registers return their last written value. -/
def abs_mmio_read32 (hw : Hw) (addr : Nat) : Option (Nat × Hw) :=
  if isStatusAddr addr then
    match hw.oracle with
    | [] => none
    | v :: rest =>
      some (v, { hw with oracle := rest, readLog := hw.readLog ++ [(addr, v)] })
  else
    some (memGet hw.mem addr,
      { hw with readLog := hw.readLog ++ [(addr, memGet hw.mem addr)] })

/-- Modelled from the spec: `abs_mmio_write32` from
`sw/device/lib/base/abs_mmio.h` — an atomic 32-bit register write. -/
def abs_mmio_write32 (hw : Hw) (addr v : Nat) : Hw :=
  { hw with mem := (addr, v) :: hw.mem, writeLog := hw.writeLog ++ [(addr, v)] }

/-- Modelled from the spec: `HARDENED_TRY` from the crypto status library:
propagate the first non-OK status, continue otherwise. -/
def statusTry (r : Option (status_t × Hw)) (k : Hw → Option (status_t × Hw)) :
    Option (status_t × Hw) :=
  match r with
  | none => none
  | some (st, hw) => if st = status_t.Ok then k hw else some (st, hw)

/-- Fuel-bounded polling loop: read `addr` until `pred` holds of the value
read.  With fuel at least `hw.oracle.length + 1` this is equivalent to the
C `do {} while` loop, `none` standing for a spin that outlives the
oracle. -/
def pollUntilFuel (fuel : Nat) (addr : Nat) (pred : Nat → Bool) (hw : Hw) :
    Option (Nat × Hw) :=
  match fuel with
  | 0 => none
  | f + 1 =>
    match abs_mmio_read32 hw addr with
    | none => none
    | some (v, hw₁) => if pred v then some (v, hw₁) else pollUntilFuel f addr pred hw₁

/-- Unbounded polling loop of the driver, totalised by the oracle length. -/
def pollUntil (addr : Nat) (pred : Nat → Bool) (hw : Hw) : Option (Nat × Hw) :=
  pollUntilFuel (hw.oracle.length + 1) addr pred hw

/-- Number of attempts of the idle-wait workaround loop
(`kCsrngIdleNumTries` in `csrng_fsm_idle_wait`). -/
def kCsrngIdleNumTries : Nat := 100000

/-- CSRNG main-state-machine idle encoding (`kCsrngMainSmIdle`, matching
`MainSmIdle` in `csrng_pkg.sv`). -/
def kCsrngMainSmIdle : Nat := 0x4e

/-- Bounded loop body of `csrng_fsm_idle_wait`: read the main-state
register up to `n` times, succeeding as soon as it reads idle, reporting a
recoverable error once the attempts are exhausted. -/
def idleWaitAux (n : Nat) (hw : Hw) : Option (status_t × Hw) :=
  match n with
  | 0 => some (status_t.RecovErr, hw)
  | m + 1 =>
    match abs_mmio_read32 hw (kBaseCsrng + CSRNG_MAIN_SM_STATE_REG_OFFSET) with
    | none => none
    | some (v, hw₁) =>
      if v = kCsrngMainSmIdle then some (status_t.Ok, hw₁) else idleWaitAux m hw₁

/-- `csrng_fsm_idle_wait`: workaround poll for the CSRNG main state machine
to reach idle, bounded by `kCsrngIdleNumTries` attempts. -/
def csrng_fsm_idle_wait (hw : Hw) : Option (status_t × Hw) :=
  idleWaitAux kCsrngIdleNumTries hw

/-- Seed-material view passed with a command (`entropy_seed_material_t`
from `entropy.h`): declared word count, the data pointer's address (for
the alignment check), and the words it points at. -/
structure entropy_seed_material_t where
  len : Nat
  dataPtr : Nat
  data : List Nat
deriving DecidableEq, Repr

/-- CSRNG application command identifiers (`entropy_csrng_op_t`). -/
def kEntropyDrbgOpInstantiate : Nat := 1

/-- CSRNG reseed command identifier. -/
def kEntropyDrbgOpReseed : Nat := 2

/-- CSRNG generate command identifier. -/
def kEntropyDrbgOpGenerate : Nat := 3

/-- CSRNG update command identifier. -/
def kEntropyDrbgOpUpdate : Nat := 4

/-- CSRNG uninstantiate command identifier. -/
def kEntropyDrbgOpUninstantiate : Nat := 5

/-- CSRNG application command (`entropy_csrng_cmd_t`). -/
structure entropy_csrng_cmd_t where
  id : Nat
  disable_trng_input : Nat
  seed_material : Option entropy_seed_material_t
  generate_len : Nat
deriving DecidableEq, Repr

/-- Maximum generate length in 128-bit blocks
(`kMaxGenerateSizeIn128BitBlocks`, the NIST SP 800-90A cap). -/
def kMaxGenerateSizeIn128BitBlocks : Nat := 0x800

/-- The `cmd_len` computed by `csrng_send_app_cmd`: the declared word
count of the seed material, zero when there is none. -/
def cmdLenOf (cmd : entropy_csrng_cmd_t) : Nat :=
  match cmd.seed_material with
  | none => 0
  | some sm => sm.len

/-- The seed-material words of a command, empty when there are none. -/
def seedDataOf (cmd : entropy_csrng_cmd_t) : List Nat :=
  match cmd.seed_material with
  | none => []
  | some sm => sm.data

/-- Application command header field: flag0 (`kAppCmdFieldFlag0`). -/
def kAppCmdFieldFlag0 : bitfield_field32_t := ⟨0xf, 8⟩

/-- Application command header field: command id (`kAppCmdFieldCmdId`). -/
def kAppCmdFieldCmdId : bitfield_field32_t := ⟨0xf, 0⟩

/-- Application command header field: length (`kAppCmdFieldCmdLen`). -/
def kAppCmdFieldCmdLen : bitfield_field32_t := ⟨0xf, 4⟩

/-- Application command header field: generate length
(`kAppCmdFieldGlen`). -/
def kAppCmdFieldGlen : bitfield_field32_t := ⟨0x7ffff, 12⟩

/-- The 32-bit application command header built inside
`csrng_send_app_cmd`: command id, then length, then generate length, and
flag0 only when the hardened disable-TRNG flag is exactly true. -/
def csrng_cmd_header (cmd_id cmd_len disable_trng_input generate_len : Nat) : Nat :=
  let reg := bitfield_field32_write 0 kAppCmdFieldCmdId cmd_id
  let reg := bitfield_field32_write reg kAppCmdFieldCmdLen cmd_len
  let reg := bitfield_field32_write reg kAppCmdFieldGlen generate_len
  if launder32 disable_trng_input = kHardenedBoolTrue then
    bitfield_field32_write reg kAppCmdFieldFlag0 kMultiBitBool4True
  else reg

/-- Tail of `csrng_send_app_cmd`: write the `cmd_len` seed-material words
to the command register, in order. -/
def csrng_seed_writes (reg_address : Nat) (data : List Nat) (cmd_len : Nat)
    (hw : Hw) : Hw :=
  (List.range cmd_len).foldl (fun h i => abs_mmio_write32 h reg_address (data.getD i 0)) hw

/-- `csrng_send_app_cmd`: validate, wait for the main state machine and
command-ready, optionally pre-clear the completion interrupt, write the
header and seed words, and (when requested) track completion. -/
def csrng_send_app_cmd (reg_address : Nat) (cmd : entropy_csrng_cmd_t)
    (check_completion : Bool) (hw : Hw) : Option (status_t × Hw) :=
  if cmd.generate_len > kMaxGenerateSizeIn128BitBlocks then
    some (status_t.OutOfRange, hw)
  else
    statusTry (csrng_fsm_idle_wait hw) fun hw =>
    match pollUntil (kBaseCsrng + CSRNG_SW_CMD_STS_REG_OFFSET)
        (fun r => bitfield_bit32_read r CSRNG_SW_CMD_STS_CMD_RDY_BIT) hw with
    | none => none
    | some (_, hw) =>
      let cmd_len : Nat :=
        match cmd.seed_material with
        | none => 0
        | some sm => sm.len
      if cmd_len &&& comp32 kAppCmdFieldCmdLen.mask ≠ 0 then
        some (status_t.RecovErr, hw)
      else if (match cmd.seed_material with
               | none => false
               | some sm => misalignment32_of sm.dataPtr ≠ 0) then
        some (status_t.RecovErr, hw)
      else
        let hw :=
          if check_completion then
            abs_mmio_write32 hw (kBaseCsrng + CSRNG_INTR_STATE_REG_OFFSET)
              (bitfield_bit32_write 0 CSRNG_INTR_STATE_CS_CMD_REQ_DONE_BIT true)
          else hw
        let hw := abs_mmio_write32 hw reg_address
          (csrng_cmd_header cmd.id cmd_len cmd.disable_trng_input cmd.generate_len)
        let hw := csrng_seed_writes reg_address
          (match cmd.seed_material with | none => [] | some sm => sm.data) cmd_len hw
        if check_completion then
          if cmd.id = kEntropyDrbgOpGenerate then
            match pollUntil (kBaseCsrng + CSRNG_GENBITS_VLD_REG_OFFSET)
                (fun r => bitfield_bit32_read r CSRNG_GENBITS_VLD_GENBITS_VLD_BIT) hw with
            | none => none
            | some (_, hw) => some (status_t.Ok, hw)
          else
            match pollUntil (kBaseCsrng + CSRNG_INTR_STATE_REG_OFFSET)
                (fun r => bitfield_bit32_read r CSRNG_INTR_STATE_CS_CMD_REQ_DONE_BIT) hw with
            | none => none
            | some (_, hw) =>
              match abs_mmio_read32 hw (kBaseCsrng + CSRNG_SW_CMD_STS_REG_OFFSET) with
              | none => none
              | some (r, hw) =>
                if bitfield_bit32_read r CSRNG_SW_CMD_STS_CMD_STS_BIT then
                  some (status_t.RecovErr, hw)
                else some (status_t.Ok, hw)
        else some (status_t.Ok, hw)

/-- `csrng_configure`: enable the CSRNG block with the software
application and internal-state registers enabled. -/
def csrng_configure (hw : Hw) : Hw :=
  let reg := bitfield_field32_write 0 CSRNG_CTRL_ENABLE_FIELD kMultiBitBool4True
  let reg := bitfield_field32_write reg CSRNG_CTRL_SW_APP_ENABLE_FIELD kMultiBitBool4True
  let reg := bitfield_field32_write reg CSRNG_CTRL_READ_INT_STATE_FIELD kMultiBitBool4True
  abs_mmio_write32 hw (kBaseCsrng + CSRNG_CTRL_REG_OFFSET) reg

/-- `edn_stop`: assert the command-FIFO-reset bit (honoured only while the
unit is enabled), then restore the whole control register to its reset
value in one write. -/
def edn_stop (edn_address : Nat) (hw : Hw) : Option Hw :=
  match abs_mmio_read32 hw (edn_address + EDN_CTRL_REG_OFFSET) with
  | none => none
  | some (reg, hw) =>
    let hw := abs_mmio_write32 hw (edn_address + EDN_CTRL_REG_OFFSET)
      (bitfield_field32_write reg EDN_CTRL_CMD_FIFO_RST_FIELD kMultiBitBool4True)
    some (abs_mmio_write32 hw (edn_address + EDN_CTRL_REG_OFFSET) EDN_CTRL_REG_RESVAL)

/-- `edn_ready_block`: poll the EDN command-status register until ready,
then fail if its error-status bit is set. -/
def edn_ready_block (edn_address : Nat) (hw : Hw) : Option (status_t × Hw) :=
  match pollUntil (edn_address + EDN_SW_CMD_STS_REG_OFFSET)
      (fun r => bitfield_bit32_read r EDN_SW_CMD_STS_CMD_RDY_BIT) hw with
  | none => none
  | some (reg, hw) =>
    if bitfield_bit32_read reg EDN_SW_CMD_STS_CMD_STS_BIT then
      some (status_t.RecovErr, hw)
    else some (status_t.Ok, hw)

/-- EDN configuration settings (`edn_config_t`). -/
structure edn_config_t where
  base_address : Nat
  reseed_interval : Nat
  instantiate : entropy_csrng_cmd_t
  generate : entropy_csrng_cmd_t
  reseed : entropy_csrng_cmd_t
deriving DecidableEq, Repr

/-- `edn_configure`: program the reseed and generate command templates,
the reseed interval, enable the unit in automatic-request mode, wait for
readiness, issue the instantiate command, and wait again. -/
def edn_configure (config : edn_config_t) (hw : Hw) : Option (status_t × Hw) :=
  statusTry (csrng_send_app_cmd (config.base_address + EDN_RESEED_CMD_REG_OFFSET)
      config.reseed false hw) fun hw =>
  statusTry (csrng_send_app_cmd (config.base_address + EDN_GENERATE_CMD_REG_OFFSET)
      config.generate false hw) fun hw =>
  let hw := abs_mmio_write32 hw
    (config.base_address + EDN_MAX_NUM_REQS_BETWEEN_RESEEDS_REG_OFFSET)
    config.reseed_interval
  let reg := bitfield_field32_write 0 EDN_CTRL_EDN_ENABLE_FIELD kMultiBitBool4True
  let reg := bitfield_field32_write reg EDN_CTRL_AUTO_REQ_MODE_FIELD kMultiBitBool4True
  let hw := abs_mmio_write32 hw (config.base_address + EDN_CTRL_REG_OFFSET) reg
  statusTry (edn_ready_block config.base_address hw) fun hw =>
  statusTry (csrng_send_app_cmd (config.base_address + EDN_SW_CMD_REQ_REG_OFFSET)
      config.instantiate false hw) fun hw =>
  edn_ready_block config.base_address hw

/-- `entropy_src_stop`: write the module-enable register and four other
critical registers back to their reset values, in this order. -/
def entropy_src_stop (hw : Hw) : Hw :=
  let hw := abs_mmio_write32 hw (kBaseEntropySrc + ENTROPY_SRC_MODULE_ENABLE_REG_OFFSET)
    ENTROPY_SRC_MODULE_ENABLE_REG_RESVAL
  let hw := abs_mmio_write32 hw (kBaseEntropySrc + ENTROPY_SRC_ENTROPY_CONTROL_REG_OFFSET)
    ENTROPY_SRC_ENTROPY_CONTROL_REG_RESVAL
  let hw := abs_mmio_write32 hw (kBaseEntropySrc + ENTROPY_SRC_CONF_REG_OFFSET)
    ENTROPY_SRC_CONF_REG_RESVAL
  let hw := abs_mmio_write32 hw (kBaseEntropySrc + ENTROPY_SRC_HEALTH_TEST_WINDOWS_REG_OFFSET)
    ENTROPY_SRC_HEALTH_TEST_WINDOWS_REG_RESVAL
  abs_mmio_write32 hw (kBaseEntropySrc + ENTROPY_SRC_ALERT_THRESHOLD_REG_OFFSET)
    ENTROPY_SRC_ALERT_THRESHOLD_REG_RESVAL

/-- `entropy_complex_stop_all`: stop EDN0, then EDN1, then reset the CSRNG
control register, then stop the entropy source. -/
def entropy_complex_stop_all (hw : Hw) : Option Hw :=
  match edn_stop kBaseEdn0 hw with
  | none => none
  | some hw =>
    match edn_stop kBaseEdn1 hw with
    | none => none
    | some hw =>
      let hw := abs_mmio_write32 hw (kBaseCsrng + CSRNG_CTRL_REG_OFFSET) CSRNG_CTRL_REG_RESVAL
      some (entropy_src_stop hw)

/-- Entropy source configuration settings (`entropy_src_config_t`). -/
structure entropy_src_config_t where
  fips_enable : Nat
  route_to_firmware : Nat
  bypass_conditioner : Nat
  single_bit_mode : Nat
  fips_test_window_size : Nat
  alert_threshold : Nat
  repcnt_threshold : Nat
  repcnts_threshold : Nat
  adaptp_hi_threshold : Nat
  adaptp_lo_threshold : Nat
  bucket_threshold : Nat
  markov_hi_threshold : Nat
  markov_lo_threshold : Nat
  extht_hi_threshold : Nat
  extht_lo_threshold : Nat
deriving DecidableEq, Repr

/-- Expansion of the `SET_FIPS_THRESH` macro: write a threshold register,
setting the FIPS threshold field on top of the register's reset value. -/
def SET_FIPS_THRESH (hw : Hw) (reg_offset resval value : Nat) : Hw :=
  abs_mmio_write32 hw (kBaseEntropySrc + reg_offset)
    (bitfield_field32_write resval ENTROPY_SRC_THRESHOLDS_FIPS_THRESH_FIELD value)

/-- `entropy_src_configure`: reject conditioner bypass, then program
control, configuration, window, alert-threshold and the nine threshold
registers, and finally assert module-enable. -/
def entropy_src_configure (config : entropy_src_config_t) (hw : Hw) :
    Option (status_t × Hw) :=
  if config.bypass_conditioner ≠ kMultiBitBool4False then
    some (status_t.BadArgs, hw)
  else
    let reg := bitfield_field32_write 0 ENTROPY_SRC_ENTROPY_CONTROL_ES_ROUTE_FIELD
      config.route_to_firmware
    let reg := bitfield_field32_write reg ENTROPY_SRC_ENTROPY_CONTROL_ES_TYPE_FIELD
      config.bypass_conditioner
    let hw := abs_mmio_write32 hw
      (kBaseEntropySrc + ENTROPY_SRC_ENTROPY_CONTROL_REG_OFFSET) reg
    let reg := bitfield_field32_write 0 ENTROPY_SRC_CONF_FIPS_ENABLE_FIELD
      config.fips_enable
    let reg := bitfield_field32_write reg ENTROPY_SRC_CONF_ENTROPY_DATA_REG_ENABLE_FIELD
      config.route_to_firmware
    let reg := bitfield_field32_write reg ENTROPY_SRC_CONF_THRESHOLD_SCOPE_FIELD
      kMultiBitBool4False
    let reg := bitfield_field32_write reg ENTROPY_SRC_CONF_RNG_BIT_ENABLE_FIELD
      config.single_bit_mode
    let reg := bitfield_field32_write reg ENTROPY_SRC_CONF_RNG_BIT_SEL_FIELD 0
    let hw := abs_mmio_write32 hw (kBaseEntropySrc + ENTROPY_SRC_CONF_REG_OFFSET) reg
    let hw := abs_mmio_write32 hw
      (kBaseEntropySrc + ENTROPY_SRC_HEALTH_TEST_WINDOWS_REG_OFFSET)
      (bitfield_field32_write ENTROPY_SRC_HEALTH_TEST_WINDOWS_REG_RESVAL
        ENTROPY_SRC_HEALTH_TEST_WINDOWS_FIPS_WINDOW_FIELD config.fips_test_window_size)
    let reg := bitfield_field32_write 0 ENTROPY_SRC_ALERT_THRESHOLD_ALERT_THRESHOLD_FIELD
      config.alert_threshold
    let reg := bitfield_field32_write reg
      ENTROPY_SRC_ALERT_THRESHOLD_ALERT_THRESHOLD_INV_FIELD (comp32 config.alert_threshold)
    let hw := abs_mmio_write32 hw
      (kBaseEntropySrc + ENTROPY_SRC_ALERT_THRESHOLD_REG_OFFSET) reg
    let hw := SET_FIPS_THRESH hw ENTROPY_SRC_REPCNT_THRESHOLDS_REG_OFFSET
      ENTROPY_SRC_THRESHOLDS_REG_RESVAL config.repcnt_threshold
    let hw := SET_FIPS_THRESH hw ENTROPY_SRC_REPCNTS_THRESHOLDS_REG_OFFSET
      ENTROPY_SRC_THRESHOLDS_REG_RESVAL config.repcnts_threshold
    let hw := SET_FIPS_THRESH hw ENTROPY_SRC_ADAPTP_HI_THRESHOLDS_REG_OFFSET
      ENTROPY_SRC_THRESHOLDS_REG_RESVAL config.adaptp_hi_threshold
    let hw := SET_FIPS_THRESH hw ENTROPY_SRC_ADAPTP_LO_THRESHOLDS_REG_OFFSET
      ENTROPY_SRC_THRESHOLDS_REG_RESVAL config.adaptp_lo_threshold
    let hw := SET_FIPS_THRESH hw ENTROPY_SRC_BUCKET_THRESHOLDS_REG_OFFSET
      ENTROPY_SRC_THRESHOLDS_REG_RESVAL config.bucket_threshold
    let hw := SET_FIPS_THRESH hw ENTROPY_SRC_MARKOV_HI_THRESHOLDS_REG_OFFSET
      ENTROPY_SRC_THRESHOLDS_REG_RESVAL config.markov_hi_threshold
    let hw := SET_FIPS_THRESH hw ENTROPY_SRC_MARKOV_LO_THRESHOLDS_REG_OFFSET
      ENTROPY_SRC_THRESHOLDS_REG_RESVAL config.markov_lo_threshold
    let hw := SET_FIPS_THRESH hw ENTROPY_SRC_EXTHT_HI_THRESHOLDS_REG_OFFSET
      ENTROPY_SRC_THRESHOLDS_REG_RESVAL config.extht_hi_threshold
    let hw := SET_FIPS_THRESH hw ENTROPY_SRC_EXTHT_LO_THRESHOLDS_REG_OFFSET
      ENTROPY_SRC_THRESHOLDS_REG_RESVAL config.extht_lo_threshold
    some (status_t.Ok,
      abs_mmio_write32 hw (kBaseEntropySrc + ENTROPY_SRC_MODULE_ENABLE_REG_OFFSET)
        kMultiBitBool4True)

/-- Expansion of the `VERIFY_FIPS_THRESH` macro in continuation style:
read a threshold register, fail with a recoverable error when its FIPS
threshold field differs from the expected value, continue otherwise. -/
def VERIFY_FIPS_THRESH (reg_offset exp : Nat) (hw : Hw)
    (k : Hw → Option (status_t × Hw)) : Option (status_t × Hw) :=
  match abs_mmio_read32 hw (kBaseEntropySrc + reg_offset) with
  | none => none
  | some (reg, hw) =>
    if bitfield_field32_read reg ENTROPY_SRC_THRESHOLDS_FIPS_THRESH_FIELD ≠ exp then
      some (status_t.RecovErr, hw)
    else k hw

/-- `entropy_src_check`: read-only verification that the entropy source is
enabled and configured as expected. -/
def entropy_src_check (config : entropy_src_config_t) (hw : Hw) :
    Option (status_t × Hw) :=
  if config.fips_enable ≠ kMultiBitBool4True ∨
     config.bypass_conditioner ≠ kMultiBitBool4False ∨
     config.route_to_firmware ≠ kMultiBitBool4False then
    some (status_t.BadArgs, hw)
  else
    match abs_mmio_read32 hw (kBaseEntropySrc + ENTROPY_SRC_MODULE_ENABLE_REG_OFFSET) with
    | none => none
    | some (reg, hw) =>
      if reg ≠ kMultiBitBool4True then some (status_t.RecovErr, hw)
      else
        match abs_mmio_read32 hw (kBaseEntropySrc + ENTROPY_SRC_CONF_REG_OFFSET) with
        | none => none
        | some (reg, hw) =>
          if bitfield_field32_read reg ENTROPY_SRC_CONF_FIPS_ENABLE_FIELD ≠ kMultiBitBool4True ∨
             bitfield_field32_read reg ENTROPY_SRC_CONF_RNG_BIT_ENABLE_FIELD ≠ kMultiBitBool4False then
            some (status_t.RecovErr, hw)
          else
            match abs_mmio_read32 hw
                (kBaseEntropySrc + ENTROPY_SRC_ENTROPY_CONTROL_REG_OFFSET) with
            | none => none
            | some (reg, hw) =>
              if bitfield_field32_read reg ENTROPY_SRC_ENTROPY_CONTROL_ES_TYPE_FIELD ≠ kMultiBitBool4False ∨
                 bitfield_field32_read reg ENTROPY_SRC_ENTROPY_CONTROL_ES_ROUTE_FIELD ≠ kMultiBitBool4False then
                some (status_t.RecovErr, hw)
              else
                match abs_mmio_read32 hw
                    (kBaseEntropySrc + ENTROPY_SRC_HEALTH_TEST_WINDOWS_REG_OFFSET) with
                | none => none
                | some (reg, hw) =>
                  if bitfield_field32_read reg
                      ENTROPY_SRC_HEALTH_TEST_WINDOWS_FIPS_WINDOW_FIELD ≠
                      config.fips_test_window_size then
                    some (status_t.RecovErr, hw)
                  else
                    let exp_reg := bitfield_field32_write 0
                      ENTROPY_SRC_ALERT_THRESHOLD_ALERT_THRESHOLD_FIELD config.alert_threshold
                    let exp_reg := bitfield_field32_write exp_reg
                      ENTROPY_SRC_ALERT_THRESHOLD_ALERT_THRESHOLD_INV_FIELD
                      (comp32 config.alert_threshold)
                    match abs_mmio_read32 hw
                        (kBaseEntropySrc + ENTROPY_SRC_ALERT_THRESHOLD_REG_OFFSET) with
                    | none => none
                    | some (reg, hw) =>
                      if exp_reg ≠ reg then some (status_t.RecovErr, hw)
                      else
                        VERIFY_FIPS_THRESH ENTROPY_SRC_REPCNT_THRESHOLDS_REG_OFFSET
                          config.repcnt_threshold hw fun hw =>
                        VERIFY_FIPS_THRESH ENTROPY_SRC_REPCNTS_THRESHOLDS_REG_OFFSET
                          config.repcnts_threshold hw fun hw =>
                        VERIFY_FIPS_THRESH ENTROPY_SRC_ADAPTP_HI_THRESHOLDS_REG_OFFSET
                          config.adaptp_hi_threshold hw fun hw =>
                        VERIFY_FIPS_THRESH ENTROPY_SRC_ADAPTP_LO_THRESHOLDS_REG_OFFSET
                          config.adaptp_lo_threshold hw fun hw =>
                        VERIFY_FIPS_THRESH ENTROPY_SRC_BUCKET_THRESHOLDS_REG_OFFSET
                          config.bucket_threshold hw fun hw =>
                        VERIFY_FIPS_THRESH ENTROPY_SRC_MARKOV_HI_THRESHOLDS_REG_OFFSET
                          config.markov_hi_threshold hw fun hw =>
                        VERIFY_FIPS_THRESH ENTROPY_SRC_MARKOV_LO_THRESHOLDS_REG_OFFSET
                          config.markov_lo_threshold hw fun hw =>
                        VERIFY_FIPS_THRESH ENTROPY_SRC_EXTHT_HI_THRESHOLDS_REG_OFFSET
                          config.extht_hi_threshold hw fun hw =>
                        VERIFY_FIPS_THRESH ENTROPY_SRC_EXTHT_LO_THRESHOLDS_REG_OFFSET
                          config.extht_lo_threshold hw fun hw =>
                        some (status_t.Ok, hw)

/-- `csrng_check`: read-only check that the CSRNG control enable field is
exactly multi-bit true. -/
def csrng_check (hw : Hw) : Option (status_t × Hw) :=
  match abs_mmio_read32 hw (kBaseCsrng + CSRNG_CTRL_REG_OFFSET) with
  | none => none
  | some (reg, hw) =>
    if bitfield_field32_read reg CSRNG_CTRL_ENABLE_FIELD = kMultiBitBool4True then
      some (status_t.Ok, hw)
    else some (status_t.RecovErr, hw)

/-- `edn_check`: read-only check that the EDN is enabled and in
automatic-request mode. -/
def edn_check (config : edn_config_t) (hw : Hw) : Option (status_t × Hw) :=
  match abs_mmio_read32 hw (config.base_address + EDN_CTRL_REG_OFFSET) with
  | none => none
  | some (reg, hw) =>
    if bitfield_field32_read reg EDN_CTRL_EDN_ENABLE_FIELD = kMultiBitBool4True ∧
       bitfield_field32_read reg EDN_CTRL_AUTO_REQ_MODE_FIELD = kMultiBitBool4True then
      some (status_t.Ok, hw)
    else some (status_t.RecovErr, hw)

/-- Identifier of the continuous-mode configuration entry
(`kEntropyComplexConfigIdContinuous`). -/
def kEntropyComplexConfigIdContinuous : Nat := 0

/-- Entropy complex configuration settings
(`entropy_complex_config_t`). -/
structure entropy_complex_config_t where
  id : Nat
  entropy_src : entropy_src_config_t
  edn0 : edn_config_t
  edn1 : edn_config_t
deriving DecidableEq, Repr

/-- The single (continuous-mode) entry of `kEntropyComplexConfigs`.
Fields without designated initialisers in the C table (the entry's `id`
and `edn1.generate.disable_trng_input`) are zero, as C zero-fills them. -/
def kEntropyComplexConfigContinuous : entropy_complex_config_t :=
  { id := 0
    entropy_src :=
      { fips_enable := kMultiBitBool4True
        route_to_firmware := kMultiBitBool4False
        bypass_conditioner := kMultiBitBool4False
        single_bit_mode := kMultiBitBool4False
        fips_test_window_size := 0x200
        alert_threshold := 2
        repcnt_threshold := 0xffff
        repcnts_threshold := 0xffff
        adaptp_hi_threshold := 0xffff
        adaptp_lo_threshold := 0x0
        bucket_threshold := 0xffff
        markov_hi_threshold := 0xffff
        markov_lo_threshold := 0x0
        extht_hi_threshold := 0xffff
        extht_lo_threshold := 0x0 }
    edn0 :=
      { base_address := kBaseEdn0
        reseed_interval := 32
        instantiate :=
          { id := kEntropyDrbgOpInstantiate
            disable_trng_input := kHardenedBoolFalse
            seed_material := none
            generate_len := 0 }
        generate :=
          { id := kEntropyDrbgOpGenerate
            disable_trng_input := kHardenedBoolFalse
            seed_material := none
            generate_len := 8 }
        reseed :=
          { id := kEntropyDrbgOpReseed
            disable_trng_input := kHardenedBoolFalse
            seed_material := none
            generate_len := 0 } }
    edn1 :=
      { base_address := kBaseEdn1
        reseed_interval := 4
        instantiate :=
          { id := kEntropyDrbgOpInstantiate
            disable_trng_input := kHardenedBoolFalse
            seed_material := none
            generate_len := 0 }
        generate :=
          { id := kEntropyDrbgOpGenerate
            disable_trng_input := 0
            seed_material := none
            generate_len := 1 }
        reseed :=
          { id := kEntropyDrbgOpReseed
            disable_trng_input := kHardenedBoolFalse
            seed_material := none
            generate_len := 0 } } }

/-- `entropy_complex_init`: stop everything, re-validate the configuration
entry identifier, configure the entropy source, enable the CSRNG, then
configure EDN0 and EDN1; the first failure aborts. -/
def entropy_complex_init (hw : Hw) : Option (status_t × Hw) :=
  match entropy_complex_stop_all hw with
  | none => none
  | some hw =>
    let config := kEntropyComplexConfigContinuous
    if launder32 config.id ≠ kEntropyComplexConfigIdContinuous then
      some (status_t.RecovErr, hw)
    else
      statusTry (entropy_src_configure config.entropy_src hw) fun hw =>
      let hw := csrng_configure hw
      statusTry (edn_configure config.edn0 hw) fun hw =>
      edn_configure config.edn1 hw

/-- `entropy_complex_check`: re-validate the configuration entry
identifier, then check the entropy source, the CSRNG and both EDNs; the
first failure aborts. -/
def entropy_complex_check (hw : Hw) : Option (status_t × Hw) :=
  let config := kEntropyComplexConfigContinuous
  if launder32 config.id ≠ kEntropyComplexConfigIdContinuous then
    some (status_t.RecovErr, hw)
  else
    statusTry (entropy_src_check config.entropy_src hw) fun hw =>
    statusTry (csrng_check hw) fun hw =>
    statusTry (edn_check config.edn0 hw) fun hw =>
    edn_check config.edn1 hw

/-- `entropy_csrng_instantiate`. -/
def entropy_csrng_instantiate (disable_trng_input : Nat)
    (seed_material : Option entropy_seed_material_t) (hw : Hw) :
    Option (status_t × Hw) :=
  csrng_send_app_cmd (kBaseCsrng + CSRNG_CMD_REQ_REG_OFFSET)
    { id := kEntropyDrbgOpInstantiate
      disable_trng_input := disable_trng_input
      seed_material := seed_material
      generate_len := 0 } true hw

/-- `entropy_csrng_reseed`. -/
def entropy_csrng_reseed (disable_trng_input : Nat)
    (seed_material : Option entropy_seed_material_t) (hw : Hw) :
    Option (status_t × Hw) :=
  csrng_send_app_cmd (kBaseCsrng + CSRNG_CMD_REQ_REG_OFFSET)
    { id := kEntropyDrbgOpReseed
      disable_trng_input := disable_trng_input
      seed_material := seed_material
      generate_len := 0 } true hw

/-- `entropy_csrng_update` (the `disable_trng_input` field has no
designated initialiser in the C call, so it is zero). -/
def entropy_csrng_update (seed_material : Option entropy_seed_material_t)
    (hw : Hw) : Option (status_t × Hw) :=
  csrng_send_app_cmd (kBaseCsrng + CSRNG_CMD_REQ_REG_OFFSET)
    { id := kEntropyDrbgOpUpdate
      disable_trng_input := 0
      seed_material := seed_material
      generate_len := 0 } true hw

/-- `entropy_csrng_generate_start`: round the requested word count up to
128-bit blocks and issue a generate command with completion tracking. -/
def entropy_csrng_generate_start (seed_material : Option entropy_seed_material_t)
    (len : Nat) (hw : Hw) : Option (status_t × Hw) :=
  let num_128bit_blocks := ceil_div len 4
  csrng_send_app_cmd (kBaseCsrng + CSRNG_CMD_REQ_REG_OFFSET)
    { id := kEntropyDrbgOpGenerate
      disable_trng_input := 0
      seed_material := seed_material
      generate_len := num_128bit_blocks } true hw

/-- CSRNG genbits buffer size in words
(`kEntropyCsrngBitsBufferNumWords`). -/
def kEntropyCsrngBitsBufferNumWords : Nat := 4

/-- Inner loop of `entropy_csrng_generate_data_get`: read the four words
of one 128-bit block from the genbits register, storing each at its
reversed index when that index lies below `len`. -/
def genbitsReadWords (block_idx len : Nat) (buf : Nat → Nat)
    (offset remaining : Nat) (hw : Hw) : Option ((Nat → Nat) × Hw) :=
  match remaining with
  | 0 => some (buf, hw)
  | r + 1 =>
    match abs_mmio_read32 hw (kBaseCsrng + CSRNG_GENBITS_REG_OFFSET) with
    | none => none
    | some (word, hw) =>
      let word_idx := block_idx * kEntropyCsrngBitsBufferNumWords +
        kEntropyCsrngBitsBufferNumWords - 1 - offset
      let buf := if word_idx < len then
          (fun i => if i = word_idx then word else buf i)
        else buf
      genbitsReadWords block_idx len buf (offset + 1) r hw

/-- Outer loop of `entropy_csrng_generate_data_get`: per block, poll for
valid bits, record (but defer) a FIPS error, and drain the block. -/
def genDataGetLoop (len fips_check : Nat) (buf : Nat → Nat) (res : status_t)
    (block_idx remaining : Nat) (hw : Hw) : Option (status_t × (Nat → Nat) × Hw) :=
  match remaining with
  | 0 => some (res, buf, hw)
  | r + 1 =>
    match pollUntil (kBaseCsrng + CSRNG_GENBITS_VLD_REG_OFFSET)
        (fun reg => bitfield_bit32_read reg CSRNG_GENBITS_VLD_GENBITS_VLD_BIT) hw with
    | none => none
    | some (reg, hw) =>
      let res := if fips_check ≠ kHardenedBoolFalse ∧
          bitfield_bit32_read reg CSRNG_GENBITS_VLD_GENBITS_FIPS_BIT = false then
          status_t.RecovErr
        else res
      match genbitsReadWords block_idx len buf 0 kEntropyCsrngBitsBufferNumWords hw with
      | none => none
      | some (buf, hw) => genDataGetLoop len fips_check buf res (block_idx + 1) r hw

/-- `entropy_csrng_generate_data_get`: drain `ceil(len/4)` 128-bit blocks
into the caller's buffer, returning any deferred FIPS error. -/
def entropy_csrng_generate_data_get (buf : Nat → Nat) (len fips_check : Nat)
    (hw : Hw) : Option (status_t × (Nat → Nat) × Hw) :=
  let nblocks := ceil_div len 4
  genDataGetLoop len fips_check buf status_t.Ok 0 nblocks hw

/-- `entropy_csrng_generate`: `generate_start` followed by
`generate_data_get`. -/
def entropy_csrng_generate (seed_material : Option entropy_seed_material_t)
    (buf : Nat → Nat) (len fips_check : Nat) (hw : Hw) :
    Option (status_t × (Nat → Nat) × Hw) :=
  match entropy_csrng_generate_start seed_material len hw with
  | none => none
  | some (st, hw) =>
    if st = status_t.Ok then entropy_csrng_generate_data_get buf len fips_check hw
    else some (st, buf, hw)

/-- `entropy_csrng_uninstantiate`. -/
def entropy_csrng_uninstantiate (hw : Hw) : Option (status_t × Hw) :=
  csrng_send_app_cmd (kBaseCsrng + CSRNG_CMD_REQ_REG_OFFSET)
    { id := kEntropyDrbgOpUninstantiate
      disable_trng_input := 0
      seed_material := none
      generate_len := 0 } true hw

/-- A hardware state with empty logs, an empty register file (all
registers at reset) and a given oracle; used to instantiate theorems at
concrete inputs. -/
def freshHw (oracle : List Nat) : Hw :=
  { mem := [], oracle := oracle, readLog := [], writeLog := [] }

/-- The sequence of values read from the genbits data register, extracted
from a read log in read order. -/
def genbitsLog (l : List (Nat × Nat)) : List Nat :=
  (l.filter (fun e => e.1 == kBaseCsrng + CSRNG_GENBITS_REG_OFFSET)).map Prod.snd

/-- Concrete input state used by witnesses: fresh hardware whose status
oracle answers one idle main-state read and one command-ready read. -/
def c1HwIn : Hw := freshHw [0x4e, 0x2]

/-- Concrete run of `entropy_csrng_generate_data_get` over one full block:
valid-bit read, then the four block words 10, 11, 12, 13. -/
def c3Run : Option (status_t × (Nat → Nat) × Hw) :=
  entropy_csrng_generate_data_get (fun _ => 0) 4 kHardenedBoolFalse
    (freshHw [1, 10, 11, 12, 13])

/-- Output buffer of the concrete run `c3Run`. -/
def c3BufOut : Nat → Nat :=
  match c3Run with
  | some p => p.2.1
  | none => fun _ => 0

/-- Final hardware state of the concrete run `c3Run`. -/
def c3HwOut : Hw :=
  match c3Run with
  | some p => p.2.2
  | none => freshHw []

/-- Concrete run of `entropy_csrng_generate_data_get` with `len = 5` (not
a multiple of four): two blocks are drained. -/
def c4Run : Option (status_t × (Nat → Nat) × Hw) :=
  entropy_csrng_generate_data_get (fun _ => 99) 5 kHardenedBoolFalse
    (freshHw [1, 10, 11, 12, 13, 1, 20, 21, 22, 23])

/-- Output buffer of the concrete run `c4Run`. -/
def c4BufOut : Nat → Nat :=
  match c4Run with
  | some p => p.2.1
  | none => fun _ => 0

/-- Final hardware state of the concrete run `c4Run`. -/
def c4HwOut : Hw :=
  match c4Run with
  | some p => p.2.2
  | none => freshHw []

/-- Status component of a driver result. -/
def statusOf (r : Option (status_t × Hw)) : Option status_t :=
  r.map (fun p => p.1)

/-- Conditions the claim lists for `entropy_src_check` to succeed on an
accepted configuration, transcribed from the specification: module-enable,
the FIPS-enable and RNG-bit-enable configuration fields, the ES type and
ES route control fields, the health-test window size, the alert-threshold
register as the expected value-and-bitwise-inverse pair, and all nine
FIPS health-test thresholds must read back as expected. -/
def entropy_src_check_spec_conditions (config : entropy_src_config_t) (hw : Hw) : Prop :=
  memGet hw.mem (kBaseEntropySrc + ENTROPY_SRC_MODULE_ENABLE_REG_OFFSET) =
    kMultiBitBool4True ∧
  bitfield_field32_read (memGet hw.mem (kBaseEntropySrc + ENTROPY_SRC_CONF_REG_OFFSET))
    ENTROPY_SRC_CONF_FIPS_ENABLE_FIELD = kMultiBitBool4True ∧
  bitfield_field32_read (memGet hw.mem (kBaseEntropySrc + ENTROPY_SRC_CONF_REG_OFFSET))
    ENTROPY_SRC_CONF_RNG_BIT_ENABLE_FIELD = kMultiBitBool4False ∧
  bitfield_field32_read
    (memGet hw.mem (kBaseEntropySrc + ENTROPY_SRC_ENTROPY_CONTROL_REG_OFFSET))
    ENTROPY_SRC_ENTROPY_CONTROL_ES_TYPE_FIELD = kMultiBitBool4False ∧
  bitfield_field32_read
    (memGet hw.mem (kBaseEntropySrc + ENTROPY_SRC_ENTROPY_CONTROL_REG_OFFSET))
    ENTROPY_SRC_ENTROPY_CONTROL_ES_ROUTE_FIELD = kMultiBitBool4False ∧
  bitfield_field32_read
    (memGet hw.mem (kBaseEntropySrc + ENTROPY_SRC_HEALTH_TEST_WINDOWS_REG_OFFSET))
    ENTROPY_SRC_HEALTH_TEST_WINDOWS_FIPS_WINDOW_FIELD = config.fips_test_window_size ∧
  bitfield_field32_write
    (bitfield_field32_write 0 ENTROPY_SRC_ALERT_THRESHOLD_ALERT_THRESHOLD_FIELD
      config.alert_threshold)
    ENTROPY_SRC_ALERT_THRESHOLD_ALERT_THRESHOLD_INV_FIELD
    (comp32 config.alert_threshold) =
    memGet hw.mem (kBaseEntropySrc + ENTROPY_SRC_ALERT_THRESHOLD_REG_OFFSET) ∧
  bitfield_field32_read
    (memGet hw.mem (kBaseEntropySrc + ENTROPY_SRC_REPCNT_THRESHOLDS_REG_OFFSET))
    ENTROPY_SRC_THRESHOLDS_FIPS_THRESH_FIELD = config.repcnt_threshold ∧
  bitfield_field32_read
    (memGet hw.mem (kBaseEntropySrc + ENTROPY_SRC_REPCNTS_THRESHOLDS_REG_OFFSET))
    ENTROPY_SRC_THRESHOLDS_FIPS_THRESH_FIELD = config.repcnts_threshold ∧
  bitfield_field32_read
    (memGet hw.mem (kBaseEntropySrc + ENTROPY_SRC_ADAPTP_HI_THRESHOLDS_REG_OFFSET))
    ENTROPY_SRC_THRESHOLDS_FIPS_THRESH_FIELD = config.adaptp_hi_threshold ∧
  bitfield_field32_read
    (memGet hw.mem (kBaseEntropySrc + ENTROPY_SRC_ADAPTP_LO_THRESHOLDS_REG_OFFSET))
    ENTROPY_SRC_THRESHOLDS_FIPS_THRESH_FIELD = config.adaptp_lo_threshold ∧
  bitfield_field32_read
    (memGet hw.mem (kBaseEntropySrc + ENTROPY_SRC_BUCKET_THRESHOLDS_REG_OFFSET))
    ENTROPY_SRC_THRESHOLDS_FIPS_THRESH_FIELD = config.bucket_threshold ∧
  bitfield_field32_read
    (memGet hw.mem (kBaseEntropySrc + ENTROPY_SRC_MARKOV_HI_THRESHOLDS_REG_OFFSET))
    ENTROPY_SRC_THRESHOLDS_FIPS_THRESH_FIELD = config.markov_hi_threshold ∧
  bitfield_field32_read
    (memGet hw.mem (kBaseEntropySrc + ENTROPY_SRC_MARKOV_LO_THRESHOLDS_REG_OFFSET))
    ENTROPY_SRC_THRESHOLDS_FIPS_THRESH_FIELD = config.markov_lo_threshold ∧
  bitfield_field32_read
    (memGet hw.mem (kBaseEntropySrc + ENTROPY_SRC_EXTHT_HI_THRESHOLDS_REG_OFFSET))
    ENTROPY_SRC_THRESHOLDS_FIPS_THRESH_FIELD = config.extht_hi_threshold ∧
  bitfield_field32_read
    (memGet hw.mem (kBaseEntropySrc + ENTROPY_SRC_EXTHT_LO_THRESHOLDS_REG_OFFSET))
    ENTROPY_SRC_THRESHOLDS_FIPS_THRESH_FIELD = config.extht_lo_threshold

instance (config : entropy_src_config_t) (hw : Hw) :
    Decidable (entropy_src_check_spec_conditions config hw) := by
  unfold entropy_src_check_spec_conditions
  infer_instance

/-- The write log produced by `entropy_complex_stop_all` from state `hw`:
both EDN control registers get the FIFO-reset then the full reset value,
then the CSRNG control reset, then the five entropy-source registers, in
this order. -/
def stopAllWriteLog (hw : Hw) : List (Nat × Nat) :=
  hw.writeLog ++
    [(kBaseEdn0 + EDN_CTRL_REG_OFFSET,
      bitfield_field32_write (memGet hw.mem (kBaseEdn0 + EDN_CTRL_REG_OFFSET))
        EDN_CTRL_CMD_FIFO_RST_FIELD kMultiBitBool4True),
     (kBaseEdn0 + EDN_CTRL_REG_OFFSET, EDN_CTRL_REG_RESVAL),
     (kBaseEdn1 + EDN_CTRL_REG_OFFSET,
      bitfield_field32_write (memGet hw.mem (kBaseEdn1 + EDN_CTRL_REG_OFFSET))
        EDN_CTRL_CMD_FIFO_RST_FIELD kMultiBitBool4True),
     (kBaseEdn1 + EDN_CTRL_REG_OFFSET, EDN_CTRL_REG_RESVAL),
     (kBaseCsrng + CSRNG_CTRL_REG_OFFSET, CSRNG_CTRL_REG_RESVAL),
     (kBaseEntropySrc + ENTROPY_SRC_MODULE_ENABLE_REG_OFFSET,
      ENTROPY_SRC_MODULE_ENABLE_REG_RESVAL),
     (kBaseEntropySrc + ENTROPY_SRC_ENTROPY_CONTROL_REG_OFFSET,
      ENTROPY_SRC_ENTROPY_CONTROL_REG_RESVAL),
     (kBaseEntropySrc + ENTROPY_SRC_CONF_REG_OFFSET, ENTROPY_SRC_CONF_REG_RESVAL),
     (kBaseEntropySrc + ENTROPY_SRC_HEALTH_TEST_WINDOWS_REG_OFFSET,
      ENTROPY_SRC_HEALTH_TEST_WINDOWS_REG_RESVAL),
     (kBaseEntropySrc + ENTROPY_SRC_ALERT_THRESHOLD_REG_OFFSET,
      ENTROPY_SRC_ALERT_THRESHOLD_REG_RESVAL)]

/-- An oracle under which `entropy_complex_init` runs to success: for each
of the six relayed commands an idle main-state read and a command-ready
read, plus one EDN-ready read after enabling and one after
instantiating. -/
def cInitHwIn : Hw :=
  freshHw [0x4e, 0x2, 0x4e, 0x2, 0x1, 0x4e, 0x2, 0x1, 0x4e, 0x2, 0x4e, 0x2, 0x1,
    0x4e, 0x2, 0x1]

/-- The concrete successful initialisation run. -/
def cInitRun : Option (status_t × Hw) := entropy_complex_init cInitHwIn

/-- Final hardware state of the concrete initialisation run. -/
def cInitHwOut : Hw :=
  match cInitRun with
  | some p => p.2
  | none => freshHw []

/-- An oracle under which the EDN0 configuration step fails: its first
ready poll reports both ready and the error-status bit. -/
def c9FailHwIn : Hw := freshHw [0x4e, 0x2, 0x4e, 0x2, 0x3]

/-- State after stopping everything from `c9FailHwIn`. -/
def c9S0 : Hw :=
  match entropy_complex_stop_all c9FailHwIn with
  | some s => s
  | none => freshHw []

/-- State after the entropy-source configuration step of the failing
run. -/
def c9S1 : Hw :=
  match entropy_src_configure kEntropyComplexConfigContinuous.entropy_src c9S0 with
  | some p => p.2
  | none => freshHw []

/-- State in which the failing EDN0 configuration step ends. -/
def c9E : Hw :=
  match edn_configure kEntropyComplexConfigContinuous.edn0 (csrng_configure c9S1) with
  | some p => p.2
  | none => freshHw []

/-- A register file in which the entropy source reads back exactly the
continuous-mode configuration. -/
def c8Hw : Hw :=
  { mem :=
      [(kBaseEntropySrc + ENTROPY_SRC_MODULE_ENABLE_REG_OFFSET, 0x6),
       (kBaseEntropySrc + ENTROPY_SRC_CONF_REG_OFFSET, 0x909096),
       (kBaseEntropySrc + ENTROPY_SRC_ENTROPY_CONTROL_REG_OFFSET, 0x99),
       (kBaseEntropySrc + ENTROPY_SRC_HEALTH_TEST_WINDOWS_REG_OFFSET, 0x600200),
       (kBaseEntropySrc + ENTROPY_SRC_ALERT_THRESHOLD_REG_OFFSET, 0xfffd0002),
       (kBaseEntropySrc + ENTROPY_SRC_REPCNT_THRESHOLDS_REG_OFFSET, 0xffffffff),
       (kBaseEntropySrc + ENTROPY_SRC_REPCNTS_THRESHOLDS_REG_OFFSET, 0xffffffff),
       (kBaseEntropySrc + ENTROPY_SRC_ADAPTP_HI_THRESHOLDS_REG_OFFSET, 0xffffffff),
       (kBaseEntropySrc + ENTROPY_SRC_ADAPTP_LO_THRESHOLDS_REG_OFFSET, 0xffff0000),
       (kBaseEntropySrc + ENTROPY_SRC_BUCKET_THRESHOLDS_REG_OFFSET, 0xffffffff),
       (kBaseEntropySrc + ENTROPY_SRC_MARKOV_HI_THRESHOLDS_REG_OFFSET, 0xffffffff),
       (kBaseEntropySrc + ENTROPY_SRC_MARKOV_LO_THRESHOLDS_REG_OFFSET, 0xffff0000),
       (kBaseEntropySrc + ENTROPY_SRC_EXTHT_HI_THRESHOLDS_REG_OFFSET, 0xffffffff),
       (kBaseEntropySrc + ENTROPY_SRC_EXTHT_LO_THRESHOLDS_REG_OFFSET, 0xffff0000)]
    oracle := []
    readLog := []
    writeLog := [] }

/-- Concrete run of the full attestation on a fresh register image. -/
def c10Run : Option (status_t × Hw) := entropy_complex_check (freshHw [])

/-- Final hardware state of the concrete attestation run `c10Run`. -/
def c10HwOut : Hw :=
  match c10Run with
  | some p => p.2
  | none => freshHw []

/-- Concrete EDN-relayed command send: the continuous-mode reseed command
template written to the EDN0 reseed-command register with completion
tracking off, exactly as `edn_configure` does. -/
def c5Run : Option (status_t × Hw) :=
  csrng_send_app_cmd (kBaseEdn0 + EDN_RESEED_CMD_REG_OFFSET)
    kEntropyComplexConfigContinuous.edn0.reseed false (freshHw [0x4e, 0x2])

/-- Final hardware state of the concrete relayed send `c5Run`. -/
def c5HwOut : Hw :=
  match c5Run with
  | some p => p.2
  | none => freshHw []

/-- Concrete direct (software-interface) command send with completion
tracking, used to witness the amended idle-wait placement. -/
def c5DirectRun : Option (status_t × Hw) :=
  csrng_send_app_cmd (kBaseCsrng + CSRNG_CMD_REQ_REG_OFFSET)
    { id := kEntropyDrbgOpUninstantiate, disable_trng_input := 0,
      seed_material := none, generate_len := 0 } true
    (freshHw [0x4e, 0x2, 0x1, 0x0])

/-- Final hardware state of the concrete direct send `c5DirectRun`. -/
def c5DirectHwOut : Hw :=
  match c5DirectRun with
  | some p => p.2
  | none => freshHw []

/-- The state in which a validation failure of `csrng_send_app_cmd` leaves
`c1HwIn`: oracle consumed by the two polls, both reads logged, nothing
written. -/
def c1HwStop : Hw :=
  { mem := [], oracle := [],
    readLog := [(0x41150030, 0x4e), (0x4115001c, 0x2)], writeLog := [] }

/-- The fourteen entropy-source register writes performed by
`entropy_src_configure` on the continuous-mode configuration, newest
first, as they end up on top of the register file. -/
def esContMem : List (Nat × Nat) :=
  [(kBaseEntropySrc + ENTROPY_SRC_MODULE_ENABLE_REG_OFFSET, 0x6),
   (kBaseEntropySrc + ENTROPY_SRC_EXTHT_LO_THRESHOLDS_REG_OFFSET, 0xffff0000),
   (kBaseEntropySrc + ENTROPY_SRC_EXTHT_HI_THRESHOLDS_REG_OFFSET, 0xffffffff),
   (kBaseEntropySrc + ENTROPY_SRC_MARKOV_LO_THRESHOLDS_REG_OFFSET, 0xffff0000),
   (kBaseEntropySrc + ENTROPY_SRC_MARKOV_HI_THRESHOLDS_REG_OFFSET, 0xffffffff),
   (kBaseEntropySrc + ENTROPY_SRC_BUCKET_THRESHOLDS_REG_OFFSET, 0xffffffff),
   (kBaseEntropySrc + ENTROPY_SRC_ADAPTP_LO_THRESHOLDS_REG_OFFSET, 0xffff0000),
   (kBaseEntropySrc + ENTROPY_SRC_ADAPTP_HI_THRESHOLDS_REG_OFFSET, 0xffffffff),
   (kBaseEntropySrc + ENTROPY_SRC_REPCNTS_THRESHOLDS_REG_OFFSET, 0xffffffff),
   (kBaseEntropySrc + ENTROPY_SRC_REPCNT_THRESHOLDS_REG_OFFSET, 0xffffffff),
   (kBaseEntropySrc + ENTROPY_SRC_ALERT_THRESHOLD_REG_OFFSET, 0xfffd0002),
   (kBaseEntropySrc + ENTROPY_SRC_HEALTH_TEST_WINDOWS_REG_OFFSET, 0x600200),
   (kBaseEntropySrc + ENTROPY_SRC_CONF_REG_OFFSET, 0x909096),
   (kBaseEntropySrc + ENTROPY_SRC_ENTROPY_CONTROL_REG_OFFSET, 0x99)]

/-!  Theorems.  First a block of frame lemmas about the MMIO primitives
and the polling loops, then one theorem (plus witness or counterexample)
per claim. -/

theorem read_frame {hw : Hw} {a v : Nat} {hw₁ : Hw}
    (h : abs_mmio_read32 hw a = some (v, hw₁)) :
    hw₁.mem = hw.mem ∧ hw₁.writeLog = hw.writeLog ∧
      hw₁.readLog = hw.readLog ++ [(a, v)] := by
  unfold abs_mmio_read32 at h
  split at h
  · cases ho : hw.oracle with
    | nil => rw [ho] at h; simp at h
    | cons w rest =>
      rw [ho] at h
      simp only [Option.some.injEq, Prod.mk.injEq] at h
      obtain ⟨hv, hhw⟩ := h
      subst hhw hv
      simp
  · simp only [Option.some.injEq, Prod.mk.injEq] at h
    obtain ⟨hv, hhw⟩ := h
    subst hhw hv
    simp

theorem pollFuel_frame {f a : Nat} {p : Nat → Bool} {hw : Hw} {v : Nat} {hw₁ : Hw}
    (h : pollUntilFuel f a p hw = some (v, hw₁)) :
    hw₁.mem = hw.mem ∧ hw₁.writeLog = hw.writeLog ∧
      ∃ l, hw₁.readLog = hw.readLog ++ l := by
  induction f generalizing hw with
  | zero => simp [pollUntilFuel] at h
  | succ f ih =>
    unfold pollUntilFuel at h
    cases hr : abs_mmio_read32 hw a with
    | none => rw [hr] at h; simp at h
    | some pr =>
      obtain ⟨w, hw'⟩ := pr
      rw [hr] at h
      obtain ⟨hm, hwl, hrl⟩ := read_frame hr
      by_cases hp : p w
      · simp only [hp, if_true, Option.some.injEq, Prod.mk.injEq] at h
        obtain ⟨hv, hhw⟩ := h
        subst hhw
        exact ⟨hm, hwl, [(a, w)], hrl⟩
      · simp only [hp, if_false] at h
        obtain ⟨hm₂, hwl₂, l, hrl₂⟩ := ih h
        refine ⟨hm₂.trans hm, hwl₂.trans hwl, (a, w) :: l, ?_⟩
        rw [hrl₂, hrl]
        simp

theorem poll_frame {a : Nat} {p : Nat → Bool} {hw : Hw} {v : Nat} {hw₁ : Hw}
    (h : pollUntil a p hw = some (v, hw₁)) :
    hw₁.mem = hw.mem ∧ hw₁.writeLog = hw.writeLog ∧
      ∃ l, hw₁.readLog = hw.readLog ++ l :=
  pollFuel_frame h

theorem idleWaitAux_frame {n : Nat} {hw : Hw} {st : status_t} {hw₁ : Hw}
    (h : idleWaitAux n hw = some (st, hw₁)) :
    hw₁.mem = hw.mem ∧ hw₁.writeLog = hw.writeLog ∧
      (∃ l, hw₁.readLog = hw.readLog ++ l) ∧
      (st = status_t.Ok ∨ st = status_t.RecovErr) := by
  induction n generalizing hw with
  | zero =>
    simp only [idleWaitAux, Option.some.injEq, Prod.mk.injEq] at h
    obtain ⟨hst, hhw⟩ := h
    subst hhw
    exact ⟨rfl, rfl, ⟨[], by simp⟩, Or.inr hst.symm⟩
  | succ n ih =>
    unfold idleWaitAux at h
    cases hr : abs_mmio_read32 hw (kBaseCsrng + CSRNG_MAIN_SM_STATE_REG_OFFSET) with
    | none => rw [hr] at h; simp at h
    | some pr =>
      obtain ⟨w, hw'⟩ := pr
      rw [hr] at h
      obtain ⟨hm, hwl, hrl⟩ := read_frame hr
      by_cases hp : w = kCsrngMainSmIdle
      · simp only [hp, if_true, Option.some.injEq, Prod.mk.injEq] at h
        obtain ⟨hst, hhw⟩ := h
        subst hhw
        exact ⟨hm, hwl, ⟨_, hrl⟩, Or.inl hst.symm⟩
      · simp only [hp, if_false] at h
        obtain ⟨hm₂, hwl₂, ⟨l, hrl₂⟩, hst⟩ := ih h
        refine ⟨hm₂.trans hm, hwl₂.trans hwl,
          ⟨(kBaseCsrng + CSRNG_MAIN_SM_STATE_REG_OFFSET, w) :: l, ?_⟩, hst⟩
        rw [hrl₂, hrl]
        simp

theorem idle_wait_frame {hw : Hw} {st : status_t} {hw₁ : Hw}
    (h : csrng_fsm_idle_wait hw = some (st, hw₁)) :
    hw₁.mem = hw.mem ∧ hw₁.writeLog = hw.writeLog ∧
      (∃ l, hw₁.readLog = hw.readLog ++ l) ∧
      (st = status_t.Ok ∨ st = status_t.RecovErr) :=
  idleWaitAux_frame h

theorem comp32_f_eq : comp32 0xf = (2 ^ 28 - 1) <<< 4 := by decide

theorem testBit_ge_32_false {n i : Nat} (h : n < 2 ^ 32) (hi : 32 ≤ i) :
    Nat.testBit n i = false :=
  Nat.testBit_lt_two_pow
    (lt_of_lt_of_le h (Nat.pow_le_pow_right (by norm_num) hi))

theorem land_mask_zero_iff (n : Nat) (h : n < 2 ^ 32) :
    n &&& comp32 kAppCmdFieldCmdLen.mask = 0 ↔ n < 16 := by
  show n &&& comp32 0xf = 0 ↔ n < 16
  rw [comp32_f_eq]
  constructor
  · intro h0
    have h16 : n < 2 ^ 4 := by
      apply Nat.lt_pow_two_of_testBit n
      intro i hi
      have hb := congrArg (fun x => Nat.testBit x i) h0
      simp only [Nat.testBit_land, Nat.testBit_shiftLeft, Nat.testBit_two_pow_sub_one,
        Nat.zero_testBit] at hb
      rcases lt_or_ge i 32 with h32 | h32
      · simpa [ge_iff_le, hi, show i - 4 < 28 by omega] using hb
      · exact testBit_ge_32_false h h32
    simpa using h16
  · intro hlt
    apply Nat.eq_of_testBit_eq
    intro i
    simp only [Nat.testBit_land, Nat.testBit_shiftLeft, Nat.testBit_two_pow_sub_one,
      Nat.zero_testBit]
    rcases lt_or_ge i 4 with h4 | h4
    · simp [show ¬ i ≥ 4 by omega]
    · have hb : Nat.testBit n i = false := by
        apply Nat.testBit_lt_two_pow
        calc n < 2 ^ 4 := by simpa using hlt
        _ ≤ 2 ^ i := Nat.pow_le_pow_right (by norm_num) h4
      simp [hb]

/-- C1: for every command passed to `csrng_send_app_cmd` (and hence for
instantiate, reseed, update, generate-start and uninstantiate, which all
call it): a generate length above 0x800 128-bit blocks yields OutOfRange;
otherwise a seed-material word count that does not fit the 4-bit length
field (count > 15) yields RecoverableError; otherwise a seed-material
data pointer that is not 32-bit aligned yields RecoverableError; and in
all three failure cases no hardware register is written. -/
theorem csrng_send_app_cmd_validates (reg_address : Nat)
    (cmd : entropy_csrng_cmd_t) (check_completion : Bool) (hw : Hw) :
    (kMaxGenerateSizeIn128BitBlocks < cmd.generate_len →
      csrng_send_app_cmd reg_address cmd check_completion hw =
        some (status_t.OutOfRange, hw)) ∧
    (∀ sm st hw₁, cmd.generate_len ≤ kMaxGenerateSizeIn128BitBlocks →
      cmd.seed_material = some sm → sm.len < 2 ^ 32 → 15 < sm.len →
      csrng_send_app_cmd reg_address cmd check_completion hw = some (st, hw₁) →
      st = status_t.RecovErr ∧ hw₁.writeLog = hw.writeLog ∧ hw₁.mem = hw.mem) ∧
    (∀ sm st hw₁, cmd.generate_len ≤ kMaxGenerateSizeIn128BitBlocks →
      cmd.seed_material = some sm → sm.len ≤ 15 → misalignment32_of sm.dataPtr ≠ 0 →
      csrng_send_app_cmd reg_address cmd check_completion hw = some (st, hw₁) →
      st = status_t.RecovErr ∧ hw₁.writeLog = hw.writeLog ∧ hw₁.mem = hw.mem) := by
  refine ⟨fun hgt => ?_, fun sm st hw₁ hle hsm h32 h15 hrun => ?_,
    fun sm st hw₁ hle hsm h15 hmis hrun => ?_⟩
  · unfold csrng_send_app_cmd
    rw [if_pos hgt]
  · unfold csrng_send_app_cmd at hrun
    rw [if_neg (by omega)] at hrun
    cases hi : csrng_fsm_idle_wait hw with
    | none => rw [hi] at hrun; simp [statusTry] at hrun
    | some pr =>
      obtain ⟨st₀, hw₀⟩ := pr
      rw [hi] at hrun
      obtain ⟨him, hiw, -, hist⟩ := idle_wait_frame hi
      by_cases hst₀ : st₀ = status_t.Ok
      · rw [hst₀] at hrun
        simp only [statusTry, if_true, reduceIte] at hrun
        cases hp : pollUntil (kBaseCsrng + CSRNG_SW_CMD_STS_REG_OFFSET)
            (fun r => bitfield_bit32_read r CSRNG_SW_CMD_STS_CMD_RDY_BIT) hw₀ with
        | none => rw [hp] at hrun; simp at hrun
        | some pq =>
          obtain ⟨w, hw₂⟩ := pq
          rw [hp] at hrun
          obtain ⟨hpm, hpw, -⟩ := poll_frame hp
          simp only [hsm] at hrun
          rw [if_pos (by
            intro h0
            have := (land_mask_zero_iff sm.len h32).mp h0
            omega)] at hrun
          simp only [Option.some.injEq, Prod.mk.injEq] at hrun
          obtain ⟨hst, hhw⟩ := hrun
          subst hhw
          exact ⟨hst.symm, by rw [hpw, hiw], by rw [hpm, him]⟩
      · rw [statusTry, if_neg hst₀] at hrun
        simp only [Option.some.injEq, Prod.mk.injEq] at hrun
        obtain ⟨hst, hhw⟩ := hrun
        subst hhw
        rcases hist with h | h
        · exact absurd h hst₀
        · exact ⟨hst.symm.trans h, by rw [hiw], by rw [him]⟩
  · unfold csrng_send_app_cmd at hrun
    rw [if_neg (by omega)] at hrun
    cases hi : csrng_fsm_idle_wait hw with
    | none => rw [hi] at hrun; simp [statusTry] at hrun
    | some pr =>
      obtain ⟨st₀, hw₀⟩ := pr
      rw [hi] at hrun
      obtain ⟨him, hiw, -, hist⟩ := idle_wait_frame hi
      by_cases hst₀ : st₀ = status_t.Ok
      · rw [hst₀] at hrun
        simp only [statusTry, if_true, reduceIte] at hrun
        cases hp : pollUntil (kBaseCsrng + CSRNG_SW_CMD_STS_REG_OFFSET)
            (fun r => bitfield_bit32_read r CSRNG_SW_CMD_STS_CMD_RDY_BIT) hw₀ with
        | none => rw [hp] at hrun; simp at hrun
        | some pq =>
          obtain ⟨w, hw₂⟩ := pq
          rw [hp] at hrun
          obtain ⟨hpm, hpw, -⟩ := poll_frame hp
          simp only [hsm] at hrun
          rw [if_neg (by
            simp only [ne_eq, not_not]
            exact (land_mask_zero_iff sm.len (lt_of_le_of_lt h15 (by norm_num))).mpr
              (by omega))] at hrun
          rw [if_pos (decide_eq_true hmis)] at hrun
          simp only [Option.some.injEq, Prod.mk.injEq] at hrun
          obtain ⟨hst, hhw⟩ := hrun
          subst hhw
          exact ⟨hst.symm, by rw [hpw, hiw], by rw [hpm, him]⟩
      · rw [statusTry, if_neg hst₀] at hrun
        simp only [Option.some.injEq, Prod.mk.injEq] at hrun
        obtain ⟨hst, hhw⟩ := hrun
        subst hhw
        rcases hist with h | h
        · exact absurd h hst₀
        · exact ⟨hst.symm.trans h, by rw [hiw], by rw [him]⟩

/-- Witness for C1: the three validation failures at concrete inputs — an
oversized generate length, a 16-word seed, and a misaligned seed
pointer. -/
theorem csrng_send_app_cmd_validates_witness :
    (csrng_send_app_cmd 0x41150018 ⟨3, 0, none, 0x801⟩ true c1HwIn =
      some (status_t.OutOfRange, c1HwIn)) ∧
    (status_t.RecovErr = status_t.RecovErr ∧ c1HwStop.writeLog = c1HwIn.writeLog ∧
      c1HwStop.mem = c1HwIn.mem) ∧
    (status_t.RecovErr = status_t.RecovErr ∧ c1HwStop.writeLog = c1HwIn.writeLog ∧
      c1HwStop.mem = c1HwIn.mem) :=
  ⟨(csrng_send_app_cmd_validates 0x41150018 ⟨3, 0, none, 0x801⟩ true c1HwIn).1
      (by norm_num [kMaxGenerateSizeIn128BitBlocks]),
   (csrng_send_app_cmd_validates 0x41150018 ⟨4, 0, some ⟨16, 0, []⟩, 0⟩ true c1HwIn).2.1
      ⟨16, 0, []⟩ status_t.RecovErr c1HwStop (by norm_num [kMaxGenerateSizeIn128BitBlocks])
      rfl (by norm_num) (by norm_num) (by decide),
   (csrng_send_app_cmd_validates 0x41150018 ⟨4, 0, some ⟨2, 2, [5, 6]⟩, 0⟩ true c1HwIn).2.2
      ⟨2, 2, [5, 6]⟩ status_t.RecovErr c1HwStop (by norm_num [kMaxGenerateSizeIn128BitBlocks])
      rfl (by norm_num) (by decide) (by decide)⟩

theorem mask4_eq : (0xf : Nat) = 2 ^ 4 - 1 := by norm_num

theorem mask19_eq : (0x7ffff : Nat) = 2 ^ 19 - 1 := by norm_num

theorem mask32_eq : (0xffffffff : Nat) = 2 ^ 32 - 1 := by norm_num

/-- C6: in the 32-bit command header built by `csrng_send_app_cmd`, the
flag0 field equals the multi-bit true encoding exactly when the command's
`disable_trng_input` value is exactly `kHardenedBoolTrue`, and stays at
its zero default for every other value, corrupted patterns included. -/
theorem csrng_cmd_header_flag0 (cmd_id cmd_len disable_trng_input generate_len : Nat) :
    bitfield_field32_read
        (csrng_cmd_header cmd_id cmd_len disable_trng_input generate_len)
        kAppCmdFieldFlag0 =
      if disable_trng_input = kHardenedBoolTrue then kMultiBitBool4True else 0 := by
  by_cases hd : disable_trng_input = kHardenedBoolTrue <;>
  · simp only [csrng_cmd_header, bitfield_field32_read, bitfield_field32_write,
      launder32, comp32, kAppCmdFieldFlag0, kAppCmdFieldCmdId, kAppCmdFieldCmdLen,
      kAppCmdFieldGlen, kMultiBitBool4True, hd, if_true, if_false, reduceIte]
    apply Nat.eq_of_testBit_eq
    intro i
    simp only [Nat.testBit_shiftRight, mask4_eq, mask19_eq, mask32_eq,
      Nat.testBit_land, Nat.testBit_lor, Nat.testBit_xor, Nat.testBit_shiftLeft,
      Nat.testBit_two_pow_sub_one, Nat.zero_testBit]
    rcases lt_or_ge i 4 with h4 | h4
    · interval_cases i <;> simp
    · have h6 : Nat.testBit 6 i = false := by
        apply Nat.testBit_lt_two_pow
        calc (6 : Nat) < 2 ^ 4 := by norm_num
        _ ≤ 2 ^ i := Nat.pow_le_pow_right (by norm_num) h4
      simp [h6, show ¬ i < 4 by omega]

theorem pollFuel_readLog {f a : Nat} {p : Nat → Bool} {hw : Hw} {v : Nat} {hw₁ : Hw}
    (h : pollUntilFuel f a p hw = some (v, hw₁)) :
    ∃ l, hw₁.readLog = hw.readLog ++ l ∧ ∀ e ∈ l, e.1 = a := by
  induction f generalizing hw with
  | zero => simp [pollUntilFuel] at h
  | succ f ih =>
    unfold pollUntilFuel at h
    cases hr : abs_mmio_read32 hw a with
    | none => rw [hr] at h; simp at h
    | some pr =>
      obtain ⟨w, hw'⟩ := pr
      rw [hr] at h
      obtain ⟨-, -, hrl⟩ := read_frame hr
      by_cases hp : p w
      · simp only [hp, if_true, Option.some.injEq, Prod.mk.injEq] at h
        obtain ⟨-, hhw⟩ := h
        subst hhw
        exact ⟨[(a, w)], hrl, by simp⟩
      · simp only [hp, if_false] at h
        obtain ⟨l, hrl₂, hall⟩ := ih h
        refine ⟨(a, w) :: l, ?_, ?_⟩
        · rw [hrl₂, hrl]; simp
        · intro e he
          rcases List.mem_cons.mp he with he | he
          · rw [he]
          · exact hall e he

theorem genbitsLog_append (x y : List (Nat × Nat)) :
    genbitsLog (x ++ y) = genbitsLog x ++ genbitsLog y := by
  simp [genbitsLog, List.filter_append]

theorem genbitsLog_nil_of {l : List (Nat × Nat)} {a : Nat}
    (hall : ∀ e ∈ l, e.1 = a)
    (hne : a ≠ kBaseCsrng + CSRNG_GENBITS_REG_OFFSET) :
    genbitsLog l = [] := by
  unfold genbitsLog
  rw [List.filter_eq_nil_iff.mpr, List.map_nil]
  intro e he
  simp only [beq_iff_eq]
  rw [hall e he]
  exact hne

theorem genbitsStep (b len : Nat) (buf : Nat → Nat) (off r : Nat) (hw : Hw) :
    genbitsReadWords b len buf off (r + 1) hw =
      match abs_mmio_read32 hw (kBaseCsrng + CSRNG_GENBITS_REG_OFFSET) with
      | none => none
      | some (word, hw₁) =>
        genbitsReadWords b len
          (if b * kEntropyCsrngBitsBufferNumWords + kEntropyCsrngBitsBufferNumWords
              - 1 - off < len then
            (fun i => if i = b * kEntropyCsrngBitsBufferNumWords +
                kEntropyCsrngBitsBufferNumWords - 1 - off then word else buf i)
          else buf) (off + 1) r hw₁ := rfl

theorem genbits4 {b len : Nat} {buf : Nat → Nat} {hw : Hw} {buf₁ : Nat → Nat} {hw₁ : Hw}
    (h : genbitsReadWords b len buf 0 kEntropyCsrngBitsBufferNumWords hw = some (buf₁, hw₁)) :
    ∃ w0 w1 w2 w3,
      hw₁.readLog = hw.readLog ++
        [(kBaseCsrng + CSRNG_GENBITS_REG_OFFSET, w0),
         (kBaseCsrng + CSRNG_GENBITS_REG_OFFSET, w1),
         (kBaseCsrng + CSRNG_GENBITS_REG_OFFSET, w2),
         (kBaseCsrng + CSRNG_GENBITS_REG_OFFSET, w3)] ∧
      hw₁.writeLog = hw.writeLog ∧ hw₁.mem = hw.mem ∧
      ∀ i, buf₁ i =
        if i < len ∧ i = 4 * b + 3 then w0
        else if i < len ∧ i = 4 * b + 2 then w1
        else if i < len ∧ i = 4 * b + 1 then w2
        else if i < len ∧ i = 4 * b then w3
        else buf i := by
  rw [show kEntropyCsrngBitsBufferNumWords = 3 + 1 from rfl, genbitsStep] at h
  cases h0 : abs_mmio_read32 hw (kBaseCsrng + CSRNG_GENBITS_REG_OFFSET) with
  | none => rw [h0] at h; simp at h
  | some p0 =>
    obtain ⟨w0, k0⟩ := p0
    rw [h0] at h
    dsimp only at h
    obtain ⟨hm0, hw0, hr0⟩ := read_frame h0
    rw [show (3 : Nat) = 2 + 1 from rfl, genbitsStep] at h
    cases h1 : abs_mmio_read32 k0 (kBaseCsrng + CSRNG_GENBITS_REG_OFFSET) with
    | none => rw [h1] at h; simp at h
    | some p1 =>
      obtain ⟨w1, k1⟩ := p1
      rw [h1] at h
      dsimp only at h
      obtain ⟨hm1, hw1, hr1⟩ := read_frame h1
      rw [show (2 : Nat) = 1 + 1 from rfl, genbitsStep] at h
      cases h2 : abs_mmio_read32 k1 (kBaseCsrng + CSRNG_GENBITS_REG_OFFSET) with
      | none => rw [h2] at h; simp at h
      | some p2 =>
        obtain ⟨w2, k2⟩ := p2
        rw [h2] at h
        dsimp only at h
        obtain ⟨hm2, hww2, hr2⟩ := read_frame h2
        rw [show (1 : Nat) = 0 + 1 from rfl, genbitsStep] at h
        cases h3 : abs_mmio_read32 k2 (kBaseCsrng + CSRNG_GENBITS_REG_OFFSET) with
        | none => rw [h3] at h; simp at h
        | some p3 =>
          obtain ⟨w3, k3⟩ := p3
          rw [h3] at h
          dsimp only at h
          obtain ⟨hm3, hww3, hr3⟩ := read_frame h3
          simp only [genbitsReadWords, Option.some.injEq, Prod.mk.injEq] at h
          obtain ⟨hbuf, hhw⟩ := h
          subst hhw
          subst hbuf
          refine ⟨w0, w1, w2, w3, ?_, ?_, ?_, ?_⟩
          · rw [hr3, hr2, hr1, hr0]; simp
          · rw [hww3, hww2, hw1, hw0]
          · rw [hm3, hm2, hm1, hm0]
          · intro i
            simp only [kEntropyCsrngBitsBufferNumWords, Nat.sub_zero, Nat.zero_add,
              Nat.add_zero, Nat.reduceAdd]
            simp only [show b * 4 + 4 - 1 = 4 * b + 3 from by omega,
              show 4 * b + 3 - 1 = 4 * b + 2 from by omega,
              show 4 * b + 3 - 2 = 4 * b + 1 from by omega,
              show 4 * b + 3 - 3 = 4 * b from by omega, ite_apply]
            by_cases cl : i < len <;> by_cases c3 : i = 4 * b + 3 <;>
              by_cases c2 : i = 4 * b + 2 <;> by_cases c1 : i = 4 * b + 1 <;>
              by_cases c0 : i = 4 * b <;> simp_all

theorem genLoopStep (len f : Nat) (buf : Nat → Nat) (res : status_t)
    (bi r : Nat) (hw : Hw) :
    genDataGetLoop len f buf res bi (r + 1) hw =
      match pollUntil (kBaseCsrng + CSRNG_GENBITS_VLD_REG_OFFSET)
          (fun reg => bitfield_bit32_read reg CSRNG_GENBITS_VLD_GENBITS_VLD_BIT) hw with
      | none => none
      | some (reg, hw₁) =>
        match genbitsReadWords bi len buf 0 kEntropyCsrngBitsBufferNumWords hw₁ with
        | none => none
        | some (buf₂, hw₂) =>
          genDataGetLoop len f buf₂
            (if f ≠ kHardenedBoolFalse ∧
                bitfield_bit32_read reg CSRNG_GENBITS_VLD_GENBITS_FIPS_BIT = false then
              status_t.RecovErr
            else res) (bi + 1) r hw₂ := rfl

theorem genLoop_spec {len f : Nat} {buf : Nat → Nat} {res : status_t}
    {bi rem : Nat} {hw : Hw} {st : status_t} {buf₁ : Nat → Nat} {hw₁ : Hw}
    (h : genDataGetLoop len f buf res bi rem hw = some (st, buf₁, hw₁)) :
    ∃ gl, genbitsLog hw₁.readLog = genbitsLog hw.readLog ++ gl ∧
      gl.length = 4 * rem ∧
      (∀ i, i < 4 * bi → buf₁ i = buf i) ∧
      (∀ i, len ≤ i → buf₁ i = buf i) ∧
      (∀ b k, b < rem → k < 4 → 4 * (bi + b) + k < len →
        buf₁ (4 * (bi + b) + k) = gl.getD (4 * b + (3 - k)) 0) := by
  induction rem generalizing bi buf res hw with
  | zero =>
    simp only [genDataGetLoop, Option.some.injEq, Prod.mk.injEq] at h
    obtain ⟨-, hbuf, hhw⟩ := h
    subst hbuf hhw
    exact ⟨[], by simp, by simp, fun i _ => rfl, fun i _ => rfl, by omega⟩
  | succ rem ih =>
    rw [genLoopStep] at h
    cases hp : pollUntil (kBaseCsrng + CSRNG_GENBITS_VLD_REG_OFFSET)
        (fun reg => bitfield_bit32_read reg CSRNG_GENBITS_VLD_GENBITS_VLD_BIT) hw with
    | none => rw [hp] at h; simp at h
    | some pp =>
      obtain ⟨reg, hwp⟩ := pp
      rw [hp] at h
      dsimp only at h
      obtain ⟨lp, hlp, hlpa⟩ := pollFuel_readLog hp
      have hlogp : genbitsLog hwp.readLog = genbitsLog hw.readLog := by
        rw [hlp, genbitsLog_append, genbitsLog_nil_of hlpa (by decide), List.append_nil]
      cases hg : genbitsReadWords bi len buf 0 kEntropyCsrngBitsBufferNumWords hwp with
      | none => rw [hg] at h; simp at h
      | some pg =>
        obtain ⟨buf₂, hw₂⟩ := pg
        rw [hg] at h
        dsimp only at h
        obtain ⟨w0, w1, w2, w3, hgr, -, -, hgb⟩ := genbits4 hg
        have hlogg : genbitsLog hw₂.readLog =
            genbitsLog hw.readLog ++ [w0, w1, w2, w3] := by
          rw [hgr, genbitsLog_append, hlogp]
          simp [genbitsLog]
        obtain ⟨gl, hgl, hgll, hlo, hhi, hblk⟩ := ih h
        refine ⟨[w0, w1, w2, w3] ++ gl, ?_, ?_, ?_, ?_, ?_⟩
        · rw [hgl, hlogg, List.append_assoc]
        · simp [hgll]; omega
        · intro i hi
          rw [hlo i (by omega), hgb i]
          have h0 : ¬ i = 4 * bi := by omega
          have h1 : ¬ i = 4 * bi + 1 := by omega
          have h2 : ¬ i = 4 * bi + 2 := by omega
          have h3 : ¬ i = 4 * bi + 3 := by omega
          simp [h0, h1, h2, h3]
        · intro i hi
          rw [hhi i hi, hgb i]
          simp [show ¬ i < len by omega]
        · intro b k hb hk hlen
          cases b with
          | zero =>
            have hieq : 4 * (bi + 0) + k = 4 * bi + k := by omega
            rw [hieq] at hlen ⊢
            have hlt4 : 4 * bi + k < 4 * (bi + 1) := by omega
            rw [hlo (4 * bi + k) hlt4, hgb (4 * bi + k)]
            clear ih h hp hg
            rcases k with _ | _ | _ | _ | n
            · rw [if_neg (by omega), if_neg (by omega), if_neg (by omega),
                if_pos (show 4 * bi + 0 < len ∧ 4 * bi + 0 = 4 * bi by omega)]
              rfl
            · rw [if_neg (by omega), if_neg (by omega),
                if_pos (show 4 * bi + 1 < len ∧ 4 * bi + 1 = 4 * bi + 1 by omega)]
              rfl
            · rw [if_neg (by omega),
                if_pos (show 4 * bi + 2 < len ∧ 4 * bi + 2 = 4 * bi + 2 by omega)]
              rfl
            · rw [if_pos (show 4 * bi + 3 < len ∧ 4 * bi + 3 = 4 * bi + 3 by omega)]
              rfl
            · omega
          | succ b =>
            have hieq : 4 * (bi + (b + 1)) + k = 4 * ((bi + 1) + b) + k := by omega
            rw [hieq] at hlen ⊢
            rw [hblk b k (by omega) hk hlen]
            have hidx : 4 * (b + 1) + (3 - k) = 4 * b + (3 - k) + 1 + 1 + 1 + 1 := by
              omega
            rw [hidx, List.getD_append_right] <;> simp

theorem ceil_div_four_ge (len : Nat) : len ≤ 4 * ceil_div len 4 := by
  unfold ceil_div
  have hdm := Nat.div_add_mod (len + 4 - 1) 4
  have hml : (len + 4 - 1) % 4 < 4 := Nat.mod_lt _ (by norm_num)
  omega

/-- C3: in `entropy_csrng_generate_data_get`, the four words the genbits
register yields for block `b` land in the output buffer at positions
`4*b+0 .. 4*b+3` (those below `len`) in reverse read order: position
`4*b+k` receives the block's word `3-k`. -/
theorem generate_data_get_word_order
    (buf : Nat → Nat) (len fips_check : Nat) (hw : Hw)
    (st : status_t) (buf₁ : Nat → Nat) (hw₁ : Hw)
    (hlog : hw.readLog = [])
    (h : entropy_csrng_generate_data_get buf len fips_check hw = some (st, buf₁, hw₁)) :
    ∀ b k, k < 4 → 4 * b + k < len →
      buf₁ (4 * b + k) = (genbitsLog hw₁.readLog).getD (4 * b + (3 - k)) 0 := by
  unfold entropy_csrng_generate_data_get at h
  obtain ⟨gl, hgl, hgll, -, -, hblk⟩ := genLoop_spec h
  intro b k hk hlt
  have hceil := ceil_div_four_ge len
  have hb : b < ceil_div len 4 := by omega
  have hval := hblk b k hb hk (by omega)
  simp only [Nat.zero_add] at hval
  have hnil : genbitsLog hw.readLog = [] := by rw [hlog]; rfl
  rw [hgl, hnil, List.nil_append]
  exact hval

/-- Witness for C3: with the genbits register yielding 10, 11, 12, 13 for
block 0, buffer position 0 holds the block's last word 13. -/
theorem generate_data_get_word_order_witness :
    c3BufOut (4 * 0 + 0) = (genbitsLog c3HwOut.readLog).getD (4 * 0 + (3 - 0)) 0 :=
  generate_data_get_word_order (fun _ => 0) 4 kHardenedBoolFalse
    (freshHw [1, 10, 11, 12, 13]) status_t.Ok c3BufOut c3HwOut rfl rfl
    0 0 (by norm_num) (by norm_num)

/-- C4: when `len` is not a multiple of four, `entropy_csrng_generate_data_get`
never writes buffer indices at or above `len`, fills every index below
`len` from the drained words, and reads exactly `ceil(len/4)*4` words
from the genbits register, draining the trailing words of the final
block. -/
theorem generate_data_get_drains
    (buf : Nat → Nat) (len fips_check : Nat) (hw : Hw)
    (st : status_t) (buf₁ : Nat → Nat) (hw₁ : Hw)
    (hmod : len % 4 ≠ 0)
    (hlog : hw.readLog = [])
    (h : entropy_csrng_generate_data_get buf len fips_check hw = some (st, buf₁, hw₁)) :
    (genbitsLog hw₁.readLog).length = 4 * ceil_div len 4 ∧
    (∀ i, len ≤ i → buf₁ i = buf i) ∧
    (∀ i, i < len →
      buf₁ i = (genbitsLog hw₁.readLog).getD (4 * (i / 4) + (3 - i % 4)) 0) := by
  unfold entropy_csrng_generate_data_get at h
  obtain ⟨gl, hgl, hgll, -, hhi, hblk⟩ := genLoop_spec h
  have hnil : genbitsLog hw.readLog = [] := by rw [hlog]; rfl
  rw [hgl, hnil, List.nil_append]
  have hceil := ceil_div_four_ge len
  refine ⟨hgll, hhi, ?_⟩
  intro i hi
  have hdm := Nat.div_add_mod i 4
  have hmlt : i % 4 < 4 := Nat.mod_lt _ (by norm_num)
  have hb : i / 4 < ceil_div len 4 := by omega
  have hval := hblk (i / 4) (i % 4) hb hmlt (by omega)
  simp only [Nat.zero_add] at hval
  rwa [show 4 * (i / 4) + i % 4 = i from by omega] at hval

/-- Witness for C4: a request for five words drains eight genbits words
and leaves buffer index 5 untouched. -/
theorem generate_data_get_drains_witness :
    (genbitsLog c4HwOut.readLog).length = 4 * ceil_div 5 4 ∧ c4BufOut 5 = 99 :=
  have hmain := generate_data_get_drains (fun _ => 99) 5 kHardenedBoolFalse
    (freshHw [1, 10, 11, 12, 13, 1, 20, 21, 22, 23]) status_t.Ok c4BufOut c4HwOut
    (by norm_num) rfl rfl
  ⟨hmain.1, hmain.2.1 5 (by norm_num)⟩

theorem write_readLog (hw : Hw) (a v : Nat) :
    (abs_mmio_write32 hw a v).readLog = hw.readLog := rfl

theorem seed_writes_readLog (r : Nat) (d : List Nat) (n : Nat) (hw : Hw) :
    (csrng_seed_writes r d n hw).readLog = hw.readLog := by
  unfold csrng_seed_writes
  generalize List.range n = l
  induction l generalizing hw with
  | nil => rfl
  | cons a t ih => rw [List.foldl_cons, ih]; rfl

theorem idleWaitAux_first_read {n : Nat} {hw : Hw} {st : status_t} {hw₁ : Hw}
    (h : idleWaitAux (n + 1) hw = some (st, hw₁)) :
    ∃ v l, hw₁.readLog =
      hw.readLog ++ (kBaseCsrng + CSRNG_MAIN_SM_STATE_REG_OFFSET, v) :: l := by
  unfold idleWaitAux at h
  cases hr : abs_mmio_read32 hw (kBaseCsrng + CSRNG_MAIN_SM_STATE_REG_OFFSET) with
  | none => rw [hr] at h; simp at h
  | some pr =>
    obtain ⟨w, hw'⟩ := pr
    rw [hr] at h
    dsimp only at h
    obtain ⟨-, -, hrl⟩ := read_frame hr
    by_cases hp : w = kCsrngMainSmIdle
    · simp only [hp, if_true, reduceIte, Option.some.injEq, Prod.mk.injEq] at h
      obtain ⟨-, hhw⟩ := h
      subst hhw
      exact ⟨kCsrngMainSmIdle, [], by simpa [hp] using hrl⟩
    · simp only [hp, if_false, reduceIte] at h
      obtain ⟨-, -, ⟨l₂, hl₂⟩, -⟩ := idleWaitAux_frame h
      exact ⟨w, l₂, by rw [hl₂, hrl, List.append_assoc]; rfl⟩

/-- Counterexample to C5: `edn_configure` relays command templates through
`csrng_send_app_cmd`, which performs the main-state-machine idle wait
unconditionally; this concrete relayed send (the continuous-mode reseed
template written to an EDN0 command register, completion tracking off)
reads the CSRNG main-state register, so the wait is performed for relayed
commands, contrary to the claim. -/
theorem idle_wait_relayed_counterexample :
    c5Run.map (fun p => p.1) = some status_t.Ok ∧
    c5HwOut.readLog.filter
        (fun e => e.1 == kBaseCsrng + CSRNG_MAIN_SM_STATE_REG_OFFSET) =
      [(kBaseCsrng + CSRNG_MAIN_SM_STATE_REG_OFFSET, 0x4e)] := by
  constructor <;> rfl

/-- C5 (amended): the bounded idle wait on the CSRNG main-state register
is performed before every command sent through `csrng_send_app_cmd` — for
commands to the engine's own software interface and equally for commands
relayed through a distribution unit — as the first register access of
every completed call whose generate length is in range. -/
theorem csrng_send_app_cmd_idle_wait_first
    (reg_address : Nat) (cmd : entropy_csrng_cmd_t) (check_completion : Bool)
    (hw : Hw) (st : status_t) (hw₁ : Hw)
    (hlen : cmd.generate_len ≤ kMaxGenerateSizeIn128BitBlocks)
    (hlog : hw.readLog = [])
    (h : csrng_send_app_cmd reg_address cmd check_completion hw = some (st, hw₁)) :
    hw₁.readLog.head?.map Prod.fst =
      some (kBaseCsrng + CSRNG_MAIN_SM_STATE_REG_OFFSET) := by
  unfold csrng_send_app_cmd at h
  rw [if_neg (by omega)] at h
  cases hi : csrng_fsm_idle_wait hw with
  | none => rw [hi] at h; simp [statusTry] at h
  | some pr =>
    obtain ⟨st₀, hw₀⟩ := pr
    rw [hi] at h
    unfold csrng_fsm_idle_wait at hi
    rw [show kCsrngIdleNumTries = 99999 + 1 from rfl] at hi
    obtain ⟨v, l, hfst⟩ := idleWaitAux_first_read hi
    rw [hlog, List.nil_append] at hfst
    by_cases hst₀ : st₀ = status_t.Ok
    · rw [hst₀] at h
      simp only [statusTry, if_true, reduceIte] at h
      cases hp : pollUntil (kBaseCsrng + CSRNG_SW_CMD_STS_REG_OFFSET)
          (fun r => bitfield_bit32_read r CSRNG_SW_CMD_STS_CMD_RDY_BIT) hw₀ with
      | none => rw [hp] at h; simp at h
      | some pq =>
        obtain ⟨w, hw₂⟩ := pq
        rw [hp] at h
        dsimp only at h
        obtain ⟨l₂, hl₂, -⟩ := pollFuel_readLog hp
        rw [hfst] at hl₂
        split at h
        · obtain ⟨-, hhw⟩ := Prod.mk.injEq .. ▸ (Option.some.injEq .. ▸ h)
          subst hhw
          rw [hl₂]
          rfl
        · split at h
          · obtain ⟨-, hhw⟩ := Prod.mk.injEq .. ▸ (Option.some.injEq .. ▸ h)
            subst hhw
            rw [hl₂]
            rfl
          · set S := csrng_seed_writes reg_address
                (match cmd.seed_material with | none => [] | some sm => sm.data)
                (match cmd.seed_material with | none => 0 | some sm => sm.len)
                (abs_mmio_write32
                  (if check_completion = true then
                    abs_mmio_write32 hw₂ (kBaseCsrng + CSRNG_INTR_STATE_REG_OFFSET)
                      (bitfield_bit32_write 0 CSRNG_INTR_STATE_CS_CMD_REQ_DONE_BIT true)
                  else hw₂)
                  reg_address
                  (csrng_cmd_header cmd.id
                    (match cmd.seed_material with | none => 0 | some sm => sm.len)
                    cmd.disable_trng_input cmd.generate_len)) with hS
            have hr3 : S.readLog = hw₂.readLog := by
              rw [hS, seed_writes_readLog, write_readLog]
              split <;> rfl
            split at h
            · split at h
              · cases hp2 : pollUntil (kBaseCsrng + CSRNG_GENBITS_VLD_REG_OFFSET)
                    (fun r => bitfield_bit32_read r CSRNG_GENBITS_VLD_GENBITS_VLD_BIT) S with
                | none => rw [hp2] at h; simp at h
                | some pg =>
                  obtain ⟨w₃, hw₃⟩ := pg
                  rw [hp2] at h
                  dsimp only at h
                  obtain ⟨l₃, hl₃, -⟩ := pollFuel_readLog hp2
                  rw [hr3, hl₂] at hl₃
                  obtain ⟨-, hhw⟩ := Prod.mk.injEq .. ▸ (Option.some.injEq .. ▸ h)
                  subst hhw
                  rw [hl₃]
                  rfl
              · cases hp2 : pollUntil (kBaseCsrng + CSRNG_INTR_STATE_REG_OFFSET)
                    (fun r => bitfield_bit32_read r CSRNG_INTR_STATE_CS_CMD_REQ_DONE_BIT) S with
                | none => rw [hp2] at h; simp at h
                | some pg =>
                  obtain ⟨w₃, hw₃⟩ := pg
                  rw [hp2] at h
                  dsimp only at h
                  obtain ⟨l₃, hl₃, -⟩ := pollFuel_readLog hp2
                  rw [hr3, hl₂] at hl₃
                  cases hr4 : abs_mmio_read32 hw₃ (kBaseCsrng + CSRNG_SW_CMD_STS_REG_OFFSET) with
                  | none => rw [hr4] at h; simp at h
                  | some ps =>
                    obtain ⟨w₄, hw₄⟩ := ps
                    rw [hr4] at h
                    dsimp only at h
                    obtain ⟨-, -, hl₄⟩ := read_frame hr4
                    rw [hl₃] at hl₄
                    split at h <;>
                    · obtain ⟨-, hhw⟩ := Prod.mk.injEq .. ▸ (Option.some.injEq .. ▸ h)
                      subst hhw
                      rw [hl₄]
                      rfl
            · obtain ⟨-, hhw⟩ := Prod.mk.injEq .. ▸ (Option.some.injEq .. ▸ h)
              subst hhw
              rw [hr3, hl₂]
              rfl
    · rw [statusTry, if_neg hst₀] at h
      obtain ⟨-, hhw⟩ := Prod.mk.injEq .. ▸ (Option.some.injEq .. ▸ h)
      subst hhw
      rw [hfst]
      rfl

/-- Witness for the amended C5: both a direct software-interface command
and an EDN-relayed command begin with a read of the CSRNG main-state
register. -/
theorem csrng_send_app_cmd_idle_wait_first_witness :
    c5DirectHwOut.readLog.head?.map Prod.fst =
      some (kBaseCsrng + CSRNG_MAIN_SM_STATE_REG_OFFSET) :=
  csrng_send_app_cmd_idle_wait_first (kBaseCsrng + CSRNG_CMD_REQ_REG_OFFSET)
    { id := kEntropyDrbgOpUninstantiate, disable_trng_input := 0,
      seed_material := none, generate_len := 0 } true
    (freshHw [0x4e, 0x2, 0x1, 0x0]) status_t.Ok c5DirectHwOut
    (by norm_num [kMaxGenerateSizeIn128BitBlocks]) rfl rfl

theorem read_immediate {hw : Hw} {a o : Nat} {t : List Nat}
    (hs : isStatusAddr a = true) (ho : hw.oracle = o :: t) :
    abs_mmio_read32 hw a =
      some (o, { hw with oracle := t, readLog := hw.readLog ++ [(a, o)] }) := by
  simp [abs_mmio_read32, hs, ho]

theorem idle_wait_immediate {hw : Hw} {t : List Nat}
    (ho : hw.oracle = kCsrngMainSmIdle :: t) :
    csrng_fsm_idle_wait hw =
      some (status_t.Ok,
        { hw with
            oracle := t
            readLog := hw.readLog ++
              [(kBaseCsrng + CSRNG_MAIN_SM_STATE_REG_OFFSET, kCsrngMainSmIdle)] }) := by
  unfold csrng_fsm_idle_wait
  rw [show kCsrngIdleNumTries = 99999 + 1 from rfl]
  unfold idleWaitAux
  rw [read_immediate (by decide) ho]
  simp

theorem poll_immediate (a : Nat) (p : Nat → Bool) {hw : Hw} {o : Nat} {t : List Nat}
    (hs : isStatusAddr a = true) (ho : hw.oracle = o :: t) (hp : p o = true) :
    pollUntil a p hw =
      some (o, { hw with oracle := t, readLog := hw.readLog ++ [(a, o)] }) := by
  unfold pollUntil
  rw [ho]
  show pollUntilFuel (t.length + 1 + 1) a p hw = _
  unfold pollUntilFuel
  rw [read_immediate hs ho]
  simp [hp]

theorem seed_writes_spec (r : Nat) (d : List Nat) (n : Nat) (hw : Hw) :
    (csrng_seed_writes r d n hw).writeLog =
      hw.writeLog ++ (List.range n).map (fun i => (r, d.getD i 0)) ∧
    (csrng_seed_writes r d n hw).oracle = hw.oracle ∧
    (csrng_seed_writes r d n hw).readLog = hw.readLog := by
  unfold csrng_seed_writes
  generalize List.range n = l
  induction l generalizing hw with
  | nil => simp
  | cons a t ih =>
    rw [List.foldl_cons]
    obtain ⟨h1, h2, h3⟩ := ih (abs_mmio_write32 hw r (d.getD a 0))
    refine ⟨?_, h2, h3⟩
    rw [h1]
    simp [abs_mmio_write32]

/-- C7: for every command sent through `csrng_send_app_cmd` with
completion tracking: the command-request-done interrupt-status bit is
cleared by a register write that precedes the command-header write;
afterwards a generate command completes by polling until the
generated-bits-valid bit is set and returns success, while every other
command polls until the command-request-done bit is set and then returns
RecoverableError exactly when the subsequently read command-status bit is
set, success otherwise. -/
theorem csrng_send_app_cmd_completion
    (reg_address : Nat) (cmd : entropy_csrng_cmd_t) (hw : Hw)
    (o₂ : Nat) (rest : List Nat)
    (ho : hw.oracle = kCsrngMainSmIdle :: o₂ :: rest)
    (hrdy : bitfield_bit32_read o₂ CSRNG_SW_CMD_STS_CMD_RDY_BIT = true)
    (hlen : cmd.generate_len ≤ kMaxGenerateSizeIn128BitBlocks)
    (hcl : cmdLenOf cmd &&& comp32 kAppCmdFieldCmdLen.mask = 0)
    (hal : ∀ sm, cmd.seed_material = some sm → misalignment32_of sm.dataPtr = 0) :
    (cmd.id ≠ kEntropyDrbgOpGenerate → ∀ d sreg rest₂, rest = d :: sreg :: rest₂ →
      bitfield_bit32_read d CSRNG_INTR_STATE_CS_CMD_REQ_DONE_BIT = true →
      (csrng_send_app_cmd reg_address cmd true hw).map (fun p => p.1) =
        some (if bitfield_bit32_read sreg CSRNG_SW_CMD_STS_CMD_STS_BIT then
          status_t.RecovErr else status_t.Ok) ∧
      (csrng_send_app_cmd reg_address cmd true hw).map (fun p => p.2.writeLog) =
        some (hw.writeLog ++
          (kBaseCsrng + CSRNG_INTR_STATE_REG_OFFSET,
            bitfield_bit32_write 0 CSRNG_INTR_STATE_CS_CMD_REQ_DONE_BIT true) ::
          (reg_address, csrng_cmd_header cmd.id (cmdLenOf cmd)
            cmd.disable_trng_input cmd.generate_len) ::
          (List.range (cmdLenOf cmd)).map
            (fun i => (reg_address, (seedDataOf cmd).getD i 0)))) ∧
    (cmd.id = kEntropyDrbgOpGenerate → ∀ g rest₂, rest = g :: rest₂ →
      bitfield_bit32_read g CSRNG_GENBITS_VLD_GENBITS_VLD_BIT = true →
      (csrng_send_app_cmd reg_address cmd true hw).map (fun p => p.1) =
        some status_t.Ok ∧
      (csrng_send_app_cmd reg_address cmd true hw).map (fun p => p.2.writeLog) =
        some (hw.writeLog ++
          (kBaseCsrng + CSRNG_INTR_STATE_REG_OFFSET,
            bitfield_bit32_write 0 CSRNG_INTR_STATE_CS_CMD_REQ_DONE_BIT true) ::
          (reg_address, csrng_cmd_header cmd.id (cmdLenOf cmd)
            cmd.disable_trng_input cmd.generate_len) ::
          (List.range (cmdLenOf cmd)).map
            (fun i => (reg_address, (seedDataOf cmd).getD i 0)))) := by
  have hclm : ¬ ((match cmd.seed_material with
      | none => 0
      | some sm => sm.len) &&& comp32 kAppCmdFieldCmdLen.mask ≠ 0) :=
    not_not_intro hcl
  have halm : (match cmd.seed_material with
      | none => false
      | some sm => decide (misalignment32_of sm.dataPtr ≠ 0)) = false := by
    cases hsm : cmd.seed_material with
    | none => rfl
    | some sm => simp [hal sm hsm]
  refine ⟨fun hid d sreg rest₂ hrest hdone => ?_, fun hid g rest₂ hrest hvld => ?_⟩
  · subst hrest
    unfold csrng_send_app_cmd
    rw [if_neg (by omega), idle_wait_immediate ho]
    simp only [statusTry, reduceIte]
    rw [poll_immediate (kBaseCsrng + CSRNG_SW_CMD_STS_REG_OFFSET)
      (fun r => bitfield_bit32_read r CSRNG_SW_CMD_STS_CMD_RDY_BIT)
      (by decide) rfl hrdy]
    dsimp only
    rw [if_neg hclm, if_neg (by rw [halm]; simp), if_neg hid]
    set S := csrng_seed_writes reg_address
        (match cmd.seed_material with | none => [] | some sm => sm.data)
        (match cmd.seed_material with | none => 0 | some sm => sm.len)
        (abs_mmio_write32
          (abs_mmio_write32
            { hw with
                oracle := d :: sreg :: rest₂
                readLog := hw.readLog ++
                  [(kBaseCsrng + CSRNG_MAIN_SM_STATE_REG_OFFSET, kCsrngMainSmIdle)] ++
                  [(kBaseCsrng + CSRNG_SW_CMD_STS_REG_OFFSET, o₂)] }
            (kBaseCsrng + CSRNG_INTR_STATE_REG_OFFSET)
            (bitfield_bit32_write 0 CSRNG_INTR_STATE_CS_CMD_REQ_DONE_BIT true))
          reg_address
          (csrng_cmd_header cmd.id
            (match cmd.seed_material with | none => 0 | some sm => sm.len)
            cmd.disable_trng_input cmd.generate_len)) with hS
    have hsw := seed_writes_spec reg_address
        (match cmd.seed_material with | none => [] | some sm => sm.data)
        (match cmd.seed_material with | none => 0 | some sm => sm.len)
        (abs_mmio_write32
          (abs_mmio_write32
            { hw with
                oracle := d :: sreg :: rest₂
                readLog := hw.readLog ++
                  [(kBaseCsrng + CSRNG_MAIN_SM_STATE_REG_OFFSET, kCsrngMainSmIdle)] ++
                  [(kBaseCsrng + CSRNG_SW_CMD_STS_REG_OFFSET, o₂)] }
            (kBaseCsrng + CSRNG_INTR_STATE_REG_OFFSET)
            (bitfield_bit32_write 0 CSRNG_INTR_STATE_CS_CMD_REQ_DONE_BIT true))
          reg_address
          (csrng_cmd_header cmd.id
            (match cmd.seed_material with | none => 0 | some sm => sm.len)
            cmd.disable_trng_input cmd.generate_len))
    rw [← hS] at hsw
    obtain ⟨hwl, horc, -⟩ := hsw
    have hso : S.oracle = d :: sreg :: rest₂ := by rw [horc]; rfl
    rw [poll_immediate (kBaseCsrng + CSRNG_INTR_STATE_REG_OFFSET)
      (fun r => bitfield_bit32_read r CSRNG_INTR_STATE_CS_CMD_REQ_DONE_BIT)
      (by decide) hso hdone]
    dsimp only
    rw [read_immediate (by decide)
      (show ({ S with
          oracle := sreg :: rest₂
          readLog := S.readLog ++
            [(kBaseCsrng + CSRNG_INTR_STATE_REG_OFFSET, d)] } : Hw).oracle =
        sreg :: rest₂ from rfl)]
    dsimp only
    by_cases bs : bitfield_bit32_read sreg CSRNG_SW_CMD_STS_CMD_STS_BIT <;>
    · simp only [bs, reduceIte, Option.map_some, Option.some.injEq]
      refine ⟨rfl, ?_⟩
      rw [hwl]
      simp [abs_mmio_write32, cmdLenOf, seedDataOf]
  · subst hrest
    unfold csrng_send_app_cmd
    rw [if_neg (by omega), idle_wait_immediate ho]
    simp only [statusTry, reduceIte]
    rw [poll_immediate (kBaseCsrng + CSRNG_SW_CMD_STS_REG_OFFSET)
      (fun r => bitfield_bit32_read r CSRNG_SW_CMD_STS_CMD_RDY_BIT)
      (by decide) rfl hrdy]
    dsimp only
    rw [if_neg hclm, if_neg (by rw [halm]; simp), if_pos hid]
    set S := csrng_seed_writes reg_address
        (match cmd.seed_material with | none => [] | some sm => sm.data)
        (match cmd.seed_material with | none => 0 | some sm => sm.len)
        (abs_mmio_write32
          (abs_mmio_write32
            { hw with
                oracle := g :: rest₂
                readLog := hw.readLog ++
                  [(kBaseCsrng + CSRNG_MAIN_SM_STATE_REG_OFFSET, kCsrngMainSmIdle)] ++
                  [(kBaseCsrng + CSRNG_SW_CMD_STS_REG_OFFSET, o₂)] }
            (kBaseCsrng + CSRNG_INTR_STATE_REG_OFFSET)
            (bitfield_bit32_write 0 CSRNG_INTR_STATE_CS_CMD_REQ_DONE_BIT true))
          reg_address
          (csrng_cmd_header cmd.id
            (match cmd.seed_material with | none => 0 | some sm => sm.len)
            cmd.disable_trng_input cmd.generate_len)) with hS
    have hsw := seed_writes_spec reg_address
        (match cmd.seed_material with | none => [] | some sm => sm.data)
        (match cmd.seed_material with | none => 0 | some sm => sm.len)
        (abs_mmio_write32
          (abs_mmio_write32
            { hw with
                oracle := g :: rest₂
                readLog := hw.readLog ++
                  [(kBaseCsrng + CSRNG_MAIN_SM_STATE_REG_OFFSET, kCsrngMainSmIdle)] ++
                  [(kBaseCsrng + CSRNG_SW_CMD_STS_REG_OFFSET, o₂)] }
            (kBaseCsrng + CSRNG_INTR_STATE_REG_OFFSET)
            (bitfield_bit32_write 0 CSRNG_INTR_STATE_CS_CMD_REQ_DONE_BIT true))
          reg_address
          (csrng_cmd_header cmd.id
            (match cmd.seed_material with | none => 0 | some sm => sm.len)
            cmd.disable_trng_input cmd.generate_len))
    rw [← hS] at hsw
    obtain ⟨hwl, horc, -⟩ := hsw
    have hso : S.oracle = g :: rest₂ := by rw [horc]; rfl
    rw [poll_immediate (kBaseCsrng + CSRNG_GENBITS_VLD_REG_OFFSET)
      (fun r => bitfield_bit32_read r CSRNG_GENBITS_VLD_GENBITS_VLD_BIT)
      (by decide) hso hvld]
    dsimp only
    refine ⟨rfl, ?_⟩
    show some _ = _
    rw [show ({ S with
        oracle := rest₂
        readLog := S.readLog ++
          [(kBaseCsrng + CSRNG_GENBITS_VLD_REG_OFFSET, g)] } : Hw).writeLog =
      S.writeLog from rfl, hwl]
    simp [abs_mmio_write32, cmdLenOf, seedDataOf]

/-- Witness for C7: a concrete reseed command (non-generate, status bit
clear afterwards) and a concrete generate command, both with the
interrupt-clear write preceding the header write. -/
theorem csrng_send_app_cmd_completion_witness :
    ((csrng_send_app_cmd 0x41150018 ⟨2, 0x739, none, 0⟩ true
        (freshHw [0x4e, 0x2, 0x1, 0x0])).map (fun p => p.1) = some status_t.Ok ∧
      (csrng_send_app_cmd 0x41150018 ⟨2, 0x739, none, 0⟩ true
        (freshHw [0x4e, 0x2, 0x1, 0x0])).map (fun p => p.2.writeLog) =
        some [(0x41150000, 1), (0x41150018, 0x602)]) ∧
    ((csrng_send_app_cmd 0x41150018 ⟨3, 0, none, 4⟩ true
        (freshHw [0x4e, 0x2, 0x1])).map (fun p => p.1) = some status_t.Ok ∧
      (csrng_send_app_cmd 0x41150018 ⟨3, 0, none, 4⟩ true
        (freshHw [0x4e, 0x2, 0x1])).map (fun p => p.2.writeLog) =
        some [(0x41150000, 1), (0x41150018, 0x4003)]) :=
  ⟨(csrng_send_app_cmd_completion 0x41150018 ⟨2, 0x739, none, 0⟩
      (freshHw [0x4e, 0x2, 0x1, 0x0]) 0x2 [0x1, 0x0] rfl (by decide)
      (by norm_num [kMaxGenerateSizeIn128BitBlocks]) (by decide)
      (fun sm hsm => by simp at hsm)).1
    (by decide) 0x1 0x0 [] rfl (by decide),
   (csrng_send_app_cmd_completion 0x41150018 ⟨3, 0, none, 4⟩
      (freshHw [0x4e, 0x2, 0x1]) 0x2 [0x1] rfl (by decide)
      (by norm_num [kMaxGenerateSizeIn128BitBlocks]) (by decide)
      (fun sm hsm => by simp at hsm)).2
    rfl 0x1 [] rfl (by decide)⟩


theorem read_cfg {hw : Hw} (a : Nat) (hs : isStatusAddr a = false) :
    abs_mmio_read32 hw a =
      some (memGet hw.mem a,
        { hw with readLog := hw.readLog ++ [(a, memGet hw.mem a)] }) := by
  simp [abs_mmio_read32, hs]

set_option maxHeartbeats 1000000 in
/-- C8: `entropy_src_check` returns BadArguments with an untouched state
for every configuration whose hardened flags are not exactly
FIPS-enabled, non-bypass, non-route; for accepted configurations it
returns success exactly when module-enable, the configuration and control
fields, the window size, the alert-threshold pair and all nine FIPS
thresholds read back as expected, and a recoverable error exactly
otherwise. -/
theorem entropy_src_check_characterization (config : entropy_src_config_t) (hw : Hw) :
    ((config.fips_enable ≠ kMultiBitBool4True ∨
      config.bypass_conditioner ≠ kMultiBitBool4False ∨
      config.route_to_firmware ≠ kMultiBitBool4False) →
      entropy_src_check config hw = some (status_t.BadArgs, hw)) ∧
    (config.fips_enable = kMultiBitBool4True →
     config.bypass_conditioner = kMultiBitBool4False →
     config.route_to_firmware = kMultiBitBool4False →
      (statusOf (entropy_src_check config hw) = some status_t.Ok ↔
        entropy_src_check_spec_conditions config hw) ∧
      (statusOf (entropy_src_check config hw) = some status_t.RecovErr ↔
        ¬ entropy_src_check_spec_conditions config hw)) := by
  constructor
  · intro hbad
    unfold entropy_src_check
    rw [if_pos hbad]
  · intro hf hb hr
    have heval : statusOf (entropy_src_check config hw) =
        some (if entropy_src_check_spec_conditions config hw then status_t.Ok
          else status_t.RecovErr) := by
      unfold entropy_src_check entropy_src_check_spec_conditions VERIFY_FIPS_THRESH
      rw [if_neg (by simp [hf, hb, hr])]
      rw [read_cfg (kBaseEntropySrc + ENTROPY_SRC_MODULE_ENABLE_REG_OFFSET) (by decide)]
      dsimp only
      rw [read_cfg (kBaseEntropySrc + ENTROPY_SRC_CONF_REG_OFFSET) (by decide)]
      dsimp only
      rw [read_cfg (kBaseEntropySrc + ENTROPY_SRC_ENTROPY_CONTROL_REG_OFFSET) (by decide)]
      dsimp only
      rw [read_cfg (kBaseEntropySrc + ENTROPY_SRC_HEALTH_TEST_WINDOWS_REG_OFFSET) (by decide)]
      dsimp only
      rw [read_cfg (kBaseEntropySrc + ENTROPY_SRC_ALERT_THRESHOLD_REG_OFFSET) (by decide)]
      dsimp only
      rw [read_cfg (kBaseEntropySrc + ENTROPY_SRC_REPCNT_THRESHOLDS_REG_OFFSET) (by decide)]
      dsimp only
      rw [read_cfg (kBaseEntropySrc + ENTROPY_SRC_REPCNTS_THRESHOLDS_REG_OFFSET) (by decide)]
      dsimp only
      rw [read_cfg (kBaseEntropySrc + ENTROPY_SRC_ADAPTP_HI_THRESHOLDS_REG_OFFSET) (by decide)]
      dsimp only
      rw [read_cfg (kBaseEntropySrc + ENTROPY_SRC_ADAPTP_LO_THRESHOLDS_REG_OFFSET) (by decide)]
      dsimp only
      rw [read_cfg (kBaseEntropySrc + ENTROPY_SRC_BUCKET_THRESHOLDS_REG_OFFSET) (by decide)]
      dsimp only
      rw [read_cfg (kBaseEntropySrc + ENTROPY_SRC_MARKOV_HI_THRESHOLDS_REG_OFFSET) (by decide)]
      dsimp only
      rw [read_cfg (kBaseEntropySrc + ENTROPY_SRC_MARKOV_LO_THRESHOLDS_REG_OFFSET) (by decide)]
      dsimp only
      rw [read_cfg (kBaseEntropySrc + ENTROPY_SRC_EXTHT_HI_THRESHOLDS_REG_OFFSET) (by decide)]
      dsimp only
      rw [read_cfg (kBaseEntropySrc + ENTROPY_SRC_EXTHT_LO_THRESHOLDS_REG_OFFSET) (by decide)]
      dsimp only [statusOf]
      by_cases g1 : memGet hw.mem (kBaseEntropySrc + ENTROPY_SRC_MODULE_ENABLE_REG_OFFSET) ≠ kMultiBitBool4True
      · rw [if_pos g1]
        simp only [Option.map_some', Option.some.injEq]
        rw [if_neg (fun hC => g1 hC.1)]
      · rw [if_neg g1]
        by_cases g2 : bitfield_field32_read (memGet hw.mem (kBaseEntropySrc + ENTROPY_SRC_CONF_REG_OFFSET)) ENTROPY_SRC_CONF_FIPS_ENABLE_FIELD ≠ kMultiBitBool4True ∨ bitfield_field32_read (memGet hw.mem (kBaseEntropySrc + ENTROPY_SRC_CONF_REG_OFFSET)) ENTROPY_SRC_CONF_RNG_BIT_ENABLE_FIELD ≠ kMultiBitBool4False
        · rw [if_pos g2]
          simp only [Option.map_some', Option.some.injEq]
          rw [if_neg (fun hC => g2.elim (fun h => h hC.2.1) (fun h => h hC.2.2.1))]
        · rw [if_neg g2]
          by_cases g3 : bitfield_field32_read (memGet hw.mem (kBaseEntropySrc + ENTROPY_SRC_ENTROPY_CONTROL_REG_OFFSET)) ENTROPY_SRC_ENTROPY_CONTROL_ES_TYPE_FIELD ≠ kMultiBitBool4False ∨ bitfield_field32_read (memGet hw.mem (kBaseEntropySrc + ENTROPY_SRC_ENTROPY_CONTROL_REG_OFFSET)) ENTROPY_SRC_ENTROPY_CONTROL_ES_ROUTE_FIELD ≠ kMultiBitBool4False
          · rw [if_pos g3]
            simp only [Option.map_some', Option.some.injEq]
            rw [if_neg (fun hC => g3.elim (fun h => h hC.2.2.2.1) (fun h => h hC.2.2.2.2.1))]
          · rw [if_neg g3]
            by_cases g4 : bitfield_field32_read (memGet hw.mem (kBaseEntropySrc + ENTROPY_SRC_HEALTH_TEST_WINDOWS_REG_OFFSET)) ENTROPY_SRC_HEALTH_TEST_WINDOWS_FIPS_WINDOW_FIELD ≠ config.fips_test_window_size
            · rw [if_pos g4]
              simp only [Option.map_some', Option.some.injEq]
              rw [if_neg (fun hC => g4 hC.2.2.2.2.2.1)]
            · rw [if_neg g4]
              by_cases g5 : bitfield_field32_write (bitfield_field32_write 0 ENTROPY_SRC_ALERT_THRESHOLD_ALERT_THRESHOLD_FIELD config.alert_threshold) ENTROPY_SRC_ALERT_THRESHOLD_ALERT_THRESHOLD_INV_FIELD (comp32 config.alert_threshold) ≠ memGet hw.mem (kBaseEntropySrc + ENTROPY_SRC_ALERT_THRESHOLD_REG_OFFSET)
              · rw [if_pos g5]
                simp only [Option.map_some', Option.some.injEq]
                rw [if_neg (fun hC => g5 hC.2.2.2.2.2.2.1)]
              · rw [if_neg g5]
                by_cases g6 : bitfield_field32_read (memGet hw.mem (kBaseEntropySrc + ENTROPY_SRC_REPCNT_THRESHOLDS_REG_OFFSET)) ENTROPY_SRC_THRESHOLDS_FIPS_THRESH_FIELD ≠ config.repcnt_threshold
                · rw [if_pos g6]
                  simp only [Option.map_some', Option.some.injEq]
                  rw [if_neg (fun hC => g6 hC.2.2.2.2.2.2.2.1)]
                · rw [if_neg g6]
                  by_cases g7 : bitfield_field32_read (memGet hw.mem (kBaseEntropySrc + ENTROPY_SRC_REPCNTS_THRESHOLDS_REG_OFFSET)) ENTROPY_SRC_THRESHOLDS_FIPS_THRESH_FIELD ≠ config.repcnts_threshold
                  · rw [if_pos g7]
                    simp only [Option.map_some', Option.some.injEq]
                    rw [if_neg (fun hC => g7 hC.2.2.2.2.2.2.2.2.1)]
                  · rw [if_neg g7]
                    by_cases g8 : bitfield_field32_read (memGet hw.mem (kBaseEntropySrc + ENTROPY_SRC_ADAPTP_HI_THRESHOLDS_REG_OFFSET)) ENTROPY_SRC_THRESHOLDS_FIPS_THRESH_FIELD ≠ config.adaptp_hi_threshold
                    · rw [if_pos g8]
                      simp only [Option.map_some', Option.some.injEq]
                      rw [if_neg (fun hC => g8 hC.2.2.2.2.2.2.2.2.2.1)]
                    · rw [if_neg g8]
                      by_cases g9 : bitfield_field32_read (memGet hw.mem (kBaseEntropySrc + ENTROPY_SRC_ADAPTP_LO_THRESHOLDS_REG_OFFSET)) ENTROPY_SRC_THRESHOLDS_FIPS_THRESH_FIELD ≠ config.adaptp_lo_threshold
                      · rw [if_pos g9]
                        simp only [Option.map_some', Option.some.injEq]
                        rw [if_neg (fun hC => g9 hC.2.2.2.2.2.2.2.2.2.2.1)]
                      · rw [if_neg g9]
                        by_cases g10 : bitfield_field32_read (memGet hw.mem (kBaseEntropySrc + ENTROPY_SRC_BUCKET_THRESHOLDS_REG_OFFSET)) ENTROPY_SRC_THRESHOLDS_FIPS_THRESH_FIELD ≠ config.bucket_threshold
                        · rw [if_pos g10]
                          simp only [Option.map_some', Option.some.injEq]
                          rw [if_neg (fun hC => g10 hC.2.2.2.2.2.2.2.2.2.2.2.1)]
                        · rw [if_neg g10]
                          by_cases g11 : bitfield_field32_read (memGet hw.mem (kBaseEntropySrc + ENTROPY_SRC_MARKOV_HI_THRESHOLDS_REG_OFFSET)) ENTROPY_SRC_THRESHOLDS_FIPS_THRESH_FIELD ≠ config.markov_hi_threshold
                          · rw [if_pos g11]
                            simp only [Option.map_some', Option.some.injEq]
                            rw [if_neg (fun hC => g11 hC.2.2.2.2.2.2.2.2.2.2.2.2.1)]
                          · rw [if_neg g11]
                            by_cases g12 : bitfield_field32_read (memGet hw.mem (kBaseEntropySrc + ENTROPY_SRC_MARKOV_LO_THRESHOLDS_REG_OFFSET)) ENTROPY_SRC_THRESHOLDS_FIPS_THRESH_FIELD ≠ config.markov_lo_threshold
                            · rw [if_pos g12]
                              simp only [Option.map_some', Option.some.injEq]
                              rw [if_neg (fun hC => g12 hC.2.2.2.2.2.2.2.2.2.2.2.2.2.1)]
                            · rw [if_neg g12]
                              by_cases g13 : bitfield_field32_read (memGet hw.mem (kBaseEntropySrc + ENTROPY_SRC_EXTHT_HI_THRESHOLDS_REG_OFFSET)) ENTROPY_SRC_THRESHOLDS_FIPS_THRESH_FIELD ≠ config.extht_hi_threshold
                              · rw [if_pos g13]
                                simp only [Option.map_some', Option.some.injEq]
                                rw [if_neg (fun hC => g13 hC.2.2.2.2.2.2.2.2.2.2.2.2.2.2.1)]
                              · rw [if_neg g13]
                                by_cases g14 : bitfield_field32_read (memGet hw.mem (kBaseEntropySrc + ENTROPY_SRC_EXTHT_LO_THRESHOLDS_REG_OFFSET)) ENTROPY_SRC_THRESHOLDS_FIPS_THRESH_FIELD ≠ config.extht_lo_threshold
                                · rw [if_pos g14]
                                  simp only [Option.map_some', Option.some.injEq]
                                  rw [if_neg (fun hC => g14 hC.2.2.2.2.2.2.2.2.2.2.2.2.2.2.2)]
                                · rw [if_neg g14]
                                  simp only [Option.map_some', Option.some.injEq]
                                  rw [if_pos ⟨not_ne_iff.mp g1, not_ne_iff.mp (not_or.mp g2).1, not_ne_iff.mp (not_or.mp g2).2, not_ne_iff.mp (not_or.mp g3).1, not_ne_iff.mp (not_or.mp g3).2, not_ne_iff.mp g4, not_ne_iff.mp g5, not_ne_iff.mp g6, not_ne_iff.mp g7, not_ne_iff.mp g8, not_ne_iff.mp g9, not_ne_iff.mp g10, not_ne_iff.mp g11, not_ne_iff.mp g12, not_ne_iff.mp g13, not_ne_iff.mp g14⟩]
    constructor
    · rw [heval]
      by_cases hc : entropy_src_check_spec_conditions config hw <;> simp [hc]
    · rw [heval]
      by_cases hc : entropy_src_check_spec_conditions config hw <;> simp [hc]

/-- Witness for C8: a configuration with a corrupted FIPS-enable flag is
rejected as BadArguments with the state untouched, and the continuous-mode
configuration checks out against a register file holding exactly the
configured values. -/
theorem entropy_src_check_characterization_witness :
    entropy_src_check
        { kEntropyComplexConfigContinuous.entropy_src with fips_enable := 0 }
        c8Hw = some (status_t.BadArgs, c8Hw) ∧
    statusOf (entropy_src_check kEntropyComplexConfigContinuous.entropy_src c8Hw) =
      some status_t.Ok :=
  ⟨(entropy_src_check_characterization
      { kEntropyComplexConfigContinuous.entropy_src with fips_enable := 0 } c8Hw).1
      (Or.inl (by decide)),
   ((entropy_src_check_characterization
      kEntropyComplexConfigContinuous.entropy_src c8Hw).2 rfl rfl rfl).1.mpr (by decide)⟩


theorem entropy_src_check_frame {config : entropy_src_config_t} {hw : Hw}
    {st : status_t} {hw₁ : Hw}
    (h : entropy_src_check config hw = some (st, hw₁)) :
    hw₁.mem = hw.mem ∧ hw₁.writeLog = hw.writeLog := by
  unfold entropy_src_check VERIFY_FIPS_THRESH at h
  by_cases hbad : config.fips_enable ≠ kMultiBitBool4True ∨ config.bypass_conditioner ≠ kMultiBitBool4False ∨ config.route_to_firmware ≠ kMultiBitBool4False
  · rw [if_pos hbad] at h
    simp only [Option.some.injEq, Prod.mk.injEq] at h
    obtain ⟨-, hhw⟩ := h
    subst hhw
    exact ⟨rfl, rfl⟩
  · rw [if_neg hbad] at h
    rw [read_cfg (kBaseEntropySrc + ENTROPY_SRC_MODULE_ENABLE_REG_OFFSET) (by decide)] at h
    dsimp only at h
    rw [read_cfg (kBaseEntropySrc + ENTROPY_SRC_CONF_REG_OFFSET) (by decide)] at h
    dsimp only at h
    rw [read_cfg (kBaseEntropySrc + ENTROPY_SRC_ENTROPY_CONTROL_REG_OFFSET) (by decide)] at h
    dsimp only at h
    rw [read_cfg (kBaseEntropySrc + ENTROPY_SRC_HEALTH_TEST_WINDOWS_REG_OFFSET) (by decide)] at h
    dsimp only at h
    rw [read_cfg (kBaseEntropySrc + ENTROPY_SRC_ALERT_THRESHOLD_REG_OFFSET) (by decide)] at h
    dsimp only at h
    rw [read_cfg (kBaseEntropySrc + ENTROPY_SRC_REPCNT_THRESHOLDS_REG_OFFSET) (by decide)] at h
    dsimp only at h
    rw [read_cfg (kBaseEntropySrc + ENTROPY_SRC_REPCNTS_THRESHOLDS_REG_OFFSET) (by decide)] at h
    dsimp only at h
    rw [read_cfg (kBaseEntropySrc + ENTROPY_SRC_ADAPTP_HI_THRESHOLDS_REG_OFFSET) (by decide)] at h
    dsimp only at h
    rw [read_cfg (kBaseEntropySrc + ENTROPY_SRC_ADAPTP_LO_THRESHOLDS_REG_OFFSET) (by decide)] at h
    dsimp only at h
    rw [read_cfg (kBaseEntropySrc + ENTROPY_SRC_BUCKET_THRESHOLDS_REG_OFFSET) (by decide)] at h
    dsimp only at h
    rw [read_cfg (kBaseEntropySrc + ENTROPY_SRC_MARKOV_HI_THRESHOLDS_REG_OFFSET) (by decide)] at h
    dsimp only at h
    rw [read_cfg (kBaseEntropySrc + ENTROPY_SRC_MARKOV_LO_THRESHOLDS_REG_OFFSET) (by decide)] at h
    dsimp only at h
    rw [read_cfg (kBaseEntropySrc + ENTROPY_SRC_EXTHT_HI_THRESHOLDS_REG_OFFSET) (by decide)] at h
    dsimp only at h
    rw [read_cfg (kBaseEntropySrc + ENTROPY_SRC_EXTHT_LO_THRESHOLDS_REG_OFFSET) (by decide)] at h
    dsimp only at h
    by_cases g1 : memGet hw.mem (kBaseEntropySrc + ENTROPY_SRC_MODULE_ENABLE_REG_OFFSET) ≠ kMultiBitBool4True
    · rw [if_pos g1] at h
      simp only [Option.some.injEq, Prod.mk.injEq] at h
      obtain ⟨-, hhw⟩ := h
      subst hhw
      exact ⟨rfl, rfl⟩
    · rw [if_neg g1] at h
      by_cases g2 : bitfield_field32_read (memGet hw.mem (kBaseEntropySrc + ENTROPY_SRC_CONF_REG_OFFSET)) ENTROPY_SRC_CONF_FIPS_ENABLE_FIELD ≠ kMultiBitBool4True ∨ bitfield_field32_read (memGet hw.mem (kBaseEntropySrc + ENTROPY_SRC_CONF_REG_OFFSET)) ENTROPY_SRC_CONF_RNG_BIT_ENABLE_FIELD ≠ kMultiBitBool4False
      · rw [if_pos g2] at h
        simp only [Option.some.injEq, Prod.mk.injEq] at h
        obtain ⟨-, hhw⟩ := h
        subst hhw
        exact ⟨rfl, rfl⟩
      · rw [if_neg g2] at h
        by_cases g3 : bitfield_field32_read (memGet hw.mem (kBaseEntropySrc + ENTROPY_SRC_ENTROPY_CONTROL_REG_OFFSET)) ENTROPY_SRC_ENTROPY_CONTROL_ES_TYPE_FIELD ≠ kMultiBitBool4False ∨ bitfield_field32_read (memGet hw.mem (kBaseEntropySrc + ENTROPY_SRC_ENTROPY_CONTROL_REG_OFFSET)) ENTROPY_SRC_ENTROPY_CONTROL_ES_ROUTE_FIELD ≠ kMultiBitBool4False
        · rw [if_pos g3] at h
          simp only [Option.some.injEq, Prod.mk.injEq] at h
          obtain ⟨-, hhw⟩ := h
          subst hhw
          exact ⟨rfl, rfl⟩
        · rw [if_neg g3] at h
          by_cases g4 : bitfield_field32_read (memGet hw.mem (kBaseEntropySrc + ENTROPY_SRC_HEALTH_TEST_WINDOWS_REG_OFFSET)) ENTROPY_SRC_HEALTH_TEST_WINDOWS_FIPS_WINDOW_FIELD ≠ config.fips_test_window_size
          · rw [if_pos g4] at h
            simp only [Option.some.injEq, Prod.mk.injEq] at h
            obtain ⟨-, hhw⟩ := h
            subst hhw
            exact ⟨rfl, rfl⟩
          · rw [if_neg g4] at h
            by_cases g5 : bitfield_field32_write (bitfield_field32_write 0 ENTROPY_SRC_ALERT_THRESHOLD_ALERT_THRESHOLD_FIELD config.alert_threshold) ENTROPY_SRC_ALERT_THRESHOLD_ALERT_THRESHOLD_INV_FIELD (comp32 config.alert_threshold) ≠ memGet hw.mem (kBaseEntropySrc + ENTROPY_SRC_ALERT_THRESHOLD_REG_OFFSET)
            · rw [if_pos g5] at h
              simp only [Option.some.injEq, Prod.mk.injEq] at h
              obtain ⟨-, hhw⟩ := h
              subst hhw
              exact ⟨rfl, rfl⟩
            · rw [if_neg g5] at h
              by_cases g6 : bitfield_field32_read (memGet hw.mem (kBaseEntropySrc + ENTROPY_SRC_REPCNT_THRESHOLDS_REG_OFFSET)) ENTROPY_SRC_THRESHOLDS_FIPS_THRESH_FIELD ≠ config.repcnt_threshold
              · rw [if_pos g6] at h
                simp only [Option.some.injEq, Prod.mk.injEq] at h
                obtain ⟨-, hhw⟩ := h
                subst hhw
                exact ⟨rfl, rfl⟩
              · rw [if_neg g6] at h
                by_cases g7 : bitfield_field32_read (memGet hw.mem (kBaseEntropySrc + ENTROPY_SRC_REPCNTS_THRESHOLDS_REG_OFFSET)) ENTROPY_SRC_THRESHOLDS_FIPS_THRESH_FIELD ≠ config.repcnts_threshold
                · rw [if_pos g7] at h
                  simp only [Option.some.injEq, Prod.mk.injEq] at h
                  obtain ⟨-, hhw⟩ := h
                  subst hhw
                  exact ⟨rfl, rfl⟩
                · rw [if_neg g7] at h
                  by_cases g8 : bitfield_field32_read (memGet hw.mem (kBaseEntropySrc + ENTROPY_SRC_ADAPTP_HI_THRESHOLDS_REG_OFFSET)) ENTROPY_SRC_THRESHOLDS_FIPS_THRESH_FIELD ≠ config.adaptp_hi_threshold
                  · rw [if_pos g8] at h
                    simp only [Option.some.injEq, Prod.mk.injEq] at h
                    obtain ⟨-, hhw⟩ := h
                    subst hhw
                    exact ⟨rfl, rfl⟩
                  · rw [if_neg g8] at h
                    by_cases g9 : bitfield_field32_read (memGet hw.mem (kBaseEntropySrc + ENTROPY_SRC_ADAPTP_LO_THRESHOLDS_REG_OFFSET)) ENTROPY_SRC_THRESHOLDS_FIPS_THRESH_FIELD ≠ config.adaptp_lo_threshold
                    · rw [if_pos g9] at h
                      simp only [Option.some.injEq, Prod.mk.injEq] at h
                      obtain ⟨-, hhw⟩ := h
                      subst hhw
                      exact ⟨rfl, rfl⟩
                    · rw [if_neg g9] at h
                      by_cases g10 : bitfield_field32_read (memGet hw.mem (kBaseEntropySrc + ENTROPY_SRC_BUCKET_THRESHOLDS_REG_OFFSET)) ENTROPY_SRC_THRESHOLDS_FIPS_THRESH_FIELD ≠ config.bucket_threshold
                      · rw [if_pos g10] at h
                        simp only [Option.some.injEq, Prod.mk.injEq] at h
                        obtain ⟨-, hhw⟩ := h
                        subst hhw
                        exact ⟨rfl, rfl⟩
                      · rw [if_neg g10] at h
                        by_cases g11 : bitfield_field32_read (memGet hw.mem (kBaseEntropySrc + ENTROPY_SRC_MARKOV_HI_THRESHOLDS_REG_OFFSET)) ENTROPY_SRC_THRESHOLDS_FIPS_THRESH_FIELD ≠ config.markov_hi_threshold
                        · rw [if_pos g11] at h
                          simp only [Option.some.injEq, Prod.mk.injEq] at h
                          obtain ⟨-, hhw⟩ := h
                          subst hhw
                          exact ⟨rfl, rfl⟩
                        · rw [if_neg g11] at h
                          by_cases g12 : bitfield_field32_read (memGet hw.mem (kBaseEntropySrc + ENTROPY_SRC_MARKOV_LO_THRESHOLDS_REG_OFFSET)) ENTROPY_SRC_THRESHOLDS_FIPS_THRESH_FIELD ≠ config.markov_lo_threshold
                          · rw [if_pos g12] at h
                            simp only [Option.some.injEq, Prod.mk.injEq] at h
                            obtain ⟨-, hhw⟩ := h
                            subst hhw
                            exact ⟨rfl, rfl⟩
                          · rw [if_neg g12] at h
                            by_cases g13 : bitfield_field32_read (memGet hw.mem (kBaseEntropySrc + ENTROPY_SRC_EXTHT_HI_THRESHOLDS_REG_OFFSET)) ENTROPY_SRC_THRESHOLDS_FIPS_THRESH_FIELD ≠ config.extht_hi_threshold
                            · rw [if_pos g13] at h
                              simp only [Option.some.injEq, Prod.mk.injEq] at h
                              obtain ⟨-, hhw⟩ := h
                              subst hhw
                              exact ⟨rfl, rfl⟩
                            · rw [if_neg g13] at h
                              by_cases g14 : bitfield_field32_read (memGet hw.mem (kBaseEntropySrc + ENTROPY_SRC_EXTHT_LO_THRESHOLDS_REG_OFFSET)) ENTROPY_SRC_THRESHOLDS_FIPS_THRESH_FIELD ≠ config.extht_lo_threshold
                              · rw [if_pos g14] at h
                                simp only [Option.some.injEq, Prod.mk.injEq] at h
                                obtain ⟨-, hhw⟩ := h
                                subst hhw
                                exact ⟨rfl, rfl⟩
                              · rw [if_neg g14] at h
                                simp only [Option.some.injEq, Prod.mk.injEq] at h
                                obtain ⟨-, hhw⟩ := h
                                subst hhw
                                exact ⟨rfl, rfl⟩

theorem csrng_check_frame {hw : Hw} {st : status_t} {hw₁ : Hw}
    (h : csrng_check hw = some (st, hw₁)) :
    hw₁.mem = hw.mem ∧ hw₁.writeLog = hw.writeLog := by
  unfold csrng_check at h
  cases hr : abs_mmio_read32 hw (kBaseCsrng + CSRNG_CTRL_REG_OFFSET) with
  | none => rw [hr] at h; simp at h
  | some pr =>
    obtain ⟨w, hw₂⟩ := pr
    rw [hr] at h
    dsimp only at h
    obtain ⟨hm, hwl, -⟩ := read_frame hr
    split at h <;>
    · simp only [Option.some.injEq, Prod.mk.injEq] at h
      obtain ⟨-, hhw⟩ := h
      subst hhw
      exact ⟨hm, hwl⟩

theorem edn_check_frame {config : edn_config_t} {hw : Hw} {st : status_t} {hw₁ : Hw}
    (h : edn_check config hw = some (st, hw₁)) :
    hw₁.mem = hw.mem ∧ hw₁.writeLog = hw.writeLog := by
  unfold edn_check at h
  cases hr : abs_mmio_read32 hw (config.base_address + EDN_CTRL_REG_OFFSET) with
  | none => rw [hr] at h; simp at h
  | some pr =>
    obtain ⟨w, hw₂⟩ := pr
    rw [hr] at h
    dsimp only at h
    obtain ⟨hm, hwl, -⟩ := read_frame hr
    split at h <;>
    · simp only [Option.some.injEq, Prod.mk.injEq] at h
      obtain ⟨-, hhw⟩ := h
      subst hhw
      exact ⟨hm, hwl⟩

/-- C10: the attestation path is read-only: `entropy_complex_check` and
each of the checks it calls (`entropy_src_check`, `csrng_check`,
`edn_check`) leave the register file and the write log untouched in every
completed run, whatever the outcome. -/
theorem entropy_complex_check_readonly (hw : Hw) :
    (∀ st hw₁, entropy_complex_check hw = some (st, hw₁) →
      hw₁.mem = hw.mem ∧ hw₁.writeLog = hw.writeLog) ∧
    (∀ config st hw₁, entropy_src_check config hw = some (st, hw₁) →
      hw₁.mem = hw.mem ∧ hw₁.writeLog = hw.writeLog) ∧
    (∀ st hw₁, csrng_check hw = some (st, hw₁) →
      hw₁.mem = hw.mem ∧ hw₁.writeLog = hw.writeLog) ∧
    (∀ config st hw₁, edn_check config hw = some (st, hw₁) →
      hw₁.mem = hw.mem ∧ hw₁.writeLog = hw.writeLog) := by
  refine ⟨?_, fun config st hw₁ h => entropy_src_check_frame h,
    fun st hw₁ h => csrng_check_frame h,
    fun config st hw₁ h => edn_check_frame h⟩
  intro st hw₁ h
  unfold entropy_complex_check at h
  rw [if_neg (by simp [kEntropyComplexConfigContinuous,
    kEntropyComplexConfigIdContinuous, launder32])] at h
  cases h1 : entropy_src_check kEntropyComplexConfigContinuous.entropy_src hw with
  | none => rw [h1] at h; simp [statusTry] at h
  | some p1 =>
    obtain ⟨s1, k1⟩ := p1
    rw [h1] at h
    obtain ⟨hm1, hw1⟩ := entropy_src_check_frame h1
    rw [statusTry] at h
    split at h
    · cases h2 : csrng_check k1 with
      | none => rw [h2] at h; simp [statusTry] at h
      | some p2 =>
        obtain ⟨s2, k2⟩ := p2
        rw [h2] at h
        obtain ⟨hm2, hww2⟩ := csrng_check_frame h2
        rw [statusTry] at h
        split at h
        · cases h3 : edn_check kEntropyComplexConfigContinuous.edn0 k2 with
          | none => rw [h3] at h; simp [statusTry] at h
          | some p3 =>
            obtain ⟨s3, k3⟩ := p3
            rw [h3] at h
            obtain ⟨hm3, hww3⟩ := edn_check_frame h3
            rw [statusTry] at h
            split at h
            · cases h4 : edn_check kEntropyComplexConfigContinuous.edn1 k3 with
              | none => rw [h4] at h; simp at h
              | some p4 =>
                obtain ⟨s4, k4⟩ := p4
                rw [h4] at h
                obtain ⟨hm4, hww4⟩ := edn_check_frame h4
                simp only [Option.some.injEq, Prod.mk.injEq] at h
                obtain ⟨-, hhw⟩ := h
                subst hhw
                exact ⟨by rw [hm4, hm3, hm2, hm1], by rw [hww4, hww3, hww2, hw1]⟩
            · simp only [Option.some.injEq, Prod.mk.injEq] at h
              obtain ⟨-, hhw⟩ := h
              subst hhw
              exact ⟨by rw [hm3, hm2, hm1], by rw [hww3, hww2, hw1]⟩
        · simp only [Option.some.injEq, Prod.mk.injEq] at h
          obtain ⟨-, hhw⟩ := h
          subst hhw
          exact ⟨by rw [hm2, hm1], by rw [hww2, hw1]⟩
    · simp only [Option.some.injEq, Prod.mk.injEq] at h
      obtain ⟨-, hhw⟩ := h
      subst hhw
      exact ⟨hm1, hw1⟩

/-- Witness for C10: the whole attestation on a fresh register image
completes (reporting a recoverable mismatch) with register file and write
log untouched. -/
theorem entropy_complex_check_readonly_witness :
    c10HwOut.mem = (freshHw []).mem ∧ c10HwOut.writeLog = (freshHw []).writeLog :=
  (entropy_complex_check_readonly (freshHw [])).1 status_t.RecovErr c10HwOut rfl


theorem memGet_cons_ne {m : List (Nat × Nat)} {a b v : Nat} (h : a ≠ b) :
    memGet ((a, v) :: m) b = memGet m b := by
  simp only [memGet, List.find?]
  rw [show ((a, v).1 == b) = false from by simpa using h]

theorem stop_all_eq (hw : Hw) :
    entropy_complex_stop_all hw = some
      { hw with
          mem :=
            (kBaseEntropySrc + ENTROPY_SRC_ALERT_THRESHOLD_REG_OFFSET,
              ENTROPY_SRC_ALERT_THRESHOLD_REG_RESVAL) ::
            (kBaseEntropySrc + ENTROPY_SRC_HEALTH_TEST_WINDOWS_REG_OFFSET,
              ENTROPY_SRC_HEALTH_TEST_WINDOWS_REG_RESVAL) ::
            (kBaseEntropySrc + ENTROPY_SRC_CONF_REG_OFFSET,
              ENTROPY_SRC_CONF_REG_RESVAL) ::
            (kBaseEntropySrc + ENTROPY_SRC_ENTROPY_CONTROL_REG_OFFSET,
              ENTROPY_SRC_ENTROPY_CONTROL_REG_RESVAL) ::
            (kBaseEntropySrc + ENTROPY_SRC_MODULE_ENABLE_REG_OFFSET,
              ENTROPY_SRC_MODULE_ENABLE_REG_RESVAL) ::
            (kBaseCsrng + CSRNG_CTRL_REG_OFFSET, CSRNG_CTRL_REG_RESVAL) ::
            (kBaseEdn1 + EDN_CTRL_REG_OFFSET, EDN_CTRL_REG_RESVAL) ::
            (kBaseEdn1 + EDN_CTRL_REG_OFFSET,
              bitfield_field32_write (memGet hw.mem (kBaseEdn1 + EDN_CTRL_REG_OFFSET))
                EDN_CTRL_CMD_FIFO_RST_FIELD kMultiBitBool4True) ::
            (kBaseEdn0 + EDN_CTRL_REG_OFFSET, EDN_CTRL_REG_RESVAL) ::
            (kBaseEdn0 + EDN_CTRL_REG_OFFSET,
              bitfield_field32_write (memGet hw.mem (kBaseEdn0 + EDN_CTRL_REG_OFFSET))
                EDN_CTRL_CMD_FIFO_RST_FIELD kMultiBitBool4True) :: hw.mem
          readLog := hw.readLog ++
            [(kBaseEdn0 + EDN_CTRL_REG_OFFSET,
              memGet hw.mem (kBaseEdn0 + EDN_CTRL_REG_OFFSET))] ++
            [(kBaseEdn1 + EDN_CTRL_REG_OFFSET,
              memGet hw.mem (kBaseEdn1 + EDN_CTRL_REG_OFFSET))]
          writeLog := stopAllWriteLog hw } := by
  unfold entropy_complex_stop_all edn_stop entropy_src_stop stopAllWriteLog
  rw [read_cfg (kBaseEdn0 + EDN_CTRL_REG_OFFSET) (by decide)]
  dsimp only
  rw [read_cfg (kBaseEdn1 + EDN_CTRL_REG_OFFSET) (by decide)]
  dsimp only [abs_mmio_write32]
  rw [memGet_cons_ne (by decide), memGet_cons_ne (by decide)]
  simp [abs_mmio_write32]


theorem seed_writes_memGet (r : Nat) (d : List Nat) (n : Nat) (hw : Hw) {a : Nat}
    (ha : a ≠ r) :
    memGet (csrng_seed_writes r d n hw).mem a = memGet hw.mem a := by
  unfold csrng_seed_writes
  generalize List.range n = l
  induction l generalizing hw with
  | nil => rfl
  | cons x t ih =>
    rw [List.foldl_cons, ih]
    exact memGet_cons_ne (fun he => ha he.symm) |>.symm ▸ rfl

theorem write_memGet_ne {hw : Hw} {b v a : Nat} (ha : a ≠ b) :
    memGet (abs_mmio_write32 hw b v).mem a = memGet hw.mem a :=
  memGet_cons_ne (fun he => ha he.symm)

theorem csrng_send_app_cmd_effects {reg_address : Nat} {cmd : entropy_csrng_cmd_t}
    {check_completion : Bool} {hw : Hw} {st : status_t} {hw₁ : Hw}
    (h : csrng_send_app_cmd reg_address cmd check_completion hw = some (st, hw₁)) :
    (∃ t, hw₁.writeLog = hw.writeLog ++ t) ∧
    (∀ a, a ≠ reg_address → a ≠ kBaseCsrng + CSRNG_INTR_STATE_REG_OFFSET →
      memGet hw₁.mem a = memGet hw.mem a) := by
  unfold csrng_send_app_cmd at h
  split at h
  · simp only [Option.some.injEq, Prod.mk.injEq] at h
    obtain ⟨-, hhw⟩ := h
    subst hhw
    exact ⟨⟨[], by simp⟩, fun a _ _ => rfl⟩
  · cases hi : csrng_fsm_idle_wait hw with
    | none => rw [hi] at h; simp [statusTry] at h
    | some pr =>
      obtain ⟨st₀, hw₀⟩ := pr
      rw [hi] at h
      obtain ⟨him, hiw, -, -⟩ := idle_wait_frame hi
      rw [statusTry] at h
      split at h
      · cases hp : pollUntil (kBaseCsrng + CSRNG_SW_CMD_STS_REG_OFFSET)
            (fun r => bitfield_bit32_read r CSRNG_SW_CMD_STS_CMD_RDY_BIT) hw₀ with
        | none => rw [hp] at h; simp at h
        | some pq =>
          obtain ⟨w, hw₂⟩ := pq
          rw [hp] at h
          dsimp only at h
          obtain ⟨hpm, hpw, -⟩ := poll_frame hp
          split at h
          · simp only [Option.some.injEq, Prod.mk.injEq] at h
            obtain ⟨-, hhw⟩ := h
            subst hhw
            exact ⟨⟨[], by simp [hpw, hiw]⟩, fun a _ _ => by rw [hpm, him]⟩
          · split at h
            · simp only [Option.some.injEq, Prod.mk.injEq] at h
              obtain ⟨-, hhw⟩ := h
              subst hhw
              exact ⟨⟨[], by simp [hpw, hiw]⟩, fun a _ _ => by rw [hpm, him]⟩
            · set S := csrng_seed_writes reg_address
                  (match cmd.seed_material with | none => [] | some sm => sm.data)
                  (match cmd.seed_material with | none => 0 | some sm => sm.len)
                  (abs_mmio_write32
                    (if check_completion = true then
                      abs_mmio_write32 hw₂ (kBaseCsrng + CSRNG_INTR_STATE_REG_OFFSET)
                        (bitfield_bit32_write 0 CSRNG_INTR_STATE_CS_CMD_REQ_DONE_BIT true)
                    else hw₂)
                    reg_address
                    (csrng_cmd_header cmd.id
                      (match cmd.seed_material with | none => 0 | some sm => sm.len)
                      cmd.disable_trng_input cmd.generate_len)) with hS
              have hSw : ∃ t, S.writeLog = hw.writeLog ++ t := by
                rw [hS, (seed_writes_spec _ _ _ _).1]
                by_cases hcc : check_completion = true <;>
                · simp [hcc, abs_mmio_write32, hpw, hiw]
              have hSm : ∀ a, a ≠ reg_address →
                  a ≠ kBaseCsrng + CSRNG_INTR_STATE_REG_OFFSET →
                  memGet S.mem a = memGet hw.mem a := by
                intro a ha1 ha2
                rw [hS, seed_writes_memGet _ _ _ _ ha1, write_memGet_ne ha1]
                by_cases hcc : check_completion = true
                · rw [if_pos hcc, write_memGet_ne ha2, hpm, him]
                · rw [if_neg hcc, hpm, him]
              split at h
              · split at h
                · cases hp2 : pollUntil (kBaseCsrng + CSRNG_GENBITS_VLD_REG_OFFSET)
                      (fun r => bitfield_bit32_read r CSRNG_GENBITS_VLD_GENBITS_VLD_BIT) S with
                  | none => rw [hp2] at h; simp at h
                  | some pg =>
                    obtain ⟨w₃, hw₃⟩ := pg
                    rw [hp2] at h
                    dsimp only at h
                    obtain ⟨hm3, hw3, -⟩ := poll_frame hp2
                    simp only [Option.some.injEq, Prod.mk.injEq] at h
                    obtain ⟨-, hhw⟩ := h
                    subst hhw
                    obtain ⟨t, ht⟩ := hSw
                    exact ⟨⟨t, by rw [hw3, ht]⟩,
                      fun a ha1 ha2 => by rw [hm3, hSm a ha1 ha2]⟩
                · cases hp2 : pollUntil (kBaseCsrng + CSRNG_INTR_STATE_REG_OFFSET)
                      (fun r => bitfield_bit32_read r CSRNG_INTR_STATE_CS_CMD_REQ_DONE_BIT) S with
                  | none => rw [hp2] at h; simp at h
                  | some pg =>
                    obtain ⟨w₃, hw₃⟩ := pg
                    rw [hp2] at h
                    dsimp only at h
                    obtain ⟨hm3, hw3, -⟩ := poll_frame hp2
                    cases hr4 : abs_mmio_read32 hw₃ (kBaseCsrng + CSRNG_SW_CMD_STS_REG_OFFSET) with
                    | none => rw [hr4] at h; simp at h
                    | some ps =>
                      obtain ⟨w₄, hw₄⟩ := ps
                      rw [hr4] at h
                      dsimp only at h
                      obtain ⟨hm4, hw4, -⟩ := read_frame hr4
                      obtain ⟨t, ht⟩ := hSw
                      split at h <;>
                      · simp only [Option.some.injEq, Prod.mk.injEq] at h
                        obtain ⟨-, hhw⟩ := h
                        subst hhw
                        exact ⟨⟨t, by rw [hw4, hw3, ht]⟩,
                          fun a ha1 ha2 => by rw [hm4, hm3, hSm a ha1 ha2]⟩
              · simp only [Option.some.injEq, Prod.mk.injEq] at h
                obtain ⟨-, hhw⟩ := h
                subst hhw
                obtain ⟨t, ht⟩ := hSw
                exact ⟨⟨t, ht⟩, hSm⟩
      · simp only [Option.some.injEq, Prod.mk.injEq] at h
        obtain ⟨-, hhw⟩ := h
        subst hhw
        exact ⟨⟨[], by simp [hiw]⟩, fun a _ _ => by rw [him]⟩

theorem edn_ready_block_frame {edn_address : Nat} {hw : Hw} {st : status_t} {hw₁ : Hw}
    (h : edn_ready_block edn_address hw = some (st, hw₁)) :
    hw₁.mem = hw.mem ∧ hw₁.writeLog = hw.writeLog := by
  unfold edn_ready_block at h
  cases hp : pollUntil (edn_address + EDN_SW_CMD_STS_REG_OFFSET)
      (fun r => bitfield_bit32_read r EDN_SW_CMD_STS_CMD_RDY_BIT) hw with
  | none => rw [hp] at h; simp at h
  | some pr =>
    obtain ⟨w, hw₂⟩ := pr
    rw [hp] at h
    dsimp only at h
    obtain ⟨hm, hwl, -⟩ := poll_frame hp
    split at h <;>
    · simp only [Option.some.injEq, Prod.mk.injEq] at h
      obtain ⟨-, hhw⟩ := h
      subst hhw
      exact ⟨hm, hwl⟩


theorem memGet_cons_self {m : List (Nat × Nat)} {a v : Nat} :
    memGet ((a, v) :: m) a = v := by
  simp [memGet, List.find?]

theorem edn_configure_effects {config : edn_config_t} {hw : Hw} {st : status_t} {hw₁ : Hw}
    (h : edn_configure config hw = some (st, hw₁)) :
    (∃ t, hw₁.writeLog = hw.writeLog ++ t) ∧
    (∀ a, a ≠ config.base_address + EDN_RESEED_CMD_REG_OFFSET →
      a ≠ config.base_address + EDN_GENERATE_CMD_REG_OFFSET →
      a ≠ config.base_address + EDN_MAX_NUM_REQS_BETWEEN_RESEEDS_REG_OFFSET →
      a ≠ config.base_address + EDN_CTRL_REG_OFFSET →
      a ≠ config.base_address + EDN_SW_CMD_REQ_REG_OFFSET →
      a ≠ kBaseCsrng + CSRNG_INTR_STATE_REG_OFFSET →
      memGet hw₁.mem a = memGet hw.mem a) ∧
    (st = status_t.Ok →
      config.base_address + EDN_CTRL_REG_OFFSET ≠
        kBaseCsrng + CSRNG_INTR_STATE_REG_OFFSET →
      memGet hw₁.mem (config.base_address + EDN_CTRL_REG_OFFSET) =
        bitfield_field32_write
          (bitfield_field32_write 0 EDN_CTRL_EDN_ENABLE_FIELD kMultiBitBool4True)
          EDN_CTRL_AUTO_REQ_MODE_FIELD kMultiBitBool4True) := by
  unfold edn_configure at h
  cases h1 : csrng_send_app_cmd (config.base_address + EDN_RESEED_CMD_REG_OFFSET)
      config.reseed false hw with
  | none => rw [h1] at h; simp [statusTry] at h
  | some p1 =>
    obtain ⟨s1, k1⟩ := p1
    rw [h1] at h
    obtain ⟨⟨t1, ht1⟩, hm1⟩ := csrng_send_app_cmd_effects h1
    rw [statusTry] at h
    split at h
    case isFalse hs1 =>
      simp only [Option.some.injEq, Prod.mk.injEq] at h
      obtain ⟨hst, hhw⟩ := h
      subst hhw
      exact ⟨⟨t1, ht1⟩, fun a h1 _ _ _ _ h6 => hm1 a h1 h6,
        fun hok _ => absurd (hst ▸ hok) hs1⟩
    case isTrue hs1 =>
      cases h2 : csrng_send_app_cmd (config.base_address + EDN_GENERATE_CMD_REG_OFFSET)
          config.generate false k1 with
      | none => rw [h2] at h; simp [statusTry] at h
      | some p2 =>
        obtain ⟨s2, k2⟩ := p2
        rw [h2] at h
        obtain ⟨⟨t2, ht2⟩, hm2⟩ := csrng_send_app_cmd_effects h2
        rw [statusTry] at h
        split at h
        case isFalse hs2 =>
          simp only [Option.some.injEq, Prod.mk.injEq] at h
          obtain ⟨hst, hhw⟩ := h
          subst hhw
          refine ⟨⟨t1 ++ t2, by rw [ht2, ht1, List.append_assoc]⟩,
            fun a h1 h2a _ _ _ h6 => by rw [hm2 a h2a h6, hm1 a h1 h6],
            fun hok _ => absurd (hst ▸ hok) hs2⟩
        case isTrue hs2 =>
          dsimp only at h
          cases h3 : edn_ready_block config.base_address
              (abs_mmio_write32
                (abs_mmio_write32 k2
                  (config.base_address + EDN_MAX_NUM_REQS_BETWEEN_RESEEDS_REG_OFFSET)
                  config.reseed_interval)
                (config.base_address + EDN_CTRL_REG_OFFSET)
                (bitfield_field32_write
                  (bitfield_field32_write 0 EDN_CTRL_EDN_ENABLE_FIELD kMultiBitBool4True)
                  EDN_CTRL_AUTO_REQ_MODE_FIELD kMultiBitBool4True)) with
          | none => rw [h3] at h; simp [statusTry] at h
          | some p3 =>
            obtain ⟨s3, k3⟩ := p3
            rw [h3] at h
            obtain ⟨hm3, hw3⟩ := edn_ready_block_frame h3
            rw [statusTry] at h
            split at h
            case isFalse hs3 =>
              simp only [Option.some.injEq, Prod.mk.injEq] at h
              obtain ⟨hst, hhw⟩ := h
              subst hhw
              refine ⟨⟨t1 ++ (t2 ++ [(config.base_address + EDN_MAX_NUM_REQS_BETWEEN_RESEEDS_REG_OFFSET,
                    config.reseed_interval),
                   (config.base_address + EDN_CTRL_REG_OFFSET,
                    bitfield_field32_write
                      (bitfield_field32_write 0 EDN_CTRL_EDN_ENABLE_FIELD kMultiBitBool4True)
                      EDN_CTRL_AUTO_REQ_MODE_FIELD kMultiBitBool4True)]), ?_⟩,
                fun a h1 h2a h3a h4a _ h6 => ?_,
                fun hok _ => absurd (hst ▸ hok) hs3⟩
              · rw [hw3]
                simp only [abs_mmio_write32]
                rw [ht2, ht1]
                simp
              · rw [hm3]
                simp only [abs_mmio_write32]
                rw [memGet_cons_ne (fun he => h4a he.symm),
                  memGet_cons_ne (fun he => h3a he.symm),
                  hm2 a h2a h6, hm1 a h1 h6]
            case isTrue hs3 =>
              cases h4 : csrng_send_app_cmd
                  (config.base_address + EDN_SW_CMD_REQ_REG_OFFSET)
                  config.instantiate false k3 with
              | none => rw [h4] at h; simp [statusTry] at h
              | some p4 =>
                obtain ⟨s4, k4⟩ := p4
                rw [h4] at h
                obtain ⟨⟨t4, ht4⟩, hm4⟩ := csrng_send_app_cmd_effects h4
                rw [statusTry] at h
                split at h
                case isFalse hs4 =>
                  simp only [Option.some.injEq, Prod.mk.injEq] at h
                  obtain ⟨hst, hhw⟩ := h
                  subst hhw
                  refine ⟨⟨t1 ++ (t2 ++ ([(config.base_address + EDN_MAX_NUM_REQS_BETWEEN_RESEEDS_REG_OFFSET,
                    config.reseed_interval),
                   (config.base_address + EDN_CTRL_REG_OFFSET,
                    bitfield_field32_write
                      (bitfield_field32_write 0 EDN_CTRL_EDN_ENABLE_FIELD kMultiBitBool4True)
                      EDN_CTRL_AUTO_REQ_MODE_FIELD kMultiBitBool4True)] ++ t4)), ?_⟩,
                    fun a h1 h2a h3a h4a h5a h6 => ?_,
                    fun hok _ => absurd (hst ▸ hok) hs4⟩
                  · rw [ht4, hw3]
                    simp only [abs_mmio_write32]
                    rw [ht2, ht1]
                    simp
                  · rw [hm4 a h5a h6, hm3]
                    simp only [abs_mmio_write32]
                    rw [memGet_cons_ne (fun he => h4a he.symm),
                      memGet_cons_ne (fun he => h3a he.symm),
                      hm2 a h2a h6, hm1 a h1 h6]
                case isTrue hs4 =>
                  obtain ⟨hm5, hw5⟩ := edn_ready_block_frame h
                  refine ⟨⟨t1 ++ (t2 ++ ([(config.base_address + EDN_MAX_NUM_REQS_BETWEEN_RESEEDS_REG_OFFSET,
                    config.reseed_interval),
                   (config.base_address + EDN_CTRL_REG_OFFSET,
                    bitfield_field32_write
                      (bitfield_field32_write 0 EDN_CTRL_EDN_ENABLE_FIELD kMultiBitBool4True)
                      EDN_CTRL_AUTO_REQ_MODE_FIELD kMultiBitBool4True)] ++ t4)), ?_⟩,
                    fun a h1 h2a h3a h4a h5a h6 => ?_, fun _ hne => ?_⟩
                  · rw [hw5, ht4, hw3]
                    simp only [abs_mmio_write32]
                    rw [ht2, ht1]
                    simp
                  · rw [hm5, hm4 a h5a h6, hm3]
                    simp only [abs_mmio_write32]
                    rw [memGet_cons_ne (fun he => h4a he.symm),
                      memGet_cons_ne (fun he => h3a he.symm),
                      hm2 a h2a h6, hm1 a h1 h6]
                  · rw [hm5, hm4 _ (by
                        simp only [EDN_CTRL_REG_OFFSET, EDN_SW_CMD_REQ_REG_OFFSET]
                        omega) hne, hm3]
                    simp only [abs_mmio_write32]
                    rw [memGet_cons_self]


theorem entropy_src_configure_ext {c : entropy_src_config_t} {hw : Hw}
    {st : status_t} {hw₁ : Hw}
    (h : entropy_src_configure c hw = some (st, hw₁)) :
    ∃ t, hw₁.writeLog = hw.writeLog ++ t := by
  unfold entropy_src_configure SET_FIPS_THRESH at h
  split at h
  · simp only [Option.some.injEq, Prod.mk.injEq] at h
    obtain ⟨-, hhw⟩ := h
    subst hhw
    exact ⟨[], by simp⟩
  · simp only [Option.some.injEq, Prod.mk.injEq] at h
    obtain ⟨-, hhw⟩ := h
    subst hhw
    refine ⟨[(kBaseEntropySrc + ENTROPY_SRC_ENTROPY_CONTROL_REG_OFFSET,
        bitfield_field32_write
          (bitfield_field32_write 0 ENTROPY_SRC_ENTROPY_CONTROL_ES_ROUTE_FIELD
            c.route_to_firmware)
          ENTROPY_SRC_ENTROPY_CONTROL_ES_TYPE_FIELD c.bypass_conditioner),
      (kBaseEntropySrc + ENTROPY_SRC_CONF_REG_OFFSET,
        bitfield_field32_write
          (bitfield_field32_write
            (bitfield_field32_write
              (bitfield_field32_write
                (bitfield_field32_write 0 ENTROPY_SRC_CONF_FIPS_ENABLE_FIELD
                  c.fips_enable)
                ENTROPY_SRC_CONF_ENTROPY_DATA_REG_ENABLE_FIELD c.route_to_firmware)
              ENTROPY_SRC_CONF_THRESHOLD_SCOPE_FIELD kMultiBitBool4False)
            ENTROPY_SRC_CONF_RNG_BIT_ENABLE_FIELD c.single_bit_mode)
          ENTROPY_SRC_CONF_RNG_BIT_SEL_FIELD 0),
      (kBaseEntropySrc + ENTROPY_SRC_HEALTH_TEST_WINDOWS_REG_OFFSET,
        bitfield_field32_write ENTROPY_SRC_HEALTH_TEST_WINDOWS_REG_RESVAL
          ENTROPY_SRC_HEALTH_TEST_WINDOWS_FIPS_WINDOW_FIELD c.fips_test_window_size),
      (kBaseEntropySrc + ENTROPY_SRC_ALERT_THRESHOLD_REG_OFFSET,
        bitfield_field32_write
          (bitfield_field32_write 0 ENTROPY_SRC_ALERT_THRESHOLD_ALERT_THRESHOLD_FIELD
            c.alert_threshold)
          ENTROPY_SRC_ALERT_THRESHOLD_ALERT_THRESHOLD_INV_FIELD
          (comp32 c.alert_threshold)),
      (kBaseEntropySrc + ENTROPY_SRC_REPCNT_THRESHOLDS_REG_OFFSET,
        bitfield_field32_write ENTROPY_SRC_THRESHOLDS_REG_RESVAL
          ENTROPY_SRC_THRESHOLDS_FIPS_THRESH_FIELD c.repcnt_threshold),
      (kBaseEntropySrc + ENTROPY_SRC_REPCNTS_THRESHOLDS_REG_OFFSET,
        bitfield_field32_write ENTROPY_SRC_THRESHOLDS_REG_RESVAL
          ENTROPY_SRC_THRESHOLDS_FIPS_THRESH_FIELD c.repcnts_threshold),
      (kBaseEntropySrc + ENTROPY_SRC_ADAPTP_HI_THRESHOLDS_REG_OFFSET,
        bitfield_field32_write ENTROPY_SRC_THRESHOLDS_REG_RESVAL
          ENTROPY_SRC_THRESHOLDS_FIPS_THRESH_FIELD c.adaptp_hi_threshold),
      (kBaseEntropySrc + ENTROPY_SRC_ADAPTP_LO_THRESHOLDS_REG_OFFSET,
        bitfield_field32_write ENTROPY_SRC_THRESHOLDS_REG_RESVAL
          ENTROPY_SRC_THRESHOLDS_FIPS_THRESH_FIELD c.adaptp_lo_threshold),
      (kBaseEntropySrc + ENTROPY_SRC_BUCKET_THRESHOLDS_REG_OFFSET,
        bitfield_field32_write ENTROPY_SRC_THRESHOLDS_REG_RESVAL
          ENTROPY_SRC_THRESHOLDS_FIPS_THRESH_FIELD c.bucket_threshold),
      (kBaseEntropySrc + ENTROPY_SRC_MARKOV_HI_THRESHOLDS_REG_OFFSET,
        bitfield_field32_write ENTROPY_SRC_THRESHOLDS_REG_RESVAL
          ENTROPY_SRC_THRESHOLDS_FIPS_THRESH_FIELD c.markov_hi_threshold),
      (kBaseEntropySrc + ENTROPY_SRC_MARKOV_LO_THRESHOLDS_REG_OFFSET,
        bitfield_field32_write ENTROPY_SRC_THRESHOLDS_REG_RESVAL
          ENTROPY_SRC_THRESHOLDS_FIPS_THRESH_FIELD c.markov_lo_threshold),
      (kBaseEntropySrc + ENTROPY_SRC_EXTHT_HI_THRESHOLDS_REG_OFFSET,
        bitfield_field32_write ENTROPY_SRC_THRESHOLDS_REG_RESVAL
          ENTROPY_SRC_THRESHOLDS_FIPS_THRESH_FIELD c.extht_hi_threshold),
      (kBaseEntropySrc + ENTROPY_SRC_EXTHT_LO_THRESHOLDS_REG_OFFSET,
        bitfield_field32_write ENTROPY_SRC_THRESHOLDS_REG_RESVAL
          ENTROPY_SRC_THRESHOLDS_FIPS_THRESH_FIELD c.extht_lo_threshold),
      (kBaseEntropySrc + ENTROPY_SRC_MODULE_ENABLE_REG_OFFSET, kMultiBitBool4True)], ?_⟩
    simp [abs_mmio_write32]

/-- C9: `entropy_complex_init` always begins by stopping EDN0, EDN1, the
CSRNG and the entropy source, in this exact order, before any
configuration register is written (the write log of every completed run
starts with the stop-all writes); and when the EDN0 configuration step
fails after a successful entropy-source configuration, its error is
returned with the EDN1 step never executed. -/
theorem entropy_complex_init_sequencing (hw : Hw) :
    ((entropy_complex_stop_all hw).map Hw.writeLog = some (stopAllWriteLog hw)) ∧
    (∀ st hw₁, entropy_complex_init hw = some (st, hw₁) →
      hw₁.writeLog.take (stopAllWriteLog hw).length = stopAllWriteLog hw) ∧
    (∀ hw₀ hwA e hwE, entropy_complex_stop_all hw = some hw₀ →
      entropy_src_configure kEntropyComplexConfigContinuous.entropy_src hw₀ =
        some (status_t.Ok, hwA) →
      edn_configure kEntropyComplexConfigContinuous.edn0 (csrng_configure hwA) =
        some (e, hwE) →
      e ≠ status_t.Ok →
      entropy_complex_init hw = some (e, hwE)) := by
  refine ⟨by rw [stop_all_eq]; rfl, ?_, ?_⟩
  · intro st hw₁ h
    unfold entropy_complex_init at h
    rw [stop_all_eq hw] at h
    dsimp only at h
    rw [if_neg (by decide)] at h
    have hS0w : (Hw.mk
        ((kBaseEntropySrc + ENTROPY_SRC_ALERT_THRESHOLD_REG_OFFSET,
          ENTROPY_SRC_ALERT_THRESHOLD_REG_RESVAL) ::
         (kBaseEntropySrc + ENTROPY_SRC_HEALTH_TEST_WINDOWS_REG_OFFSET,
          ENTROPY_SRC_HEALTH_TEST_WINDOWS_REG_RESVAL) ::
         (kBaseEntropySrc + ENTROPY_SRC_CONF_REG_OFFSET,
          ENTROPY_SRC_CONF_REG_RESVAL) ::
         (kBaseEntropySrc + ENTROPY_SRC_ENTROPY_CONTROL_REG_OFFSET,
          ENTROPY_SRC_ENTROPY_CONTROL_REG_RESVAL) ::
         (kBaseEntropySrc + ENTROPY_SRC_MODULE_ENABLE_REG_OFFSET,
          ENTROPY_SRC_MODULE_ENABLE_REG_RESVAL) ::
         (kBaseCsrng + CSRNG_CTRL_REG_OFFSET, CSRNG_CTRL_REG_RESVAL) ::
         (kBaseEdn1 + EDN_CTRL_REG_OFFSET, EDN_CTRL_REG_RESVAL) ::
         (kBaseEdn1 + EDN_CTRL_REG_OFFSET,
          bitfield_field32_write (memGet hw.mem (kBaseEdn1 + EDN_CTRL_REG_OFFSET))
            EDN_CTRL_CMD_FIFO_RST_FIELD kMultiBitBool4True) ::
         (kBaseEdn0 + EDN_CTRL_REG_OFFSET, EDN_CTRL_REG_RESVAL) ::
         (kBaseEdn0 + EDN_CTRL_REG_OFFSET,
          bitfield_field32_write (memGet hw.mem (kBaseEdn0 + EDN_CTRL_REG_OFFSET))
            EDN_CTRL_CMD_FIFO_RST_FIELD kMultiBitBool4True) :: hw.mem)
        hw.oracle
        (hw.readLog ++
          [(kBaseEdn0 + EDN_CTRL_REG_OFFSET,
            memGet hw.mem (kBaseEdn0 + EDN_CTRL_REG_OFFSET))] ++
          [(kBaseEdn1 + EDN_CTRL_REG_OFFSET,
            memGet hw.mem (kBaseEdn1 + EDN_CTRL_REG_OFFSET))])
        (stopAllWriteLog hw)).writeLog = stopAllWriteLog hw := rfl
    generalize hGen : (Hw.mk _ hw.oracle _ (stopAllWriteLog hw)) = S0 at h hS0w
    suffices hsuf : ∃ t, hw₁.writeLog = stopAllWriteLog hw ++ t by
      obtain ⟨t, ht⟩ := hsuf
      rw [ht, List.take_left]
    cases hes : entropy_src_configure kEntropyComplexConfigContinuous.entropy_src S0 with
    | none => rw [hes] at h; simp [statusTry] at h
    | some pA =>
      obtain ⟨sA, S1⟩ := pA
      rw [hes] at h
      obtain ⟨tA, htA⟩ := entropy_src_configure_ext hes
      rw [hS0w] at htA
      rw [statusTry] at h
      split at h
      · cases hed0 : edn_configure kEntropyComplexConfigContinuous.edn0
            (csrng_configure S1) with
        | none => rw [hed0] at h; simp [statusTry] at h
        | some p0 =>
          obtain ⟨s0, S2⟩ := p0
          rw [hed0] at h
          obtain ⟨⟨t0, ht0⟩, -, -⟩ := edn_configure_effects hed0
          have hcw : (csrng_configure S1).writeLog = S1.writeLog ++
              [(kBaseCsrng + CSRNG_CTRL_REG_OFFSET,
                bitfield_field32_write
                  (bitfield_field32_write
                    (bitfield_field32_write 0 CSRNG_CTRL_ENABLE_FIELD kMultiBitBool4True)
                    CSRNG_CTRL_SW_APP_ENABLE_FIELD kMultiBitBool4True)
                  CSRNG_CTRL_READ_INT_STATE_FIELD kMultiBitBool4True)] := rfl
          rw [statusTry] at h
          split at h
          · obtain ⟨⟨t1, ht1⟩, -, -⟩ := edn_configure_effects h
            refine ⟨tA ++ ([(kBaseCsrng + CSRNG_CTRL_REG_OFFSET,
                bitfield_field32_write
                  (bitfield_field32_write
                    (bitfield_field32_write 0 CSRNG_CTRL_ENABLE_FIELD kMultiBitBool4True)
                    CSRNG_CTRL_SW_APP_ENABLE_FIELD kMultiBitBool4True)
                  CSRNG_CTRL_READ_INT_STATE_FIELD kMultiBitBool4True)] ++ (t0 ++ t1)), ?_⟩
            rw [ht1, ht0, hcw, htA]
            simp
          · simp only [Option.some.injEq, Prod.mk.injEq] at h
            obtain ⟨-, hhw⟩ := h
            subst hhw
            refine ⟨tA ++ ([(kBaseCsrng + CSRNG_CTRL_REG_OFFSET,
                bitfield_field32_write
                  (bitfield_field32_write
                    (bitfield_field32_write 0 CSRNG_CTRL_ENABLE_FIELD kMultiBitBool4True)
                    CSRNG_CTRL_SW_APP_ENABLE_FIELD kMultiBitBool4True)
                  CSRNG_CTRL_READ_INT_STATE_FIELD kMultiBitBool4True)] ++ t0), ?_⟩
            rw [ht0, hcw, htA]
            simp
      · simp only [Option.some.injEq, Prod.mk.injEq] at h
        obtain ⟨-, hhw⟩ := h
        subst hhw
        exact ⟨tA, htA⟩
  · intro hw₀ hwA e hwE hstop hes hedn hne
    unfold entropy_complex_init
    rw [hstop]
    dsimp only
    rw [if_neg (by decide), hes]
    rw [statusTry, if_pos rfl, hedn, statusTry, if_neg hne]

/-- Witness for C9: a concrete run in which the EDN0 step fails (its
ready poll reports the error-status bit) returns that error from
`entropy_complex_init` without touching EDN1, and a concrete successful
run's write log starts with the stop-all writes. -/
theorem entropy_complex_init_sequencing_witness :
    entropy_complex_init c9FailHwIn = some (status_t.RecovErr, c9E) ∧
    cInitHwOut.writeLog.take (stopAllWriteLog cInitHwIn).length =
      stopAllWriteLog cInitHwIn :=
  ⟨(entropy_complex_init_sequencing c9FailHwIn).2.2 c9S0 c9S1 status_t.RecovErr c9E
      rfl rfl rfl (by decide),
   (entropy_complex_init_sequencing cInitHwIn).2.1 status_t.Ok cInitHwOut rfl⟩

theorem memGet_append_left (l₁ l₂ : List (Nat × Nat)) (a : Nat)
    (h : (l₁.find? (fun e => e.1 == a)).isSome = true) :
    memGet (l₁ ++ l₂) a = memGet l₁ a := by
  unfold memGet
  rw [List.find?_append]
  cases hf : l₁.find? (fun e => e.1 == a) with
  | none => rw [hf] at h; simp at h
  | some e => rfl

theorem entropy_src_configure_cont (hw : Hw) :
    (entropy_src_configure kEntropyComplexConfigContinuous.entropy_src hw).map
      (fun p => (p.1, p.2.mem)) = some (status_t.Ok, esContMem ++ hw.mem) := rfl

set_option maxHeartbeats 1000000 in
theorem entropy_complex_check_ok_of (hw : Hw) (rest : List (Nat × Nat))
    (hES : ∀ a, 0x41160000 ≤ a → a < 0x41170000 →
      memGet hw.mem a = memGet (esContMem ++ rest) a)
    (hCS : memGet hw.mem (kBaseCsrng + CSRNG_CTRL_REG_OFFSET) = 0x666)
    (hE0 : memGet hw.mem
      (kEntropyComplexConfigContinuous.edn0.base_address + EDN_CTRL_REG_OFFSET) = 0x606)
    (hE1 : memGet hw.mem
      (kEntropyComplexConfigContinuous.edn1.base_address + EDN_CTRL_REG_OFFSET) = 0x606) :
    statusOf (entropy_complex_check hw) = some status_t.Ok := by
  have v20 : memGet hw.mem (kBaseEntropySrc + ENTROPY_SRC_MODULE_ENABLE_REG_OFFSET) = 0x6 := by
    rw [hES _ (by decide) (by decide), memGet_append_left esContMem rest _ (by decide)]
    decide
  have v24 : memGet hw.mem (kBaseEntropySrc + ENTROPY_SRC_CONF_REG_OFFSET) = 0x909096 := by
    rw [hES _ (by decide) (by decide), memGet_append_left esContMem rest _ (by decide)]
    decide
  have v28 : memGet hw.mem
      (kBaseEntropySrc + ENTROPY_SRC_ENTROPY_CONTROL_REG_OFFSET) = 0x99 := by
    rw [hES _ (by decide) (by decide), memGet_append_left esContMem rest _ (by decide)]
    decide
  have v30 : memGet hw.mem
      (kBaseEntropySrc + ENTROPY_SRC_HEALTH_TEST_WINDOWS_REG_OFFSET) = 0x600200 := by
    rw [hES _ (by decide) (by decide), memGet_append_left esContMem rest _ (by decide)]
    decide
  have v58 : memGet hw.mem
      (kBaseEntropySrc + ENTROPY_SRC_ALERT_THRESHOLD_REG_OFFSET) = 0xfffd0002 := by
    rw [hES _ (by decide) (by decide), memGet_append_left esContMem rest _ (by decide)]
    decide
  have v34 : memGet hw.mem
      (kBaseEntropySrc + ENTROPY_SRC_REPCNT_THRESHOLDS_REG_OFFSET) = 0xffffffff := by
    rw [hES _ (by decide) (by decide), memGet_append_left esContMem rest _ (by decide)]
    decide
  have v38 : memGet hw.mem
      (kBaseEntropySrc + ENTROPY_SRC_REPCNTS_THRESHOLDS_REG_OFFSET) = 0xffffffff := by
    rw [hES _ (by decide) (by decide), memGet_append_left esContMem rest _ (by decide)]
    decide
  have v3c : memGet hw.mem
      (kBaseEntropySrc + ENTROPY_SRC_ADAPTP_HI_THRESHOLDS_REG_OFFSET) = 0xffffffff := by
    rw [hES _ (by decide) (by decide), memGet_append_left esContMem rest _ (by decide)]
    decide
  have v40 : memGet hw.mem
      (kBaseEntropySrc + ENTROPY_SRC_ADAPTP_LO_THRESHOLDS_REG_OFFSET) = 0xffff0000 := by
    rw [hES _ (by decide) (by decide), memGet_append_left esContMem rest _ (by decide)]
    decide
  have v44 : memGet hw.mem
      (kBaseEntropySrc + ENTROPY_SRC_BUCKET_THRESHOLDS_REG_OFFSET) = 0xffffffff := by
    rw [hES _ (by decide) (by decide), memGet_append_left esContMem rest _ (by decide)]
    decide
  have v48 : memGet hw.mem
      (kBaseEntropySrc + ENTROPY_SRC_MARKOV_HI_THRESHOLDS_REG_OFFSET) = 0xffffffff := by
    rw [hES _ (by decide) (by decide), memGet_append_left esContMem rest _ (by decide)]
    decide
  have v4c : memGet hw.mem
      (kBaseEntropySrc + ENTROPY_SRC_MARKOV_LO_THRESHOLDS_REG_OFFSET) = 0xffff0000 := by
    rw [hES _ (by decide) (by decide), memGet_append_left esContMem rest _ (by decide)]
    decide
  have v50 : memGet hw.mem
      (kBaseEntropySrc + ENTROPY_SRC_EXTHT_HI_THRESHOLDS_REG_OFFSET) = 0xffffffff := by
    rw [hES _ (by decide) (by decide), memGet_append_left esContMem rest _ (by decide)]
    decide
  have v54 : memGet hw.mem
      (kBaseEntropySrc + ENTROPY_SRC_EXTHT_LO_THRESHOLDS_REG_OFFSET) = 0xffff0000 := by
    rw [hES _ (by decide) (by decide), memGet_append_left esContMem rest _ (by decide)]
    decide
  unfold entropy_complex_check
  rw [if_neg (by decide)]
  unfold entropy_src_check
  rw [if_neg (by decide)]
  unfold VERIFY_FIPS_THRESH
  rw [read_cfg (kBaseEntropySrc + ENTROPY_SRC_MODULE_ENABLE_REG_OFFSET) (by decide)]
  dsimp only
  rw [if_neg (by rw [v20]; decide)]
  rw [read_cfg (kBaseEntropySrc + ENTROPY_SRC_CONF_REG_OFFSET) (by decide)]
  dsimp only
  rw [if_neg (by rw [v24]; decide)]
  rw [read_cfg (kBaseEntropySrc + ENTROPY_SRC_ENTROPY_CONTROL_REG_OFFSET) (by decide)]
  dsimp only
  rw [if_neg (by rw [v28]; decide)]
  rw [read_cfg (kBaseEntropySrc + ENTROPY_SRC_HEALTH_TEST_WINDOWS_REG_OFFSET) (by decide)]
  dsimp only
  rw [if_neg (by rw [v30]; decide)]
  rw [read_cfg (kBaseEntropySrc + ENTROPY_SRC_ALERT_THRESHOLD_REG_OFFSET) (by decide)]
  dsimp only
  rw [if_neg (by rw [v58]; decide)]
  rw [read_cfg (kBaseEntropySrc + ENTROPY_SRC_REPCNT_THRESHOLDS_REG_OFFSET) (by decide)]
  dsimp only
  rw [if_neg (by rw [v34]; decide)]
  rw [read_cfg (kBaseEntropySrc + ENTROPY_SRC_REPCNTS_THRESHOLDS_REG_OFFSET) (by decide)]
  dsimp only
  rw [if_neg (by rw [v38]; decide)]
  rw [read_cfg (kBaseEntropySrc + ENTROPY_SRC_ADAPTP_HI_THRESHOLDS_REG_OFFSET) (by decide)]
  dsimp only
  rw [if_neg (by rw [v3c]; decide)]
  rw [read_cfg (kBaseEntropySrc + ENTROPY_SRC_ADAPTP_LO_THRESHOLDS_REG_OFFSET) (by decide)]
  dsimp only
  rw [if_neg (by rw [v40]; decide)]
  rw [read_cfg (kBaseEntropySrc + ENTROPY_SRC_BUCKET_THRESHOLDS_REG_OFFSET) (by decide)]
  dsimp only
  rw [if_neg (by rw [v44]; decide)]
  rw [read_cfg (kBaseEntropySrc + ENTROPY_SRC_MARKOV_HI_THRESHOLDS_REG_OFFSET) (by decide)]
  dsimp only
  rw [if_neg (by rw [v48]; decide)]
  rw [read_cfg (kBaseEntropySrc + ENTROPY_SRC_MARKOV_LO_THRESHOLDS_REG_OFFSET) (by decide)]
  dsimp only
  rw [if_neg (by rw [v4c]; decide)]
  rw [read_cfg (kBaseEntropySrc + ENTROPY_SRC_EXTHT_HI_THRESHOLDS_REG_OFFSET) (by decide)]
  dsimp only
  rw [if_neg (by rw [v50]; decide)]
  rw [read_cfg (kBaseEntropySrc + ENTROPY_SRC_EXTHT_LO_THRESHOLDS_REG_OFFSET) (by decide)]
  dsimp only
  rw [if_neg (by rw [v54]; decide)]
  dsimp only [statusTry]
  rw [if_pos rfl]
  unfold csrng_check
  rw [read_cfg (kBaseCsrng + CSRNG_CTRL_REG_OFFSET) (by decide)]
  dsimp only
  rw [if_pos (by rw [hCS]; decide)]
  dsimp only [statusTry]
  rw [if_pos rfl]
  unfold edn_check
  rw [read_cfg
    (kEntropyComplexConfigContinuous.edn0.base_address + EDN_CTRL_REG_OFFSET) (by decide)]
  dsimp only
  rw [if_pos (by rw [hE0]; exact ⟨by decide, by decide⟩)]
  dsimp only [statusTry]
  rw [if_pos rfl]
  rw [read_cfg
    (kEntropyComplexConfigContinuous.edn1.base_address + EDN_CTRL_REG_OFFSET) (by decide)]
  dsimp only
  rw [if_pos (by rw [hE1]; exact ⟨by decide, by decide⟩)]
  rfl

set_option maxHeartbeats 1000000 in
/-- C2: whenever `entropy_complex_init` completes successfully, running
`entropy_complex_check` immediately afterwards on the resulting hardware
state also reports success: the attestation accepts exactly the register
values the initialisation deposited. -/
theorem entropy_complex_init_then_check (hw hw₁ : Hw)
    (h : entropy_complex_init hw = some (status_t.Ok, hw₁)) :
    statusOf (entropy_complex_check hw₁) = some status_t.Ok := by
  unfold entropy_complex_init at h
  rw [stop_all_eq hw] at h
  dsimp only at h
  rw [if_neg (by decide)] at h
  have hS0w : (Hw.mk
      ((kBaseEntropySrc + ENTROPY_SRC_ALERT_THRESHOLD_REG_OFFSET,
        ENTROPY_SRC_ALERT_THRESHOLD_REG_RESVAL) ::
       (kBaseEntropySrc + ENTROPY_SRC_HEALTH_TEST_WINDOWS_REG_OFFSET,
        ENTROPY_SRC_HEALTH_TEST_WINDOWS_REG_RESVAL) ::
       (kBaseEntropySrc + ENTROPY_SRC_CONF_REG_OFFSET,
        ENTROPY_SRC_CONF_REG_RESVAL) ::
       (kBaseEntropySrc + ENTROPY_SRC_ENTROPY_CONTROL_REG_OFFSET,
        ENTROPY_SRC_ENTROPY_CONTROL_REG_RESVAL) ::
       (kBaseEntropySrc + ENTROPY_SRC_MODULE_ENABLE_REG_OFFSET,
        ENTROPY_SRC_MODULE_ENABLE_REG_RESVAL) ::
       (kBaseCsrng + CSRNG_CTRL_REG_OFFSET, CSRNG_CTRL_REG_RESVAL) ::
       (kBaseEdn1 + EDN_CTRL_REG_OFFSET, EDN_CTRL_REG_RESVAL) ::
       (kBaseEdn1 + EDN_CTRL_REG_OFFSET,
        bitfield_field32_write (memGet hw.mem (kBaseEdn1 + EDN_CTRL_REG_OFFSET))
          EDN_CTRL_CMD_FIFO_RST_FIELD kMultiBitBool4True) ::
       (kBaseEdn0 + EDN_CTRL_REG_OFFSET, EDN_CTRL_REG_RESVAL) ::
       (kBaseEdn0 + EDN_CTRL_REG_OFFSET,
        bitfield_field32_write (memGet hw.mem (kBaseEdn0 + EDN_CTRL_REG_OFFSET))
          EDN_CTRL_CMD_FIFO_RST_FIELD kMultiBitBool4True) :: hw.mem)
      hw.oracle
      (hw.readLog ++
        [(kBaseEdn0 + EDN_CTRL_REG_OFFSET,
          memGet hw.mem (kBaseEdn0 + EDN_CTRL_REG_OFFSET))] ++
        [(kBaseEdn1 + EDN_CTRL_REG_OFFSET,
          memGet hw.mem (kBaseEdn1 + EDN_CTRL_REG_OFFSET))])
      (stopAllWriteLog hw)).writeLog = stopAllWriteLog hw := rfl
  generalize hGen : (Hw.mk _ hw.oracle _ (stopAllWriteLog hw)) = S0 at h hS0w
  cases hes : entropy_src_configure kEntropyComplexConfigContinuous.entropy_src S0 with
  | none => rw [hes] at h; simp [statusTry] at h
  | some pA =>
    obtain ⟨sA, S1⟩ := pA
    rw [hes] at h
    have hcont := entropy_src_configure_cont S0
    rw [hes] at hcont
    simp only [Option.map_some', Option.some.injEq, Prod.mk.injEq] at hcont
    obtain ⟨hsA, hS1mem⟩ := hcont
    subst hsA
    rw [statusTry] at h
    rw [if_pos rfl] at h
    cases hed0 : edn_configure kEntropyComplexConfigContinuous.edn0
        (csrng_configure S1) with
    | none => rw [hed0] at h; simp [statusTry] at h
    | some p0 =>
      obtain ⟨s0, S2⟩ := p0
      rw [hed0] at h
      rw [statusTry] at h
      split at h
      case isFalse hs0 =>
        simp only [Option.some.injEq, Prod.mk.injEq] at h
        exact absurd h.1 hs0
      case isTrue hs0 =>
        obtain ⟨-, hm0, hc0⟩ := edn_configure_effects hed0
        obtain ⟨-, hm1, hc1⟩ := edn_configure_effects h
        have hcw : ∀ b, b ≠ kBaseCsrng + CSRNG_CTRL_REG_OFFSET →
            memGet (csrng_configure S1).mem b = memGet S1.mem b :=
          fun b hb => write_memGet_ne hb
        apply entropy_complex_check_ok_of hw₁ S0.mem
        · intro a hlo hhi
          rw [hm1 a (by show a ≠ 0x41180028; omega) (by show a ≠ 0x4118002c; omega)
            (by show a ≠ 0x41180030; omega) (by show a ≠ 0x41180014; omega)
            (by show a ≠ 0x41180020; omega) (by show a ≠ 0x41150000; omega)]
          rw [hm0 a (by show a ≠ 0x41170028; omega) (by show a ≠ 0x4117002c; omega)
            (by show a ≠ 0x41170030; omega) (by show a ≠ 0x41170014; omega)
            (by show a ≠ 0x41170020; omega) (by show a ≠ 0x41150000; omega)]
          rw [hcw a (by show a ≠ 0x41150014; omega), hS1mem]
        · rw [hm1 _ (by decide) (by decide) (by decide) (by decide) (by decide)
            (by decide)]
          rw [hm0 _ (by decide) (by decide) (by decide) (by decide) (by decide)
            (by decide)]
          exact memGet_cons_self
        · rw [hm1 _ (by decide) (by decide) (by decide) (by decide) (by decide)
            (by decide)]
          rw [hc0 hs0 (by decide)]
          decide
        · rw [hc1 rfl (by decide)]
          decide

/-- Witness for C2: the final state of the concrete successful
initialisation run passes the attestation. -/
theorem entropy_complex_init_then_check_witness :
    statusOf (entropy_complex_check cInitHwOut) = some status_t.Ok :=
  entropy_complex_init_then_check cInitHwIn cInitHwOut rfl

end EntropyDrv
